import Mathlib

/-!
The grblHAL supervisory state machine (`GRBL/state_machine.c`).

A shallow embedding of the state machine of `state_machine.c`.

* The static and global variables the file owns or writes (`sys`, `stateHandler`,
  `pending_state`, `restore_condition`, `restore_spindle_rpm`, `park`) form the record
  `Config`.
* Calls into other modules that act on the machine (planner, stepper, spindle, coolant,
  report, delay) are appended, in program order, to `Config.log`.  A call is logged with
  its arguments; what the collaborator does inside the call, such as `delay_sec` polling
  the realtime events while it waits, is not part of this file.
* Values the file only reads from other modules (planner block, door sensor, settings,
  G-code modal state, return values of collaborator calls) come from `Env`; an answer
  that a collaborator call may change is a function of the calls logged so far.
* Variables of `Config` that a collaborator writes inside a logged call, such as
  `sys.step_control.execute_sys_motion` set by `mc_parking_motion`, are not written by the
  model of the call; a statement over several calls that depends on them quantifies over
  the step-control flags found at each call.
* `float` quantities are read over the ordered field `ℚ`.
* The two busy waits of the file poll a collaborator until it answers; they run with the
  budget `Env.poll_budget` and a wait that outlasts it is the outcome `Stop.hang`.
* The handler slot is a function pointer; handlers call each other and `set_state`
  through it.  Each C function is one definition that receives the interpreter for the
  nested calls (`Rec`); `exec` ties the knot with an explicit nesting budget, and `run`
  fixes the budget.  `run_no_depth` shows that the budget of `run` is never used up,
  `exec_eq_run` that a larger one changes nothing.
* Both builds are covered: `Env.PARKING_ENABLE` selects the code under
  `#ifdef PARKING_ENABLE`.  The handlers `state_await_waypoint_retract`, `state_restore`
  and `state_await_resumed` exist in the parking build only.
-/

namespace Grbl

/-! ## Data model -/

/-- Modelled from the spec: the `STATE_*` constants of the absent `system.h`; the
supervisor state is a tagged variant (§3), each constant a distinct flag, `STATE_IDLE`
being zero.  A test `sys.state & (A|B)` is membership in `[A, B]`. -/
inductive State
  | STATE_IDLE | STATE_ALARM | STATE_CHECK_MODE | STATE_HOMING | STATE_CYCLE | STATE_HOLD
  | STATE_JOG | STATE_SAFETY_DOOR | STATE_SLEEP | STATE_ESTOP | STATE_TOOL_CHANGE
  deriving DecidableEq

/-- The test `sys.state & (A | B | ...)` for the flags listed in `l`. -/
def State.among (s : State) (l : List State) : Bool := l.contains s

/-- The functions a `stateHandler` pointer can hold. -/
inductive Handler
  | state_idle | state_cycle | state_await_hold | state_noop | state_await_motion_cancel
  | state_await_resume | state_await_waypoint_retract | state_restore | state_await_resumed
  deriving DecidableEq

/-- Modelled from the spec: `sys.holding_state` (§3, holding sub-state). -/
inductive HoldingState
  | Hold_NotHolding | Hold_Pending | Hold_Complete
  deriving DecidableEq

/-- Modelled from the spec: `sys.parking_state` (§3, parking sub-state). -/
inductive ParkingState
  | Parking_DoorClosed | Parking_Retracting | Parking_DoorAjar | Parking_Resuming
  deriving DecidableEq

/-- Modelled from the spec: the realtime event bitmask `rt_exec` (§3).  The `EXEC_*` bit
positions live in the absent `system.h`; each bit the file tests is a field, the other
bits are kept in `other`. -/
structure Events where
  cycle_start : Bool := false
  feed_hold : Bool := false
  cycle_complete : Bool := false
  motion_cancel : Bool := false
  safety_door : Bool := false
  other : Nat := 0
  deriving DecidableEq

/-- The mask `EXEC_CYCLE_COMPLETE` alone. -/
def EXEC_CYCLE_COMPLETE : Events := { cycle_complete := true }
/-- The mask `EXEC_CYCLE_START` alone. -/
def EXEC_CYCLE_START : Events := { cycle_start := true }
/-- The mask `EXEC_FEED_HOLD` alone. -/
def EXEC_FEED_HOLD : Events := { feed_hold := true }
/-- The mask `EXEC_MOTION_CANCEL` alone. -/
def EXEC_MOTION_CANCEL : Events := { motion_cancel := true }
/-- The mask `EXEC_SAFETY_DOOR` alone. -/
def EXEC_SAFETY_DOOR : Events := { safety_door := true }

/-- Modelled from the spec: `spindle_state_t`, a flag byte read as `value` or by flag. -/
structure spindle_state_t where
  /-- The flag `on`. -/
  on_ : Bool := false
  ccw : Bool := false
  synchronized : Bool := false
  deriving DecidableEq

/-- Modelled from the spec: `coolant_state_t`, a flag byte read as `value` or `mask`. -/
structure coolant_state_t where
  mask : Nat := 0
  deriving DecidableEq

/-- Modelled from the spec: `planner_cond_t`; `flags` stands for the motion flags the file
never touches. -/
structure planner_cond_t where
  system_motion : Bool := false
  no_feed_override : Bool := false
  flags : Nat := 0
  spindle : spindle_state_t := {}
  coolant : coolant_state_t := {}
  deriving DecidableEq

/-- Modelled from the spec: the fields of `plan_line_data_t` the file uses. -/
structure plan_line_data_t where
  feed_rate : ℚ := 0
  spindle_rpm : ℚ := 0
  condition : planner_cond_t := {}
  line_number : Int := 0
  deriving DecidableEq

/-- Modelled from the spec: the fields of `plan_block_t` the file reads. -/
structure plan_block_t where
  condition : planner_cond_t := {}
  spindle_rpm : ℚ := 0
  deriving DecidableEq

/-- The struct `parking_data_t`. -/
structure parking_data_t where
  target : List ℚ := []
  restore_target : List ℚ := []
  retract_waypoint : ℚ := 0
  retracting : Bool := false
  restart_retract : Bool := false
  plan_data : plan_line_data_t := {}
  deriving DecidableEq

/-- Modelled from the spec: `step_control_t` (§3, step-control flags); `flags = 0` clears
all of them. -/
structure step_control_t where
  execute_hold : Bool := false
  execute_sys_motion : Bool := false
  update_spindle_rpm : Bool := false
  deriving DecidableEq

/-- Modelled from the spec: `sys.spindle_stop_ovr`, a flag byte read as `value` or by
flag. -/
structure spindle_stop_t where
  enabled : Bool := false
  initiate : Bool := false
  restore : Bool := false
  restore_cycle : Bool := false
  deriving DecidableEq

/-- The test `sys.spindle_stop_ovr.value != 0`. -/
def spindle_stop_t.value (o : spindle_stop_t) : Bool :=
  o.enabled || o.initiate || o.restore || o.restore_cycle

/-- Modelled from the spec: the two fields of `sys.override_ctrl` the file reads. -/
structure override_ctrl_t where
  feed_hold_disable : Bool := false
  parking_disable : Bool := false
  deriving DecidableEq

/-- Feedback messages the file emits. -/
inductive Message
  | Message_SafetyDoorAjar | Message_SpindleRestore
  deriving DecidableEq

/-- Calls into collaborator modules that act on the machine, with their arguments. -/
inductive Effect
  | report_feedback_message (m : Message)
  | st_update_plan_block_parameters
  | st_prep_buffer
  | st_wake_up
  | spindle_reset_data
  | plan_reset
  | st_reset
  | gc_sync_position
  | plan_sync_position
  /-- The call `plan_cycle_reinitialize()`. -/
  | plan_cycle_reinit
  | spindle_stop
  | hal_coolant_set_state (s : coolant_state_t)
  | coolant_set_state (s : coolant_state_t)
  | spindle_set_state (s : spindle_state_t) (rpm : ℚ)
  | delay_sec (seconds : ℚ)
  | mc_parking_motion (target : List ℚ) (pl_data : plan_line_data_t)
  | st_parking_restore_buffer
  | enqueue_accessory_ovr_spindle_stop
  deriving DecidableEq

/-- The variables `state_machine.c` owns or writes, and the log of collaborator calls. -/
structure Config where
  state : State := .STATE_IDLE
  suspend : Bool := false
  step_control : step_control_t := {}
  holding_state : HoldingState := .Hold_NotHolding
  parking_state : ParkingState := .Parking_DoorClosed
  steppers_deenergize : Bool := false
  spindle_stop_ovr : spindle_stop_t := {}
  override_ctrl : override_ctrl_t := {}
  stateHandler : Handler := .state_idle
  restore_spindle_rpm : ℚ := 0
  restore_condition : planner_cond_t := {}
  pending_state : State := .STATE_IDLE
  park : parking_data_t := {}
  log : List Effect := []
  deriving DecidableEq

/-- What the file reads from the rest of the firmware.  Build-time constants and settings
are plain values; an answer that depends on what the collaborators were asked to do is
a function of the log of calls made so far. -/
structure Env where
  /-- Build flag `PARKING_ENABLE`. -/
  PARKING_ENABLE : Bool := false
  /-- Build flag `DISABLE_LASER_DURING_HOLD`. -/
  DISABLE_LASER_DURING_HOLD : Bool := false
  PARKING_AXIS : Nat := 2
  PARKING_TARGET : ℚ := -5
  PARKING_PULLOUT_INCREMENT : ℚ := 5
  PARKING_PULLOUT_RATE : ℚ := 100
  PARKING_RATE : ℚ := 500
  PARKING_MOTION_LINE_NUMBER : Int := 0
  SAFETY_DOOR_SPINDLE_DELAY : ℚ := 4
  SAFETY_DOOR_COOLANT_DELAY : ℚ := 1
  /-- Setting `settings.flags.laser_mode`. -/
  laser_mode : Bool := false
  /-- Setting `settings.flags.homing_enable`. -/
  homing_enable : Bool := false
  /-- Capability `hal.driver_cap.spindle_at_speed`. -/
  cap_spindle_at_speed : Bool := false
  /-- Whether `hal.spindle_reset_data` is not `NULL`. -/
  has_spindle_reset_data : Bool := false
  /-- Global `gc_state.modal.spindle`. -/
  gc_modal_spindle : spindle_state_t := {}
  /-- Global `gc_state.modal.coolant`. -/
  gc_modal_coolant : coolant_state_t := {}
  /-- Global `gc_state.spindle.rpm`. -/
  gc_spindle_rpm : ℚ := 0
  /-- Result of `plan_get_current_block()`, `none` for `NULL`. -/
  plan_get_current_block : List Effect → Option plan_block_t := fun _ => none
  /-- Result of `hal.coolant_get_state()`. -/
  hal_coolant_get_state : List Effect → coolant_state_t := fun _ => {}
  /-- Result of `hal.system_control_get_state().safety_door_ajar`. -/
  safety_door_ajar : List Effect → Bool := fun _ => false
  /-- Result of `hal.spindle_get_state().at_speed`. -/
  spindle_at_speed : List Effect → Bool := fun _ => true
  /-- Return value of `spindle_set_state(state, rpm)`. -/
  spindle_set_state : List Effect → spindle_state_t → ℚ → Bool := fun _ _ _ => true
  /-- Return value of `mc_parking_motion(target, pl_data)`. -/
  mc_parking_motion : List Effect → List ℚ → plan_line_data_t → Bool := fun _ _ _ => true
  /-- Machine position written by `system_convert_array_steps_to_mpos(_, sys_position)`. -/
  mpos : List Effect → List ℚ := fun _ => []
  /-- Value of `hal.spindle_get_data(SpindleData_Counters).index_count` at the k-th poll
  of a busy wait. -/
  spindle_index_count : List Effect → Nat → Nat := fun _ _ => 0
  /-- Number of polls after which a busy wait that has not succeeded counts as hung. -/
  poll_budget : Nat := 0

/-- Why a call does not return a configuration: a busy wait that never ends, or the
nesting budget of `exec` used up. -/
inductive Stop
  | hang | depth
  deriving DecidableEq

deriving instance DecidableEq for Except

/-- Outcome of a call. -/
abbrev Res := Except Stop Config

/-! ## Assignments

One function per variable the file assigns, so that a sequence of assignments stays a
chain of small terms. -/

/-- Append a collaborator call to the log. -/
@[simps]
def Config.emit (c : Config) (e : Effect) : Config := { c with log := c.log ++ [e] }

/-- Append a list of collaborator calls to the log. -/
@[simps]
def Config.emits (c : Config) (l : List Effect) : Config := { c with log := c.log ++ l }

/-- The assignment `sys.state = v`. -/
@[simps]
def Config.with_state (c : Config) (v : State) : Config := { c with state := v }

/-- The assignment `sys.suspend = v`. -/
@[simps]
def Config.with_suspend (c : Config) (v : Bool) : Config := { c with suspend := v }

/-- The assignment `sys.step_control = v`. -/
@[simps]
def Config.with_step_control (c : Config) (v : step_control_t) : Config := { c with step_control := v }

/-- The assignment `sys.holding_state = v`. -/
@[simps]
def Config.with_holding_state (c : Config) (v : HoldingState) : Config := { c with holding_state := v }

/-- The assignment `sys.parking_state = v`. -/
@[simps]
def Config.with_parking_state (c : Config) (v : ParkingState) : Config := { c with parking_state := v }

/-- The assignment `sys.steppers_deenergize = v`. -/
@[simps]
def Config.with_steppers_deenergize (c : Config) (v : Bool) : Config := { c with steppers_deenergize := v }

/-- The assignment `sys.spindle_stop_ovr = v`. -/
@[simps]
def Config.with_spindle_stop_ovr (c : Config) (v : spindle_stop_t) : Config := { c with spindle_stop_ovr := v }

/-- The assignment `stateHandler = v`. -/
@[simps]
def Config.with_stateHandler (c : Config) (v : Handler) : Config := { c with stateHandler := v }

/-- The assignment `restore_spindle_rpm = v`. -/
@[simps]
def Config.with_restore_spindle_rpm (c : Config) (v : ℚ) : Config := { c with restore_spindle_rpm := v }

/-- The assignment `restore_condition = v`. -/
@[simps]
def Config.with_restore_condition (c : Config) (v : planner_cond_t) : Config := { c with restore_condition := v }

/-- The assignment `pending_state = v`. -/
@[simps]
def Config.with_pending_state (c : Config) (v : State) : Config := { c with pending_state := v }

/-- The assignment `park.target = v`. -/
@[simps]
def Config.with_park_target (c : Config) (v : List ℚ) : Config :=
  { c with park := { c.park with target := v } }

/-- The assignment `park.restore_target = v`. -/
@[simps]
def Config.with_park_restore_target (c : Config) (v : List ℚ) : Config :=
  { c with park := { c.park with restore_target := v } }

/-- The assignment `park.retract_waypoint = v`. -/
@[simps]
def Config.with_park_retract_waypoint (c : Config) (v : ℚ) : Config :=
  { c with park := { c.park with retract_waypoint := v } }

/-- The assignment `park.retracting = v`. -/
@[simps]
def Config.with_park_retracting (c : Config) (v : Bool) : Config :=
  { c with park := { c.park with retracting := v } }

/-- The assignment `park.restart_retract = v`. -/
@[simps]
def Config.with_park_restart_retract (c : Config) (v : Bool) : Config :=
  { c with park := { c.park with restart_retract := v } }

/-- The assignment `park.plan_data = v`. -/
@[simps]
def Config.with_park_plan_data (c : Config) (v : plan_line_data_t) : Config :=
  { c with park := { c.park with plan_data := v } }

/-! ## The functions of `state_machine.c` -/

/-- A call into the state machine: the two entry points and a call of a handler. -/
inductive Call
  | update_state (rt_exec : Events)
  | set_state (new_state : State)
  | handler (h : Handler) (rt_exec : Events)
  deriving DecidableEq

/-- Interpreter for the calls a function makes into the state machine. -/
abbrev Rec := Call → Config → Res

/-- The loop `while(!hal.spindle_get_state().at_speed) delay_sec(0.1f, DelayMode_SysSuspend);`
with a budget of polls. -/
def wait_at_speed (E : Env) : Nat → Config → Res
  | 0, c => if E.spindle_at_speed c.log then .ok c else .error .hang
  | n + 1, c =>
    if E.spindle_at_speed c.log then .ok c
    else wait_at_speed E n (c.emit (.delay_sec (1 / 10)))

/-- The loop `while(index != hal.spindle_get_data(SpindleData_Counters).index_count);`
from poll number `k` on, with a budget of polls: `true` when the loop exits. -/
def wait_index (poll : Nat → Nat) (index : Nat) : Nat → Nat → Bool
  | 0, _ => false
  | n + 1, k => if index = poll k % 2 ^ 32 then true else wait_index poll index n (k + 1)

/-- The function `state_restore_conditions(condition, rpm)`. -/
def state_restore_conditions (E : Env) (condition : planner_cond_t) (rpm : ℚ)
    (c : Config) : Res :=
  if E.PARKING_ENABLE && c.park.restart_retract then .ok c
  else
    (if E.gc_modal_spindle.on_ then
      if E.laser_mode then
        Except.ok (c.with_step_control { c.step_control with update_spindle_rpm := true })
      else
        let changed := E.spindle_set_state c.log condition.spindle rpm
        let c := c.emit (.spindle_set_state condition.spindle rpm)
        if changed then
          if E.cap_spindle_at_speed then wait_at_speed E E.poll_budget c
          else .ok (c.emit (.delay_sec E.SAFETY_DOOR_SPINDLE_DELAY))
        else .ok c
    else .ok c) >>= fun c =>
    if E.gc_modal_coolant.mask ≠ 0 then
      .ok ((c.emit (.coolant_set_state condition.coolant)).emit
        (.delay_sec E.SAFETY_DOOR_COOLANT_DELAY))
    else .ok c

/-- The start of `initiate_hold` in the parking build: clear `park.plan_data`, set its
`system_motion` and `no_feed_override` flags and line number, and preset
`park.retract_waypoint`. -/
def hold_park_init (E : Env) (c : Config) : Config :=
  if E.PARKING_ENABLE then
    (c.with_park_plan_data
      { condition := { system_motion := true, no_feed_override := true },
        line_number := E.PARKING_MOTION_LINE_NUMBER }).with_park_retract_waypoint
      E.PARKING_PULLOUT_INCREMENT
  else c

/-- The snapshot of `initiate_hold`: `restore_condition` and `restore_spindle_rpm` from the
G-code modal state and the hardware coolant state when the planner has no current block,
from the block otherwise. -/
def hold_snapshot (E : Env) (c : Config) : Config :=
  match E.plan_get_current_block c.log with
  | none =>
    (c.with_restore_condition { c.restore_condition with
        spindle := E.gc_modal_spindle,
        coolant := { mask := E.gc_modal_coolant.mask ||| (E.hal_coolant_get_state c.log).mask } }
      ).with_restore_spindle_rpm E.gc_spindle_rpm
  | some block =>
    (c.with_restore_condition block.condition).with_restore_spindle_rpm block.spindle_rpm

/-- The block of `initiate_hold` under `DISABLE_LASER_DURING_HOLD`. -/
def hold_laser (E : Env) (c : Config) : Config :=
  if E.DISABLE_LASER_DURING_HOLD && E.laser_mode then
    c.emit .enqueue_accessory_ovr_spindle_stop
  else c

/-- The block `if(sys.state & (STATE_CYCLE|STATE_JOG)) { ... }` of `initiate_hold`. -/
def hold_decelerate (c : Config) : Config :=
  if c.state.among [.STATE_CYCLE, .STATE_JOG] then
    (((c.emit .st_update_plan_block_parameters).with_step_control
      { c.step_control with execute_hold := true }).with_stateHandler .state_await_hold)
  else c

/-- The function `initiate_hold(new_state)`: the returned flag and the new configuration. -/
def initiate_hold (E : Env) (new_state : State) (c : Config) : Bool × Config :=
  let c := hold_park_init E c
  let c := hold_snapshot E c
  let c := hold_laser E c
  let c := hold_decelerate c
  let c := if new_state = .STATE_HOLD then c.with_holding_state .Hold_Pending
    else c.with_parking_state .Parking_Retracting
  let c := c.with_suspend true
  let c := c.with_pending_state (if c.state = .STATE_JOG then new_state else .STATE_IDLE)
  (c.state == .STATE_CYCLE, c)

/-- The function `state_door_reopened()`. -/
def state_door_reopened (E : Env) (c : Config) : Bool :=
  if E.PARKING_ENABLE then c.park.restart_retract else false

/-- The function `update_state(rt_exec)`. -/
def update_state (rec : Rec) (rt_exec : Events) (c : Config) : Res :=
  if rt_exec.safety_door && c.state != .STATE_SAFETY_DOOR then
    rec (.set_state .STATE_SAFETY_DOOR) c
  else
    rec (.handler c.stateHandler rt_exec) c

/-- The spindle-synchronized entry of `set_state`, `case STATE_CYCLE`: optional
`hal.spindle_reset_data()`, then the busy wait for the index count to advance by two. -/
def spindle_sync_wait (E : Env) (c : Config) : Res :=
  let c := if E.has_spindle_reset_data then c.emit .spindle_reset_data else c
  let index := (E.spindle_index_count c.log 0 % 2 ^ 32 + 2) % 2 ^ 32
  if wait_index (E.spindle_index_count c.log) index E.poll_budget 1 then .ok c
  else .error .hang

/-- The body of `case STATE_SLEEP:` in `set_state`, which `case STATE_SAFETY_DOOR:` falls
through to. -/
def set_state_case_sleep (E : Env) (rec : Rec) (new_state : State) (c : Config) : Res :=
  let c := c.with_parking_state .Parking_Retracting
  let r := initiate_hold E new_state c
  let c := r.2
  if !r.1 then
    if c.pending_state != new_state then
      rec (.handler .state_await_hold EXEC_CYCLE_COMPLETE) (c.with_state new_state)
    else .ok c
  else .ok (c.with_state new_state)

/-- The function `set_state(new_state)`. -/
def set_state (E : Env) (rec : Rec) (new_state : State) (c : Config) : Res :=
  if new_state = c.state then .ok c
  else match new_state with
    | .STATE_IDLE =>
      .ok ((((((c.with_suspend false).with_step_control {}).with_parking_state
        .Parking_DoorClosed).with_holding_state .Hold_NotHolding).with_state
        new_state).with_stateHandler .state_idle)
    | .STATE_CYCLE =>
      if c.state = .STATE_IDLE then
        match E.plan_get_current_block c.log with
        | some block =>
          let c := (c.with_state new_state).with_steppers_deenergize false
          let c := c.emit .st_prep_buffer
          (if block.condition.spindle.synchronized then spindle_sync_wait E c else .ok c)
            >>= fun c => .ok ((c.emit .st_wake_up).with_stateHandler .state_cycle)
        | none => .ok c
      else .ok c
    | .STATE_JOG => .ok ((c.with_state new_state).with_stateHandler .state_cycle)
    | .STATE_HOLD =>
      if !(c.state.among [.STATE_JOG] || c.override_ctrl.feed_hold_disable) then
        let r := initiate_hold E new_state c
        let c := r.2
        let c := if !r.1 then
            (c.with_holding_state .Hold_Complete).with_stateHandler .state_await_resume
          else c
        .ok (c.with_state new_state)
      else .ok c
    | .STATE_SAFETY_DOOR =>
      if c.state.among [.STATE_ALARM, .STATE_ESTOP, .STATE_SLEEP, .STATE_CHECK_MODE] then
        .ok c
      else
        set_state_case_sleep E rec new_state
          (c.emit (.report_feedback_message .Message_SafetyDoorAjar))
    | .STATE_SLEEP => set_state_case_sleep E rec new_state c
    | .STATE_ALARM | .STATE_ESTOP | .STATE_HOMING | .STATE_CHECK_MODE =>
      .ok ((c.with_state new_state).with_stateHandler .state_noop)
    | .STATE_TOOL_CHANGE => .ok c

/-- The handler `state_idle`. -/
def state_idle (rec : Rec) (rt_exec : Events) (c : Config) : Res :=
  (if rt_exec.cycle_start then rec (.set_state .STATE_CYCLE) c else .ok c) >>= fun c =>
  if rt_exec.feed_hold then rec (.set_state .STATE_HOLD) c else .ok c

/-- The block of `state_cycle` run on `EXEC_MOTION_CANCEL`. -/
def motion_cancel (c : Config) : Config :=
  (((c.emit .st_update_plan_block_parameters).with_suspend true).with_step_control
    { c.step_control with execute_hold := true }).with_stateHandler .state_await_motion_cancel

/-- The handler `state_cycle`. -/
def state_cycle (rec : Rec) (rt_exec : Events) (c : Config) : Res :=
  (if rt_exec.cycle_complete then rec (.set_state .STATE_IDLE) c else .ok c) >>= fun c =>
  let c := if rt_exec.motion_cancel then motion_cancel c else c
  if rt_exec.feed_hold then rec (.set_state .STATE_HOLD) c else .ok c

/-- The handler `state_await_motion_cancel`. -/
def state_await_motion_cancel (rec : Rec) (rt_exec : Events) (c : Config) : Res :=
  if rt_exec.cycle_complete then
    let c := if c.state = .STATE_JOG then
        (((((c.with_step_control {}).emit .plan_reset).emit .st_reset).emit
          .gc_sync_position).emit .plan_sync_position)
      else c
    rec (.set_state c.pending_state) c
  else .ok c

/-- The read `a[PARKING_AXIS]` of an axis array. -/
def axis_get (a : List ℚ) (i : Nat) : ℚ := a.getD i 0

/-- The sequence `spindle_stop(); hal.coolant_set_state((coolant_state_t){0});`. -/
def de_energize (c : Config) : Config :=
  (c.emit .spindle_stop).emit (.hal_coolant_set_state { mask := 0 })

/-- The block `if(sys.step_control.execute_sys_motion) { ... }` that ends a parking
motion: clear the flag and call `st_parking_restore_buffer()`. -/
def end_sys_motion (c : Config) : Config :=
  if c.step_control.execute_sys_motion then
    (c.with_step_control { c.step_control with execute_sys_motion := false }).emit
      .st_parking_restore_buffer
  else c

/-- The call `mc_parking_motion(target, &park.plan_data)`: the answer of the collaborator
and the configuration with the call logged. -/
def call_mc_parking_motion (E : Env) (target : List ℚ) (c : Config) : Bool × Config :=
  (E.mc_parking_motion c.log target c.park.plan_data,
    c.emit (.mc_parking_motion target c.park.plan_data))

/-- The start of the parking-enabled part of `state_await_hold`: read the machine position
into `park.target` and, unless `park.restart_retract` is set, store the restore location
and the clamped retract waypoint. -/
def park_retract_setup (E : Env) (c : Config) : Config :=
  let c := c.with_park_target (E.mpos c.log)
  if !c.park.restart_retract then
    let c := c.with_park_restore_target c.park.target
    let c := c.with_park_retract_waypoint
      (c.park.retract_waypoint + axis_get c.park.restore_target E.PARKING_AXIS)
    c.with_park_retract_waypoint (min c.park.retract_waypoint E.PARKING_TARGET)
  else c

/-- The pull-out decision of the parking-enabled part of `state_await_hold`: the flag
`handler_changed` and the new configuration. -/
def park_retract (E : Env) (rec : Rec) (c : Config) : Except Stop (Bool × Config) :=
  if E.homing_enable && decide (axis_get c.park.target E.PARKING_AXIS < E.PARKING_TARGET)
      && !E.laser_mode && !c.override_ctrl.parking_disable then
    let c := c.with_stateHandler .state_await_waypoint_retract
    if axis_get c.park.target E.PARKING_AXIS < c.park.retract_waypoint then
      let c := c.with_park_target (c.park.target.set E.PARKING_AXIS c.park.retract_waypoint)
      let c := c.with_park_plan_data { c.park.plan_data with
        feed_rate := E.PARKING_PULLOUT_RATE,
        condition := { c.park.plan_data.condition with
          coolant := c.restore_condition.coolant,
          spindle := c.restore_condition.spindle },
        spindle_rpm := c.restore_spindle_rpm }
      let r := call_mc_parking_motion E c.park.target c
      let c := r.2.with_park_retracting r.1
      if !r.1 then (rec (.handler c.stateHandler EXEC_CYCLE_COMPLETE) c).map fun c => (true, c)
      else .ok (true, c)
    else (rec (.handler c.stateHandler EXEC_CYCLE_COMPLETE) c).map fun c => (true, c)
  else
    .ok (false, (de_energize c).with_parking_state .Parking_DoorAjar)

/-- The parking-enabled part of `case STATE_SLEEP: case STATE_SAFETY_DOOR:` in
`state_await_hold`: the flag `handler_changed` and the new configuration. -/
def state_await_hold_parking (E : Env) (rec : Rec) (c : Config) : Except Stop (Bool × Config) :=
  park_retract E rec (park_retract_setup E c)

/-- The `default:` branch (feed hold manager) of the switch in `state_await_hold`. -/
def state_await_hold_hold (E : Env) (c : Config) : Config :=
  if c.spindle_stop_ovr.initiate then
    let c := c.with_spindle_stop_ovr {}
    if E.gc_modal_spindle.on_ then
      (c.emit .spindle_stop).with_spindle_stop_ovr { c.spindle_stop_ovr with enabled := true }
    else c
  else c

/-- The handler `state_await_hold`. -/
def state_await_hold (E : Env) (rec : Rec) (rt_exec : Events) (c : Config) : Res :=
  if rt_exec.cycle_complete then
    let c := c.emit .plan_cycle_reinit
    let c := c.with_step_control {}
    (match c.state with
      | .STATE_TOOL_CHANGE => Except.ok (false, de_energize c)
      | .STATE_SLEEP | .STATE_SAFETY_DOOR =>
        let c := c.with_spindle_stop_ovr {}
        if !E.PARKING_ENABLE then
          .ok (false, (de_energize c).with_parking_state .Parking_DoorAjar)
        else state_await_hold_parking E rec c
      | _ => .ok (false, state_await_hold_hold E c)) >>= fun r =>
    if !r.1 then
      .ok ((r.2.with_holding_state .Hold_Complete).with_stateHandler .state_await_resume)
    else .ok r.2
  else .ok c

/-- The parking-enabled part of `case STATE_SLEEP: case STATE_SAFETY_DOOR:` in
`state_await_resume`: the flag `handler_changed` and the new configuration. -/
def state_await_resume_parking (E : Env) (rec : Rec) (c : Config) : Except Stop (Bool × Config) :=
  let c := c.with_park_restart_retract false
  let c := c.with_parking_state .Parking_Resuming
  if c.park.retracting then
    let c := c.with_stateHandler .state_restore
    if axis_get c.park.target E.PARKING_AXIS ≤ E.PARKING_TARGET then
      let c := c.with_park_target (c.park.target.set E.PARKING_AXIS c.park.retract_waypoint)
      let c := c.with_park_plan_data { c.park.plan_data with feed_rate := E.PARKING_RATE }
      let r := call_mc_parking_motion E c.park.target c
      if !r.1 then (rec (.handler r.2.stateHandler EXEC_CYCLE_COMPLETE) r.2).map fun c => (true, c)
      else .ok (true, r.2)
    else (rec (.handler c.stateHandler EXEC_CYCLE_COMPLETE) c).map fun c => (true, c)
  else .ok (false, c)

/-- The `default:` branch (feed hold manager) of the switch in `state_await_resume`. -/
def state_await_resume_hold (E : Env) (c : Config) : Config :=
  if c.spindle_stop_ovr.value then
    if c.spindle_stop_ovr.restore || c.spindle_stop_ovr.restore_cycle then
      let c := if E.gc_modal_spindle.on_ then
          let c := c.emit (.report_feedback_message .Message_SpindleRestore)
          if E.laser_mode then
            c.with_step_control { c.step_control with update_spindle_rpm := true }
          else c.emit (.spindle_set_state c.restore_condition.spindle c.restore_spindle_rpm)
        else c
      c.with_spindle_stop_ovr {}
    else c
  else if c.step_control.update_spindle_rpm then
    (c.emit (.spindle_set_state c.restore_condition.spindle c.restore_spindle_rpm)
      ).with_step_control { c.step_control with update_spindle_rpm := false }
  else c

/-- The handler `state_await_resume`. -/
def state_await_resume (E : Env) (rec : Rec) (rt_exec : Events) (c : Config) : Res :=
  let c := if E.PARKING_ENABLE && rt_exec.cycle_complete then
      (end_sys_motion c).with_parking_state .Parking_DoorAjar
    else c
  if rt_exec.cycle_start
      && !(c.state == .STATE_SAFETY_DOOR && E.safety_door_ajar c.log) then
    let c := if c.state == .STATE_HOLD && !c.spindle_stop_ovr.value then
        c.with_spindle_stop_ovr { c.spindle_stop_ovr with restore_cycle := true }
      else c
    (match c.state with
      | .STATE_TOOL_CHANGE => Except.ok (false, c)
      | .STATE_SLEEP | .STATE_SAFETY_DOOR =>
        if E.PARKING_ENABLE then state_await_resume_parking E rec c
        else
          (state_restore_conditions E c.restore_condition c.restore_spindle_rpm c).map
            fun c => (false, c)
      | _ => .ok (false, state_await_resume_hold E c)) >>= fun r =>
    if !r.1 then
      rec (.set_state .STATE_IDLE) r.2 >>= fun c => rec (.set_state .STATE_CYCLE) c
    else .ok r.2
  else .ok c

/-- The handler `state_await_waypoint_retract` (parking build). -/
def state_await_waypoint_retract (E : Env) (rec : Rec) (rt_exec : Events) (c : Config) : Res :=
  if rt_exec.cycle_complete then
    let c := end_sys_motion c
    let c := c.with_park_plan_data { c.park.plan_data with
      condition := { c.park.plan_data.condition with coolant := { mask := 0 }, spindle := {} },
      spindle_rpm := 0 }
    let c := de_energize c
    let c := c.with_stateHandler .state_await_resume
    if axis_get c.park.target E.PARKING_AXIS < E.PARKING_TARGET then
      let c := c.with_park_target (c.park.target.set E.PARKING_AXIS E.PARKING_TARGET)
      let c := c.with_park_plan_data { c.park.plan_data with feed_rate := E.PARKING_RATE }
      let r := call_mc_parking_motion E c.park.target c
      if r.1 then .ok (r.2.with_park_retracting true)
      else rec (.handler r.2.stateHandler EXEC_CYCLE_COMPLETE) r.2
    else rec (.handler c.stateHandler EXEC_CYCLE_COMPLETE) c
  else .ok c

/-- The function `restart_retract()` (parking build). -/
def restart_retract (rec : Rec) (c : Config) : Res :=
  let c := c.emit (.report_feedback_message .Message_SafetyDoorAjar)
  let c := c.with_stateHandler .state_await_hold
  let c := c.with_park_restart_retract true
  let c := c.with_parking_state .Parking_Retracting
  if c.step_control.execute_sys_motion then
    .ok ((c.emit .st_update_plan_block_parameters).with_step_control
      { c.step_control with execute_hold := true, execute_sys_motion := true })
  else rec (.handler c.stateHandler EXEC_CYCLE_COMPLETE) c

/-- The handler `state_restore` (parking build). -/
def state_restore (E : Env) (rec : Rec) (rt_exec : Events) (c : Config) : Res :=
  if rt_exec.safety_door then restart_retract rec c
  else if rt_exec.cycle_complete then
    let c := end_sys_motion c
    let c := c.with_stateHandler .state_await_resumed
    state_restore_conditions E c.restore_condition c.restore_spindle_rpm c >>= fun c =>
    let c := c.with_park_plan_data { c.park.plan_data with
      feed_rate := E.PARKING_PULLOUT_RATE,
      condition := { c.park.plan_data.condition with
        coolant := c.restore_condition.coolant,
        spindle := c.restore_condition.spindle },
      spindle_rpm := c.restore_spindle_rpm }
    let r := call_mc_parking_motion E c.park.restore_target c
    if !r.1 then rec (.handler r.2.stateHandler EXEC_CYCLE_COMPLETE) r.2
    else .ok r.2
  else .ok c

/-- The handler `state_await_resumed` (parking build). -/
def state_await_resumed (rec : Rec) (rt_exec : Events) (c : Config) : Res :=
  if rt_exec.safety_door then restart_retract rec c
  else if rt_exec.cycle_complete then
    rec (.set_state .STATE_IDLE) (end_sys_motion c) >>= fun c =>
    rec (.set_state .STATE_CYCLE) c
  else .ok c

/-- The handler `state_noop`. -/
def state_noop (_rt_exec : Events) (c : Config) : Res := .ok c

/-- The call `stateHandler(rt_exec)` for the function `h` held by the pointer. -/
def call_handler (E : Env) (rec : Rec) (h : Handler) (rt_exec : Events) (c : Config) : Res :=
  match h with
  | .state_idle => state_idle rec rt_exec c
  | .state_cycle => state_cycle rec rt_exec c
  | .state_await_hold => state_await_hold E rec rt_exec c
  | .state_noop => state_noop rt_exec c
  | .state_await_motion_cancel => state_await_motion_cancel rec rt_exec c
  | .state_await_resume => state_await_resume E rec rt_exec c
  | .state_await_waypoint_retract => state_await_waypoint_retract E rec rt_exec c
  | .state_restore => state_restore E rec rt_exec c
  | .state_await_resumed => state_await_resumed rec rt_exec c

/-- Run a call with at most `n` calls nested inside one another; `Stop.depth` when the
budget is used up. -/
def exec (E : Env) : Nat → Call → Config → Res
  | 0, _, _ => .error .depth
  | n + 1, .update_state rt_exec, c => update_state (exec E n) rt_exec c
  | n + 1, .set_state new_state, c => set_state E (exec E n) new_state c
  | n + 1, .handler h rt_exec, c => call_handler E (exec E n) h rt_exec c

/-- Nesting budget of `run`: enough for `update_state`, a handler, `set_state`, and the
handlers entered one from the other with a synthesized `EXEC_CYCLE_COMPLETE`. -/
def nesting : Nat := 8

/-- Run a call into the state machine. -/
def run (E : Env) (call : Call) (c : Config) : Res := exec E nesting call c

/-! ## Predicates used in the statements -/

/-- Configurations that differ from `c` at most in the step-control flags and by calls
appended to the log. -/
def Frame (c c' : Config) : Prop := ∃ sc l, c' = (c.with_step_control sc).emits l

/-- The result of `call` is the same for every budget from `k` on. -/
def Stable (E : Env) (k : Nat) (call : Call) : Prop :=
  ∀ n c, k ≤ n → exec E n call c = exec E k call c

/-- What the hold and parking handlers leave alone. -/
def Kept (c c' : Config) : Prop :=
  c'.state = c.state ∧ c'.suspend = c.suspend ∧ c'.pending_state = c.pending_state ∧
  c'.override_ctrl = c.override_ctrl ∧ c'.restore_condition = c.restore_condition ∧
  c'.restore_spindle_rpm = c.restore_spindle_rpm ∧
  c'.steppers_deenergize = c.steppers_deenergize

/-- The configuration a call returns, `c` itself when the call does not return. -/
def after (E : Env) (call : Call) (c : Config) : Config :=
  match run E call c with
  | .ok c' => c'
  | .error _ => c


/-- The states in which the machine is held: `STATE_HOLD`, `STATE_SAFETY_DOOR`,
`STATE_SLEEP`, `STATE_TOOL_CHANGE`. -/
def State.held (s : State) : Bool :=
  s.among [.STATE_HOLD, .STATE_SAFETY_DOOR, .STATE_SLEEP, .STATE_TOOL_CHANGE]

/-- The states served by `state_noop`: `STATE_ALARM`, `STATE_ESTOP`, `STATE_HOMING`,
`STATE_CHECK_MODE`. -/
def State.inert (s : State) : Bool :=
  s.among [.STATE_ALARM, .STATE_ESTOP, .STATE_HOMING, .STATE_CHECK_MODE]

/-- In a held state `sys.suspend` is set. -/
def SuspendInv (c : Config) : Prop := c.state.held = true → c.suspend = true

/-- The installed handler fits the state: `state_idle` in `STATE_IDLE`, `state_noop` in
the inert states. -/
def HandlerInv (c : Config) : Prop :=
  (c.state = .STATE_IDLE → c.stateHandler = .state_idle) ∧
  (c.state.inert = true → c.stateHandler = .state_noop)

/-- All step-control flags are zero and `sys.suspend` is false. -/
def Clean (c : Config) : Prop := c.step_control = {} ∧ c.suspend = false

/-- A configuration as a transition of `set_state` leaves it: `SuspendInv`, `HandlerInv`,
and `Clean` when the state is `STATE_IDLE`. -/
def Good (c : Config) : Prop :=
  SuspendInv c ∧ HandlerInv c ∧ (c.state = .STATE_IDLE → Clean c)

/-- The state is kept and `sys.suspend` is kept or raised. -/
def Quiet (c c' : Config) : Prop :=
  c'.state = c.state ∧ (c'.suspend = c.suspend ∨ c'.suspend = true)

/-- The configurations reached from `c0` by `update_state` and `set_state` calls that
return, each in an environment of its own, every `update_state` call being `allowed` in
the configuration it starts from. -/
inductive Reachable (allowed : Config → Events → Prop) (c0 : Config) : Config → Prop
  | init : Reachable allowed c0 c0
  | update_state {c c' : Config} (E : Env) (rt_exec : Events) :
      Reachable allowed c0 c → allowed c rt_exec →
      run E (.update_state rt_exec) c = .ok c' → Reachable allowed c0 c'
  | set_state {c c' : Config} (E : Env) (new_state : State) :
      Reachable allowed c0 c → run E (.set_state new_state) c = .ok c' →
      Reachable allowed c0 c'

/-- Every `update_state` call is allowed. -/
def any_mask : Config → Events → Prop := fun _ _ => True

/-- The `update_state` calls that do not deliver `EXEC_CYCLE_COMPLETE` and
`EXEC_MOTION_CANCEL` in one mask to `state_cycle`. -/
def no_complete_with_cancel : Config → Events → Prop :=
  fun c m => ¬(c.stateHandler = .state_cycle ∧ m.cycle_complete = true ∧
    m.motion_cancel = true)

/-- The snapshot `restore_condition`, `restore_spindle_rpm` is the same in both
configurations. -/
def SameSnapshot (c c' : Config) : Prop :=
  c'.restore_condition = c.restore_condition ∧ c'.restore_spindle_rpm = c.restore_spindle_rpm

/-- The target and feed rate of a logged `mc_parking_motion` call. -/
def Effect.parking_motion : Effect → Option (List ℚ × ℚ)
  | .mc_parking_motion target pl_data => some (target, pl_data.feed_rate)
  | _ => none

/-- The parking motions submitted in a log, in order: target and feed rate. -/
def parking_motions (l : List Effect) : List (List ℚ × ℚ) :=
  l.filterMap Effect.parking_motion

/-- In `STATE_IDLE` and `STATE_CYCLE` no hold is in progress: the holding sub-state is
`Hold_NotHolding` and the handler is `state_idle`, `state_cycle` or
`state_await_motion_cancel`. -/
def NotHoldingInv (c : Config) : Prop :=
  (c.state = .STATE_IDLE ∨ c.state = .STATE_CYCLE) →
    c.holding_state = .Hold_NotHolding ∧
      c.stateHandler ∈ [Handler.state_idle, .state_cycle, .state_await_motion_cancel]

/-- The parking data recorded at the first entry of an episode is the same in both
configurations: `park.restart_retract`, `park.restore_target`, `park.retract_waypoint`. -/
def ParkKept (c c' : Config) : Prop :=
  c'.park.restart_retract = c.park.restart_retract ∧
  c'.park.restore_target = c.park.restore_target ∧
  c'.park.retract_waypoint = c.park.retract_waypoint

/-- The handler is one of the hold and parking handlers, and `state_await_hold` is
installed only with `park.restart_retract` set: the first-entry block of
`state_await_hold` has run, or will not run again, in this episode. -/
def RetractInv (c : Config) : Prop :=
  c.stateHandler ∈ [Handler.state_await_hold, .state_await_waypoint_retract,
    .state_await_resume, .state_restore, .state_await_resumed] ∧
  (c.stateHandler = .state_await_hold → c.park.restart_retract = true)

/-- What a call leaves of a parking episode: `park.restore_target` is kept,
`park.retracting` stays set when the parking motions of `E` are all reported as moving,
and while the state is kept the handler stays as `RetractInv` says. -/
def EpisodeStep (E : Env) (c c' : Config) : Prop :=
  c'.park.restore_target = c.park.restore_target ∧
  ((∀ l t d, E.mc_parking_motion l t d = true) → c.park.retracting = true →
    c'.park.retracting = true) ∧
  (c'.state = c.state → RetractInv c')

/-- The configurations reached from `c0` by `update_state` calls that return, each in an
environment of its own, every call being `allowed` in the configuration it starts
from. -/
inductive Driven (allowed : Config → Env → Events → Prop) (c0 : Config) : Config → Prop
  | init : Driven allowed c0 c0
  | update_state {c c' : Config} (E : Env) (rt_exec : Events) :
      Driven allowed c0 c → allowed c E rt_exec →
      run E (.update_state rt_exec) c = .ok c' → Driven allowed c0 c'

/-- A sequence of `update_state` calls, each with its event mask and in the environment the
firmware offers at that call; the sequence stops at the first call that does not
return. -/
def drive : List (Env × Events) → Config → Res
  | [], c => .ok c
  | (E, m) :: rest, c => run E (.update_state m) c >>= drive rest

/-- A parking build with homing enabled, the machine at `[0, 0, -20]`, a block queued in the
planner, and every parking motion reported as moving. -/
def park_env : Env :=
  { PARKING_ENABLE := true, homing_enable := true, mpos := fun _ => [0, 0, -20],
    mc_parking_motion := fun _ _ _ => true, plan_get_current_block := fun _ => some {} }

/-- A whole door episode in `park_env` from the initial configuration, and the end of the
cycle after it: cycle start, door opened, end of the deceleration, the pull-out and the
retract done, door closed and cycle start, the return and the plunge done, and the resumed
cycle complete. -/
def first_episode : List (Env × Events) :=
  [(park_env, EXEC_CYCLE_START), (park_env, EXEC_SAFETY_DOOR),
    (park_env, EXEC_CYCLE_COMPLETE), (park_env, EXEC_CYCLE_COMPLETE),
    (park_env, EXEC_CYCLE_COMPLETE), (park_env, EXEC_CYCLE_START),
    (park_env, EXEC_CYCLE_COMPLETE), (park_env, EXEC_CYCLE_COMPLETE),
    (park_env, EXEC_CYCLE_COMPLETE)]
/-- The interpreter offered to a function body while `k` more synthesized
`EXEC_CYCLE_COMPLETE` may be nested inside one another: a handler call made by the body of
`set_state` or of a handler is such a synthesized call, passed on with `k - 1` and refused
with `Stop.depth` when `k = 0`; the other calls are passed on with `k`. -/
def synthesized (rec : Nat → Rec) : Nat → Rec
  | 0, .handler _ _, _ => .error .depth
  | k + 1, .handler h rt_exec, c => rec k (.handler h rt_exec) c
  | k, .set_state new_state, c => rec k (.set_state new_state) c
  | k, .update_state rt_exec, c => rec k (.update_state rt_exec) c

/-- The interpreter `exec` with a bound `k` on the length of a chain of handlers entered one
from the other with a synthesized `EXEC_CYCLE_COMPLETE`. The call `stateHandler(rt_exec)` of
`update_state` passes the event mask it was given and does not count. -/
def chain (E : Env) : Nat → Nat → Call → Config → Res
  | 0, _, _, _ => .error .depth
  | n + 1, k, .update_state rt_exec, c => update_state (chain E n k) rt_exec c
  | n + 1, k, .set_state new_state, c => set_state E (synthesized (chain E n) k) new_state c
  | n + 1, k, .handler h rt_exec, c => call_handler E (synthesized (chain E n) k) h rt_exec c
/-! ## The keycode buffer of `drivers/ESP32/keypad.c` -/

/-- The size `KEYBUF_SIZE` of the keycode buffer. -/
def KEYBUF_SIZE : Nat := 16

/-- The calls `keypad_keyclick_handler` makes to the rest of the firmware. -/
inductive KeypadCall
  | xQueueSendFromISR
  | protocol_process_realtime_jog_cancel
  deriving DecidableEq

/-- The file-scope variables of `keypad.c` that the keycode buffer functions and
`keypad_keyclick_handler` use, with their initial values, and the log of calls. A `char` is
its byte value `0 .. 255`; the array `keybuf_buf` has 16 entries by its type. -/
structure Keypad where
  jogging : Bool := false
  keyreleased : Bool := true
  keybuf_buf : Fin 16 → Nat := fun _ => 0
  keybuf_head : Nat := 0
  keybuf_tail : Nat := 0
  calls : List KeypadCall := []

/-- The function `keypad_enqueue_keycode(c)`; `none` when `keybuf_buf[keybuf_head]` is
outside the array. -/
def keypad_enqueue_keycode (c : Nat) (k : Keypad) : Option Keypad :=
  let bptr := ((k.keybuf_head + 1) % 2 ^ 32) &&& (KEYBUF_SIZE - 1)
  if bptr ≠ k.keybuf_tail then
    if h : k.keybuf_head < 16 then
      some { k with
        keybuf_buf := Function.update k.keybuf_buf ⟨k.keybuf_head, h⟩ (c % 256),
        keybuf_head := bptr }
    else none
  else some k

/-- The function `keypad_get_keycode()`: the returned `char` and the new variables; `none`
when `keybuf_buf[bptr]` is outside the array. -/
def keypad_get_keycode (k : Keypad) : Option (Nat × Keypad) :=
  let bptr := k.keybuf_tail
  if bptr ≠ k.keybuf_head then
    if h : bptr < 16 then
      let data := k.keybuf_buf ⟨bptr, h⟩
      let bptr := (bptr + 1) % 2 ^ 32
      some (data % 256, { k with keybuf_tail := bptr &&& (KEYBUF_SIZE - 1) })
    else none
  else some (0, k)

/-- The function `keypad_keyclick_handler(keydown)`. -/
def keypad_keyclick_handler (keydown : Bool) (k : Keypad) : Keypad :=
  let k := { k with keyreleased := !keydown }
  if keydown then { k with calls := k.calls ++ [.xQueueSendFromISR] }
  else if k.jogging then
    { k with
      jogging := false,
      calls := k.calls ++ [.protocol_process_realtime_jog_cancel],
      keybuf_head := 0,
      keybuf_tail := 0 }
  else k

/-- The keycodes `cs` enqueued one after the other. -/
def enqueue_keycodes : List Nat → Keypad → Option Keypad
  | [], k => some k
  | c :: cs, k => keypad_enqueue_keycode c k >>= enqueue_keycodes cs

/-- The keycodes returned by `n` calls of `keypad_get_keycode`, in the order of the calls,
and the variables after them. -/
def get_keycodes : Nat → Keypad → Option (List Nat × Keypad)
  | 0, k => some ([], k)
  | n + 1, k =>
    keypad_get_keycode k >>= fun r =>
    get_keycodes n r.2 >>= fun rs => some (r.1 :: rs.1, rs.2)

/-- The predicate `keybuf_head < 16 and keybuf_tail < 16`. -/
def KeybufInv (k : Keypad) : Prop := k.keybuf_head < 16 ∧ k.keybuf_tail < 16

/-- The number of keycodes stored in the buffer. -/
def keybuf_count (k : Keypad) : Nat := (k.keybuf_head + 16 - k.keybuf_tail) % 16

/-- The keycodes stored in the buffer, oldest first: the entries from `keybuf_tail` up to
`keybuf_head`, indices taken modulo 16. -/
def keybuf_contents (k : Keypad) : List Nat :=
  (List.range (keybuf_count k)).map fun i =>
    k.keybuf_buf ⟨(k.keybuf_tail + i) % 16, Nat.mod_lt _ (by decide)⟩
/-! ## The nesting budget is enough

Each function depends on its interpreter only through the calls it can make; unfolding
`exec` along the chain of synthesized `EXEC_CYCLE_COMPLETE` calls shows that the result of
a call does not depend on the budget once the budget covers the chain. -/


theorem bind_eq_ok {α β : Type} (x : Except Stop α) (f : α → Except Stop β) (b : β)
    (h : (x >>= f) = .ok b) : ∃ a, x = .ok a ∧ f a = .ok b := by
  cases x with
  | error e => cases h
  | ok a => exact ⟨a, rfl, h⟩

theorem Frame.frame_refl (c : Config) : Frame c c :=
  ⟨c.step_control, [], by simp [Config.emits, Config.with_step_control]⟩

theorem Frame.frame_emit {c c' : Config} (h : Frame c c') (e : Effect) : Frame c (c'.emit e) := by
  obtain ⟨sc, l, rfl⟩ := h
  exact ⟨sc, l ++ [e], by simp [Config.emits, Config.emit, Config.with_step_control]⟩

theorem Frame.frame_emits {c c' : Config} (h : Frame c c') (l' : List Effect) :
    Frame c (c'.emits l') := by
  obtain ⟨sc, l, rfl⟩ := h
  exact ⟨sc, l ++ l', by simp [Config.emits, Config.with_step_control]⟩

theorem Frame.frame_with_step_control {c c' : Config} (h : Frame c c') (sc' : step_control_t) :
    Frame c (c'.with_step_control sc') := by
  obtain ⟨sc, l, rfl⟩ := h
  exact ⟨sc', l, by simp [Config.emits, Config.with_step_control]⟩

theorem Frame.frame_trans {a b c : Config} (h1 : Frame a b) (h2 : Frame b c) : Frame a c := by
  obtain ⟨sc, l, rfl⟩ := h1
  obtain ⟨sc', l', rfl⟩ := h2
  exact ⟨sc', l ++ l', by simp [Config.emits, Config.with_step_control]⟩

theorem wait_at_speed_frame (E : Env) (n : Nat) (c c' : Config)
    (h : wait_at_speed E n c = .ok c') : Frame c c' := by
  induction n generalizing c with
  | zero =>
    unfold wait_at_speed at h
    split at h
    · injection h with h; subst h; exact Frame.frame_refl c
    · cases h
  | succ n ih =>
    unfold wait_at_speed at h
    split at h
    · injection h with h; subst h; exact Frame.frame_refl c
    · exact ((Frame.frame_refl c).frame_emit _).frame_trans (ih _ h)

theorem state_restore_conditions_frame (E : Env) (cond : planner_cond_t) (rpm : ℚ)
    (c c' : Config) (h : state_restore_conditions E cond rpm c = .ok c') : Frame c c' := by
  unfold state_restore_conditions at h
  split at h
  · injection h with h; subst h; exact Frame.frame_refl c
  · obtain ⟨c1, h1, h2⟩ := bind_eq_ok _ _ _ h
    have f1 : Frame c c1 := by
      split at h1
      · split at h1
        · injection h1 with h1; subst h1; exact (Frame.frame_refl c).frame_with_step_control _
        · simp only at h1
          split at h1
          · split at h1
            · exact ((Frame.frame_refl c).frame_emit _).frame_trans (wait_at_speed_frame _ _ _ _ h1)
            · injection h1 with h1; subst h1; exact ((Frame.frame_refl c).frame_emit _).frame_emit _
          · injection h1 with h1; subst h1; exact (Frame.frame_refl c).frame_emit _
      · injection h1 with h1; subst h1; exact Frame.frame_refl c
    split at h2
    · injection h2 with h2; subst h2; exact (f1.frame_emit _).frame_emit _
    · injection h2 with h2; subst h2; exact f1

theorem state_await_waypoint_retract_congr (E : Env) (r1 r2 : Rec) (m : Events) (c : Config)
    (h : ∀ c, r1 (.handler .state_await_resume EXEC_CYCLE_COMPLETE) c
      = r2 (.handler .state_await_resume EXEC_CYCLE_COMPLETE) c) :
    state_await_waypoint_retract E r1 m c = state_await_waypoint_retract E r2 m c := by
  simp [state_await_waypoint_retract, call_mc_parking_motion, de_energize, h]

theorem state_await_hold_congr (E : Env) (r1 r2 : Rec) (m : Events) (c : Config)
    (h : ∀ c, r1 (.handler .state_await_waypoint_retract EXEC_CYCLE_COMPLETE) c
      = r2 (.handler .state_await_waypoint_retract EXEC_CYCLE_COMPLETE) c) :
    state_await_hold E r1 m c = state_await_hold E r2 m c := by
  simp [state_await_hold, state_await_hold_parking, park_retract, call_mc_parking_motion, h]

theorem restart_retract_congr (r1 r2 : Rec) (c : Config)
    (h : ∀ c, r1 (.handler .state_await_hold EXEC_CYCLE_COMPLETE) c
      = r2 (.handler .state_await_hold EXEC_CYCLE_COMPLETE) c) :
    restart_retract r1 c = restart_retract r2 c := by
  simp [restart_retract, h]

theorem set_state_congr (E : Env) (r1 r2 : Rec) (s : State) (c : Config)
    (h : ∀ c, r1 (.handler .state_await_hold EXEC_CYCLE_COMPLETE) c
      = r2 (.handler .state_await_hold EXEC_CYCLE_COMPLETE) c) :
    set_state E r1 s c = set_state E r2 s c := by
  simp [set_state, set_state_case_sleep, h]

theorem state_idle_congr (r1 r2 : Rec) (m : Events) (c : Config)
    (h : ∀ s c, r1 (.set_state s) c = r2 (.set_state s) c) :
    state_idle r1 m c = state_idle r2 m c := by
  simp [state_idle, h]

theorem state_cycle_congr (r1 r2 : Rec) (m : Events) (c : Config)
    (h : ∀ s c, r1 (.set_state s) c = r2 (.set_state s) c) :
    state_cycle r1 m c = state_cycle r2 m c := by
  simp [state_cycle, h]

theorem state_await_motion_cancel_congr (r1 r2 : Rec) (m : Events) (c : Config)
    (h : ∀ s c, r1 (.set_state s) c = r2 (.set_state s) c) :
    state_await_motion_cancel r1 m c = state_await_motion_cancel r2 m c := by
  simp [state_await_motion_cancel, h]

theorem state_await_resumed_congr (r1 r2 : Rec) (m : Events) (c : Config)
    (h : ∀ s c, r1 (.set_state s) c = r2 (.set_state s) c)
    (hh : ∀ c, r1 (.handler .state_await_hold EXEC_CYCLE_COMPLETE) c
      = r2 (.handler .state_await_hold EXEC_CYCLE_COMPLETE) c) :
    state_await_resumed r1 m c = state_await_resumed r2 m c := by
  simp [state_await_resumed, h, restart_retract_congr r1 r2 c hh]

theorem state_restore_congr (E : Env) (r1 r2 : Rec) (m : Events) (c : Config)
    (h : ∀ c, r1 (.handler .state_await_resumed EXEC_CYCLE_COMPLETE) c
      = r2 (.handler .state_await_resumed EXEC_CYCLE_COMPLETE) c)
    (hh : ∀ c, r1 (.handler .state_await_hold EXEC_CYCLE_COMPLETE) c
      = r2 (.handler .state_await_hold EXEC_CYCLE_COMPLETE) c) :
    state_restore E r1 m c = state_restore E r2 m c := by
  unfold state_restore
  split
  · exact restart_retract_congr r1 r2 c hh
  · split
    · simp only
      cases hrc : state_restore_conditions E
          ((end_sys_motion c).with_stateHandler .state_await_resumed).restore_condition
          ((end_sys_motion c).with_stateHandler .state_await_resumed).restore_spindle_rpm
          ((end_sys_motion c).with_stateHandler .state_await_resumed) with
      | error e => rfl
      | ok c' =>
        obtain ⟨sc, l, rfl⟩ := state_restore_conditions_frame _ _ _ _ _ hrc
        simp [bind, Except.bind, call_mc_parking_motion, h]
    · rfl

theorem state_await_resume_congr (E : Env) (r1 r2 : Rec) (m : Events) (c : Config)
    (h : ∀ s c, r1 (.set_state s) c = r2 (.set_state s) c)
    (hh : ∀ c, r1 (.handler .state_restore EXEC_CYCLE_COMPLETE) c
      = r2 (.handler .state_restore EXEC_CYCLE_COMPLETE) c) :
    state_await_resume E r1 m c = state_await_resume E r2 m c := by
  simp [state_await_resume, state_await_resume_parking, call_mc_parking_motion, h, hh]


theorem call_handler_congr (E : Env) (r1 r2 : Rec) (h : Handler) (m : Events) (c : Config)
    (hs : ∀ s c, r1 (.set_state s) c = r2 (.set_state s) c)
    (hh : ∀ h c, h ≠ .state_await_motion_cancel →
      r1 (.handler h EXEC_CYCLE_COMPLETE) c = r2 (.handler h EXEC_CYCLE_COMPLETE) c) :
    call_handler E r1 h m c = call_handler E r2 h m c := by
  cases h <;> simp only [call_handler]
  · exact state_idle_congr r1 r2 m c hs
  · exact state_cycle_congr r1 r2 m c hs
  · exact state_await_hold_congr E r1 r2 m c (fun c => hh _ c (by decide))
  · exact state_await_motion_cancel_congr r1 r2 m c hs
  · exact state_await_resume_congr E r1 r2 m c hs (fun c => hh _ c (by decide))
  · exact state_await_waypoint_retract_congr E r1 r2 m c (fun c => hh _ c (by decide))
  · exact state_restore_congr E r1 r2 m c (fun c => hh _ c (by decide))
      (fun c => hh _ c (by decide))
  · exact state_await_resumed_congr r1 r2 m c hs (fun c => hh _ c (by decide))

theorem update_state_congr (r1 r2 : Rec) (m : Events) (c : Config)
    (hs : ∀ s c, r1 (.set_state s) c = r2 (.set_state s) c)
    (hh : ∀ h m c, r1 (.handler h m) c = r2 (.handler h m) c) :
    update_state r1 m c = update_state r2 m c := by
  simp [update_state, hs, hh]

theorem Stable.agree {E : Env} {k : Nat} {call : Call} (h : Stable E k call) {a b : Nat}
    (ha : k ≤ a) (hb : k ≤ b) (c : Config) : exec E a call c = exec E b call c := by
  rw [h a c ha, h b c hb]

theorem Stable.mono {E : Env} {k k' : Nat} {call : Call} (h : Stable E k call)
    (hk : k ≤ k') : Stable E k' call :=
  fun _ c hn => h.agree (hk.trans hn) hk c

theorem exec_succ_handler (E : Env) (n : Nat) (h : Handler) (m : Events) (c : Config) :
    exec E (n + 1) (.handler h m) c = call_handler E (exec E n) h m c := rfl

theorem exec_succ_set_state (E : Env) (n : Nat) (s : State) (c : Config) :
    exec E (n + 1) (.set_state s) c = set_state E (exec E n) s c := rfl

theorem exec_succ_update_state (E : Env) (n : Nat) (m : Events) (c : Config) :
    exec E (n + 1) (.update_state m) c = update_state (exec E n) m c := rfl

theorem stable_await_resume_cc (E : Env) :
    Stable E 1 (.handler .state_await_resume EXEC_CYCLE_COMPLETE) := by
  intro n c hn
  obtain ⟨n, rfl⟩ : ∃ k, n = k + 1 := ⟨n - 1, by omega⟩
  simp [exec, call_handler, state_await_resume, EXEC_CYCLE_COMPLETE]

theorem stable_await_waypoint_retract (E : Env) (m : Events) :
    Stable E 2 (.handler .state_await_waypoint_retract m) := by
  intro n c hn
  obtain ⟨n, rfl⟩ : ∃ k, n = k + 1 := ⟨n - 1, by omega⟩
  rw [exec_succ_handler, show (2 : Nat) = 1 + 1 from rfl, exec_succ_handler]
  exact state_await_waypoint_retract_congr E _ _ m c
    (fun c => (stable_await_resume_cc E).agree (by omega) (by omega) c)

theorem stable_await_hold (E : Env) (m : Events) :
    Stable E 3 (.handler .state_await_hold m) := by
  intro n c hn
  obtain ⟨n, rfl⟩ : ∃ k, n = k + 1 := ⟨n - 1, by omega⟩
  rw [exec_succ_handler, show (3 : Nat) = 2 + 1 from rfl, exec_succ_handler]
  exact state_await_hold_congr E _ _ m c
    (fun c => (stable_await_waypoint_retract E _).agree (by omega) (by omega) c)

theorem stable_set_state (E : Env) (s : State) : Stable E 4 (.set_state s) := by
  intro n c hn
  obtain ⟨n, rfl⟩ : ∃ k, n = k + 1 := ⟨n - 1, by omega⟩
  rw [exec_succ_set_state, show (4 : Nat) = 3 + 1 from rfl, exec_succ_set_state]
  exact set_state_congr E _ _ s c
    (fun c => (stable_await_hold E _).agree (by omega) (by omega) c)

theorem stable_await_resumed (E : Env) (m : Events) :
    Stable E 5 (.handler .state_await_resumed m) := by
  intro n c hn
  obtain ⟨n, rfl⟩ : ∃ k, n = k + 1 := ⟨n - 1, by omega⟩
  rw [exec_succ_handler, show (5 : Nat) = 4 + 1 from rfl, exec_succ_handler]
  exact state_await_resumed_congr _ _ m c
    (fun s c => (stable_set_state E s).agree (by omega) (by omega) c)
    (fun c => (stable_await_hold E _).agree (by omega) (by omega) c)

theorem stable_restore (E : Env) (m : Events) :
    Stable E 6 (.handler .state_restore m) := by
  intro n c hn
  obtain ⟨n, rfl⟩ : ∃ k, n = k + 1 := ⟨n - 1, by omega⟩
  rw [exec_succ_handler, show (6 : Nat) = 5 + 1 from rfl, exec_succ_handler]
  exact state_restore_congr E _ _ m c
    (fun c => (stable_await_resumed E _).agree (by omega) (by omega) c)
    (fun c => (stable_await_hold E _).agree (by omega) (by omega) c)

theorem stable_await_resume (E : Env) (m : Events) :
    Stable E 7 (.handler .state_await_resume m) := by
  intro n c hn
  obtain ⟨n, rfl⟩ : ∃ k, n = k + 1 := ⟨n - 1, by omega⟩
  rw [exec_succ_handler, show (7 : Nat) = 6 + 1 from rfl, exec_succ_handler]
  exact state_await_resume_congr E _ _ m c
    (fun s c => (stable_set_state E s).agree (by omega) (by omega) c)
    (fun c => (stable_restore E _).agree (by omega) (by omega) c)

theorem stable_handler (E : Env) (h : Handler) (m : Events) :
    Stable E 7 (.handler h m) := by
  cases h
  case state_await_hold => exact (stable_await_hold E m).mono (by omega)
  case state_await_resume => exact stable_await_resume E m
  case state_await_waypoint_retract => exact (stable_await_waypoint_retract E m).mono (by omega)
  case state_restore => exact (stable_restore E m).mono (by omega)
  case state_await_resumed => exact (stable_await_resumed E m).mono (by omega)
  case state_noop =>
    intro n c hn
    obtain ⟨n, rfl⟩ : ∃ k, n = k + 1 := ⟨n - 1, by omega⟩
    rfl
  case state_idle =>
    intro n c hn
    obtain ⟨n, rfl⟩ : ∃ k, n = k + 1 := ⟨n - 1, by omega⟩
    rw [exec_succ_handler, show (7 : Nat) = 6 + 1 from rfl, exec_succ_handler]
    exact state_idle_congr _ _ m c
      (fun s c => (stable_set_state E s).agree (by omega) (by omega) c)
  case state_cycle =>
    intro n c hn
    obtain ⟨n, rfl⟩ : ∃ k, n = k + 1 := ⟨n - 1, by omega⟩
    rw [exec_succ_handler, show (7 : Nat) = 6 + 1 from rfl, exec_succ_handler]
    exact state_cycle_congr _ _ m c
      (fun s c => (stable_set_state E s).agree (by omega) (by omega) c)
  case state_await_motion_cancel =>
    intro n c hn
    obtain ⟨n, rfl⟩ : ∃ k, n = k + 1 := ⟨n - 1, by omega⟩
    rw [exec_succ_handler, show (7 : Nat) = 6 + 1 from rfl, exec_succ_handler]
    exact state_await_motion_cancel_congr _ _ m c
      (fun s c => (stable_set_state E s).agree (by omega) (by omega) c)

theorem stable_update_state (E : Env) (m : Events) : Stable E 8 (.update_state m) := by
  intro n c hn
  obtain ⟨n, rfl⟩ : ∃ k, n = k + 1 := ⟨n - 1, by omega⟩
  rw [exec_succ_update_state, show (8 : Nat) = 7 + 1 from rfl, exec_succ_update_state]
  exact update_state_congr _ _ m c
    (fun s c => (stable_set_state E s).agree (by omega) (by omega) c)
    (fun h m c => (stable_handler E h m).agree (by omega) (by omega) c)

/-- A budget larger than that of `run` gives the result of `run`. -/
theorem exec_eq_run (E : Env) (n : Nat) (hn : nesting ≤ n) (call : Call) (c : Config) :
    exec E n call c = run E call c := by
  have h8 : (8 : Nat) ≤ n := hn
  cases call
  case update_state m => exact (stable_update_state E m).agree h8 (Nat.le_refl 8) c
  case set_state s => exact (stable_set_state E s).agree (by omega) (by decide) c
  case handler h m => exact (stable_handler E h m).agree (by omega) (by decide) c

/-- The function `set_state` run by `run` makes its nested calls through `run`. -/
theorem run_set_state (E : Env) (s : State) (c : Config) :
    run E (.set_state s) c = set_state E (run E) s c := by
  show exec E (7 + 1) _ _ = _
  rw [exec_succ_set_state]
  exact set_state_congr E _ _ s c
    (fun c => (stable_await_hold E _).agree (by omega) (by decide) c)

/-- A handler run by `run` makes its nested calls through `run`. -/
theorem run_handler (E : Env) (h : Handler) (m : Events) (c : Config) :
    run E (.handler h m) c = call_handler E (run E) h m c := by
  show exec E (7 + 1) _ _ = _
  rw [exec_succ_handler]
  exact call_handler_congr E _ _ h m c
    (fun s c => (stable_set_state E s).agree (by omega) (by decide) c)
    (fun h c hne => by
      cases h
      case state_await_motion_cancel => exact absurd rfl hne
      case state_await_resume =>
        exact (stable_await_resume_cc E).agree (by omega) (by decide) c
      case state_idle => rfl
      case state_noop => rfl
      case state_cycle =>
        show exec E (6 + 1) _ _ = exec E (7 + 1) _ _
        rw [exec_succ_handler, exec_succ_handler]
        exact state_cycle_congr _ _ _ c
          (fun s c => (stable_set_state E s).agree (by omega) (by omega) c)
      case state_await_hold => exact (stable_await_hold E _).agree (by omega) (by decide) c
      case state_await_waypoint_retract =>
        exact (stable_await_waypoint_retract E _).agree (by omega) (by decide) c
      case state_restore => exact (stable_restore E _).agree (by omega) (by decide) c
      case state_await_resumed =>
        exact (stable_await_resumed E _).agree (by omega) (by decide) c)

/-- The function `update_state` run by `run` makes its nested calls through `run`. -/
theorem run_update_state (E : Env) (m : Events) (c : Config) :
    run E (.update_state m) c = update_state (run E) m c := by
  show exec E (7 + 1) _ _ = _
  rw [exec_succ_update_state]
  exact update_state_congr _ _ m c
    (fun s c => (stable_set_state E s).agree (by omega) (by decide) c)
    (fun h m c => (stable_handler E h m).agree (by omega) (by decide) c)


/-! ## What the helper blocks leave alone -/

@[simp]
theorem de_energize_state (c : Config) : (de_energize c).state = c.state := rfl

@[simp]
theorem de_energize_suspend (c : Config) : (de_energize c).suspend = c.suspend := rfl

@[simp]
theorem de_energize_step_control (c : Config) : (de_energize c).step_control = c.step_control := rfl

@[simp]
theorem de_energize_holding_state (c : Config) : (de_energize c).holding_state = c.holding_state := rfl

@[simp]
theorem de_energize_parking_state (c : Config) : (de_energize c).parking_state = c.parking_state := rfl

@[simp]
theorem de_energize_steppers_deenergize (c : Config) : (de_energize c).steppers_deenergize = c.steppers_deenergize := rfl

@[simp]
theorem de_energize_spindle_stop_ovr (c : Config) : (de_energize c).spindle_stop_ovr = c.spindle_stop_ovr := rfl

@[simp]
theorem de_energize_override_ctrl (c : Config) : (de_energize c).override_ctrl = c.override_ctrl := rfl

@[simp]
theorem de_energize_stateHandler (c : Config) : (de_energize c).stateHandler = c.stateHandler := rfl

@[simp]
theorem de_energize_restore_spindle_rpm (c : Config) : (de_energize c).restore_spindle_rpm = c.restore_spindle_rpm := rfl

@[simp]
theorem de_energize_restore_condition (c : Config) : (de_energize c).restore_condition = c.restore_condition := rfl

@[simp]
theorem de_energize_pending_state (c : Config) : (de_energize c).pending_state = c.pending_state := rfl

@[simp]
theorem de_energize_park (c : Config) : (de_energize c).park = c.park := rfl

@[simp]
theorem end_sys_motion_state (c : Config) : (end_sys_motion c).state = c.state := by
  unfold end_sys_motion; split <;> rfl

@[simp]
theorem end_sys_motion_suspend (c : Config) : (end_sys_motion c).suspend = c.suspend := by
  unfold end_sys_motion; split <;> rfl

@[simp]
theorem end_sys_motion_holding_state (c : Config) : (end_sys_motion c).holding_state = c.holding_state := by
  unfold end_sys_motion; split <;> rfl

@[simp]
theorem end_sys_motion_parking_state (c : Config) : (end_sys_motion c).parking_state = c.parking_state := by
  unfold end_sys_motion; split <;> rfl

@[simp]
theorem end_sys_motion_steppers_deenergize (c : Config) : (end_sys_motion c).steppers_deenergize = c.steppers_deenergize := by
  unfold end_sys_motion; split <;> rfl

@[simp]
theorem end_sys_motion_spindle_stop_ovr (c : Config) : (end_sys_motion c).spindle_stop_ovr = c.spindle_stop_ovr := by
  unfold end_sys_motion; split <;> rfl

@[simp]
theorem end_sys_motion_override_ctrl (c : Config) : (end_sys_motion c).override_ctrl = c.override_ctrl := by
  unfold end_sys_motion; split <;> rfl

@[simp]
theorem end_sys_motion_stateHandler (c : Config) : (end_sys_motion c).stateHandler = c.stateHandler := by
  unfold end_sys_motion; split <;> rfl

@[simp]
theorem end_sys_motion_restore_spindle_rpm (c : Config) : (end_sys_motion c).restore_spindle_rpm = c.restore_spindle_rpm := by
  unfold end_sys_motion; split <;> rfl

@[simp]
theorem end_sys_motion_restore_condition (c : Config) : (end_sys_motion c).restore_condition = c.restore_condition := by
  unfold end_sys_motion; split <;> rfl

@[simp]
theorem end_sys_motion_pending_state (c : Config) : (end_sys_motion c).pending_state = c.pending_state := by
  unfold end_sys_motion; split <;> rfl

@[simp]
theorem end_sys_motion_park (c : Config) : (end_sys_motion c).park = c.park := by
  unfold end_sys_motion; split <;> rfl

@[simp]
theorem motion_cancel_state (c : Config) : (motion_cancel c).state = c.state := rfl

@[simp]
theorem motion_cancel_holding_state (c : Config) : (motion_cancel c).holding_state = c.holding_state := rfl

@[simp]
theorem motion_cancel_parking_state (c : Config) : (motion_cancel c).parking_state = c.parking_state := rfl

@[simp]
theorem motion_cancel_steppers_deenergize (c : Config) : (motion_cancel c).steppers_deenergize = c.steppers_deenergize := rfl

@[simp]
theorem motion_cancel_spindle_stop_ovr (c : Config) : (motion_cancel c).spindle_stop_ovr = c.spindle_stop_ovr := rfl

@[simp]
theorem motion_cancel_override_ctrl (c : Config) : (motion_cancel c).override_ctrl = c.override_ctrl := rfl

@[simp]
theorem motion_cancel_restore_spindle_rpm (c : Config) : (motion_cancel c).restore_spindle_rpm = c.restore_spindle_rpm := rfl

@[simp]
theorem motion_cancel_restore_condition (c : Config) : (motion_cancel c).restore_condition = c.restore_condition := rfl

@[simp]
theorem motion_cancel_pending_state (c : Config) : (motion_cancel c).pending_state = c.pending_state := rfl

@[simp]
theorem motion_cancel_park (c : Config) : (motion_cancel c).park = c.park := rfl

@[simp]
theorem motion_cancel_suspend (c : Config) : (motion_cancel c).suspend = true := rfl

@[simp]
theorem motion_cancel_stateHandler (c : Config) :
    (motion_cancel c).stateHandler = .state_await_motion_cancel := rfl

@[simp]
theorem motion_cancel_execute_hold (c : Config) :
    (motion_cancel c).step_control.execute_hold = true := rfl

@[simp]
theorem de_energize_log (c : Config) :
    (de_energize c).log = c.log ++ [.spindle_stop, .hal_coolant_set_state { mask := 0 }] := by
  simp [de_energize]

theorem end_sys_motion_log (c : Config) :
    (end_sys_motion c).log = c.log ∨
      (end_sys_motion c).log = c.log ++ [.st_parking_restore_buffer] := by
  unfold end_sys_motion; split
  · right; rfl
  · left; rfl

@[simp]
theorem end_sys_motion_execute_sys_motion (c : Config) :
    (end_sys_motion c).step_control.execute_sys_motion = false := by
  unfold end_sys_motion; split
  · rfl
  · simpa using ‹¬c.step_control.execute_sys_motion = true›

@[simp]
theorem end_sys_motion_execute_hold (c : Config) :
    (end_sys_motion c).step_control.execute_hold = c.step_control.execute_hold := by
  unfold end_sys_motion; split <;> rfl

@[simp]
theorem end_sys_motion_update_spindle_rpm (c : Config) :
    (end_sys_motion c).step_control.update_spindle_rpm = c.step_control.update_spindle_rpm := by
  unfold end_sys_motion; split <;> rfl

@[simp]
theorem state_await_hold_hold_state (E : Env) (c : Config) :
    (state_await_hold_hold E c).state = c.state := by
  unfold state_await_hold_hold; split
  · simp only; split <;> rfl
  · rfl

@[simp]
theorem state_await_hold_hold_suspend (E : Env) (c : Config) :
    (state_await_hold_hold E c).suspend = c.suspend := by
  unfold state_await_hold_hold; split
  · simp only; split <;> rfl
  · rfl

@[simp]
theorem state_await_hold_hold_step_control (E : Env) (c : Config) :
    (state_await_hold_hold E c).step_control = c.step_control := by
  unfold state_await_hold_hold; split
  · simp only; split <;> rfl
  · rfl

@[simp]
theorem state_await_hold_hold_holding_state (E : Env) (c : Config) :
    (state_await_hold_hold E c).holding_state = c.holding_state := by
  unfold state_await_hold_hold; split
  · simp only; split <;> rfl
  · rfl

@[simp]
theorem state_await_hold_hold_parking_state (E : Env) (c : Config) :
    (state_await_hold_hold E c).parking_state = c.parking_state := by
  unfold state_await_hold_hold; split
  · simp only; split <;> rfl
  · rfl

@[simp]
theorem state_await_hold_hold_steppers_deenergize (E : Env) (c : Config) :
    (state_await_hold_hold E c).steppers_deenergize = c.steppers_deenergize := by
  unfold state_await_hold_hold; split
  · simp only; split <;> rfl
  · rfl

@[simp]
theorem state_await_hold_hold_override_ctrl (E : Env) (c : Config) :
    (state_await_hold_hold E c).override_ctrl = c.override_ctrl := by
  unfold state_await_hold_hold; split
  · simp only; split <;> rfl
  · rfl

@[simp]
theorem state_await_hold_hold_stateHandler (E : Env) (c : Config) :
    (state_await_hold_hold E c).stateHandler = c.stateHandler := by
  unfold state_await_hold_hold; split
  · simp only; split <;> rfl
  · rfl

@[simp]
theorem state_await_hold_hold_restore_spindle_rpm (E : Env) (c : Config) :
    (state_await_hold_hold E c).restore_spindle_rpm = c.restore_spindle_rpm := by
  unfold state_await_hold_hold; split
  · simp only; split <;> rfl
  · rfl

@[simp]
theorem state_await_hold_hold_restore_condition (E : Env) (c : Config) :
    (state_await_hold_hold E c).restore_condition = c.restore_condition := by
  unfold state_await_hold_hold; split
  · simp only; split <;> rfl
  · rfl

@[simp]
theorem state_await_hold_hold_pending_state (E : Env) (c : Config) :
    (state_await_hold_hold E c).pending_state = c.pending_state := by
  unfold state_await_hold_hold; split
  · simp only; split <;> rfl
  · rfl

@[simp]
theorem state_await_hold_hold_park (E : Env) (c : Config) :
    (state_await_hold_hold E c).park = c.park := by
  unfold state_await_hold_hold; split
  · simp only; split <;> rfl
  · rfl

@[simp]
theorem state_await_resume_hold_state (E : Env) (c : Config) :
    (state_await_resume_hold E c).state = c.state := by
  unfold state_await_resume_hold
  split
  · split
    · simp only; split
      · split <;> rfl
      · rfl
    · rfl
  · split <;> rfl

@[simp]
theorem state_await_resume_hold_suspend (E : Env) (c : Config) :
    (state_await_resume_hold E c).suspend = c.suspend := by
  unfold state_await_resume_hold
  split
  · split
    · simp only; split
      · split <;> rfl
      · rfl
    · rfl
  · split <;> rfl

@[simp]
theorem state_await_resume_hold_holding_state (E : Env) (c : Config) :
    (state_await_resume_hold E c).holding_state = c.holding_state := by
  unfold state_await_resume_hold
  split
  · split
    · simp only; split
      · split <;> rfl
      · rfl
    · rfl
  · split <;> rfl

@[simp]
theorem state_await_resume_hold_parking_state (E : Env) (c : Config) :
    (state_await_resume_hold E c).parking_state = c.parking_state := by
  unfold state_await_resume_hold
  split
  · split
    · simp only; split
      · split <;> rfl
      · rfl
    · rfl
  · split <;> rfl

@[simp]
theorem state_await_resume_hold_steppers_deenergize (E : Env) (c : Config) :
    (state_await_resume_hold E c).steppers_deenergize = c.steppers_deenergize := by
  unfold state_await_resume_hold
  split
  · split
    · simp only; split
      · split <;> rfl
      · rfl
    · rfl
  · split <;> rfl

@[simp]
theorem state_await_resume_hold_override_ctrl (E : Env) (c : Config) :
    (state_await_resume_hold E c).override_ctrl = c.override_ctrl := by
  unfold state_await_resume_hold
  split
  · split
    · simp only; split
      · split <;> rfl
      · rfl
    · rfl
  · split <;> rfl

@[simp]
theorem state_await_resume_hold_stateHandler (E : Env) (c : Config) :
    (state_await_resume_hold E c).stateHandler = c.stateHandler := by
  unfold state_await_resume_hold
  split
  · split
    · simp only; split
      · split <;> rfl
      · rfl
    · rfl
  · split <;> rfl

@[simp]
theorem state_await_resume_hold_restore_spindle_rpm (E : Env) (c : Config) :
    (state_await_resume_hold E c).restore_spindle_rpm = c.restore_spindle_rpm := by
  unfold state_await_resume_hold
  split
  · split
    · simp only; split
      · split <;> rfl
      · rfl
    · rfl
  · split <;> rfl

@[simp]
theorem state_await_resume_hold_restore_condition (E : Env) (c : Config) :
    (state_await_resume_hold E c).restore_condition = c.restore_condition := by
  unfold state_await_resume_hold
  split
  · split
    · simp only; split
      · split <;> rfl
      · rfl
    · rfl
  · split <;> rfl

@[simp]
theorem state_await_resume_hold_pending_state (E : Env) (c : Config) :
    (state_await_resume_hold E c).pending_state = c.pending_state := by
  unfold state_await_resume_hold
  split
  · split
    · simp only; split
      · split <;> rfl
      · rfl
    · rfl
  · split <;> rfl

@[simp]
theorem state_await_resume_hold_park (E : Env) (c : Config) :
    (state_await_resume_hold E c).park = c.park := by
  unfold state_await_resume_hold
  split
  · split
    · simp only; split
      · split <;> rfl
      · rfl
    · rfl
  · split <;> rfl

@[simp]
theorem park_retract_setup_state (E : Env) (c : Config) :
    (park_retract_setup E c).state = c.state := by
  unfold park_retract_setup; simp only; split <;> rfl

@[simp]
theorem park_retract_setup_suspend (E : Env) (c : Config) :
    (park_retract_setup E c).suspend = c.suspend := by
  unfold park_retract_setup; simp only; split <;> rfl

@[simp]
theorem park_retract_setup_step_control (E : Env) (c : Config) :
    (park_retract_setup E c).step_control = c.step_control := by
  unfold park_retract_setup; simp only; split <;> rfl

@[simp]
theorem park_retract_setup_holding_state (E : Env) (c : Config) :
    (park_retract_setup E c).holding_state = c.holding_state := by
  unfold park_retract_setup; simp only; split <;> rfl

@[simp]
theorem park_retract_setup_parking_state (E : Env) (c : Config) :
    (park_retract_setup E c).parking_state = c.parking_state := by
  unfold park_retract_setup; simp only; split <;> rfl

@[simp]
theorem park_retract_setup_steppers_deenergize (E : Env) (c : Config) :
    (park_retract_setup E c).steppers_deenergize = c.steppers_deenergize := by
  unfold park_retract_setup; simp only; split <;> rfl

@[simp]
theorem park_retract_setup_spindle_stop_ovr (E : Env) (c : Config) :
    (park_retract_setup E c).spindle_stop_ovr = c.spindle_stop_ovr := by
  unfold park_retract_setup; simp only; split <;> rfl

@[simp]
theorem park_retract_setup_override_ctrl (E : Env) (c : Config) :
    (park_retract_setup E c).override_ctrl = c.override_ctrl := by
  unfold park_retract_setup; simp only; split <;> rfl

@[simp]
theorem park_retract_setup_stateHandler (E : Env) (c : Config) :
    (park_retract_setup E c).stateHandler = c.stateHandler := by
  unfold park_retract_setup; simp only; split <;> rfl

@[simp]
theorem park_retract_setup_restore_spindle_rpm (E : Env) (c : Config) :
    (park_retract_setup E c).restore_spindle_rpm = c.restore_spindle_rpm := by
  unfold park_retract_setup; simp only; split <;> rfl

@[simp]
theorem park_retract_setup_restore_condition (E : Env) (c : Config) :
    (park_retract_setup E c).restore_condition = c.restore_condition := by
  unfold park_retract_setup; simp only; split <;> rfl

@[simp]
theorem park_retract_setup_pending_state (E : Env) (c : Config) :
    (park_retract_setup E c).pending_state = c.pending_state := by
  unfold park_retract_setup; simp only; split <;> rfl

@[simp]
theorem park_retract_setup_log (E : Env) (c : Config) :
    (park_retract_setup E c).log = c.log := by
  unfold park_retract_setup; simp only; split <;> rfl

/-! ## The hold and parking handlers return and keep the state -/

theorem Kept.kept_refl (c : Config) : Kept c c := ⟨rfl, rfl, rfl, rfl, rfl, rfl, rfl⟩

theorem Kept.kept_trans {a b c : Config} (h1 : Kept a b) (h2 : Kept b c) : Kept a c := by
  obtain ⟨a1, a2, a3, a4, a5, a6, a7⟩ := h1
  obtain ⟨b1, b2, b3, b4, b5, b6, b7⟩ := h2
  exact ⟨b1.trans a1, b2.trans a2, b3.trans a3, b4.trans a4, b5.trans a5, b6.trans a6,
    b7.trans a7⟩

theorem run_await_resume_cc (E : Env) (c : Config) :
    run E (.handler .state_await_resume EXEC_CYCLE_COMPLETE) c =
      .ok (if E.PARKING_ENABLE then (end_sys_motion c).with_parking_state .Parking_DoorAjar
        else c) := by
  rw [run_handler]
  cases hp : E.PARKING_ENABLE <;>
    simp [call_handler, state_await_resume, EXEC_CYCLE_COMPLETE, hp]

theorem kept_await_resume_cc (E : Env) (c : Config) :
    ∃ c', run E (.handler .state_await_resume EXEC_CYCLE_COMPLETE) c = .ok c' ∧ Kept c c' ∧
      c'.stateHandler = c.stateHandler := by
  refine ⟨_, run_await_resume_cc E c, ?_, ?_⟩ <;> split <;> simp [Kept]

theorem kept_await_waypoint_retract (E : Env) (m : Events) (c : Config) :
    ∃ c', run E (.handler .state_await_waypoint_retract m) c = .ok c' ∧ Kept c c' ∧
      (c'.stateHandler = c.stateHandler ∨ c'.stateHandler = .state_await_resume) := by
  rw [run_handler]
  simp only [call_handler, state_await_waypoint_retract, call_mc_parking_motion]
  split
  · split
    · split
      · exact ⟨_, rfl, by simp [Kept], by simp⟩
      · simp only [Config.emit_stateHandler, Config.with_park_target_stateHandler,
          Config.with_park_plan_data_stateHandler,
          Config.with_stateHandler_stateHandler, run_await_resume_cc]
        refine ⟨_, rfl, ?_, ?_⟩ <;> split <;> simp [Kept]
    · simp only [Config.emit_stateHandler, Config.with_park_target_stateHandler,
        Config.with_park_plan_data_stateHandler,
        Config.with_stateHandler_stateHandler, run_await_resume_cc]
      refine ⟨_, rfl, ?_, ?_⟩ <;> split <;> simp [Kept]
  · exact ⟨c, rfl, Kept.kept_refl c, Or.inl rfl⟩

theorem after_of_ok {E : Env} {call : Call} {c c' : Config} (h : run E call c = .ok c') :
    after E call c = c' := by
  simp [after, h]

theorem run_await_waypoint_retract (E : Env) (m : Events) (c : Config) :
    run E (.handler .state_await_waypoint_retract m) c
      = .ok (after E (.handler .state_await_waypoint_retract m) c) := by
  obtain ⟨c', h, -⟩ := kept_await_waypoint_retract E m c
  rw [after_of_ok h, h]

theorem after_await_waypoint_retract (E : Env) (m : Events) (c : Config) :
    Kept c (after E (.handler .state_await_waypoint_retract m) c) ∧
      ((after E (.handler .state_await_waypoint_retract m) c).stateHandler = c.stateHandler ∨
        (after E (.handler .state_await_waypoint_retract m) c).stateHandler
          = .state_await_resume) := by
  obtain ⟨c', h, hk⟩ := kept_await_waypoint_retract E m c
  rw [after_of_ok h]; exact hk

theorem park_retract_ok (E : Env) (c : Config) :
    ∃ r, park_retract E (run E) c = .ok r ∧ Kept c r.2 ∧
      (r.1 = false → r.2.stateHandler = c.stateHandler) ∧
      (r.1 = true → r.2.stateHandler = .state_await_resume ∨
        r.2.stateHandler = .state_await_waypoint_retract) := by
  simp only [park_retract, call_mc_parking_motion]
  split
  · split
    · split
      · simp only [Config.emit_stateHandler, Config.with_park_target_stateHandler,
          Config.with_park_plan_data_stateHandler, Config.with_park_retracting_stateHandler,
          Config.with_stateHandler_stateHandler, run_await_waypoint_retract, Except.map]
        refine ⟨_, rfl, Kept.kept_trans ?_ (after_await_waypoint_retract E _ _).1, by simp, ?_⟩
        · simp [Kept]
        · intro _
          rcases (after_await_waypoint_retract E EXEC_CYCLE_COMPLETE _).2 with h | h
          · right; rw [h]; simp
          · left; exact h
      · exact ⟨_, rfl, by simp [Kept], by simp, by simp⟩
    · simp only [Config.emit_stateHandler, Config.with_park_target_stateHandler,
        Config.with_park_plan_data_stateHandler, Config.with_park_retracting_stateHandler,
        Config.with_stateHandler_stateHandler, run_await_waypoint_retract, Except.map]
      refine ⟨_, rfl, Kept.kept_trans ?_ (after_await_waypoint_retract E _ _).1, by simp, ?_⟩
      · simp [Kept]
      · intro _
        rcases (after_await_waypoint_retract E EXEC_CYCLE_COMPLETE _).2 with h | h
        · right; rw [h]; simp
        · left; exact h
  · exact ⟨_, rfl, by simp [Kept], by simp, by simp⟩

theorem kept_await_hold (E : Env) (m : Events) (c : Config) :
    ∃ c', run E (.handler .state_await_hold m) c = .ok c' ∧ Kept c c' ∧
      (c'.stateHandler = c.stateHandler ∨ c'.stateHandler = .state_await_resume ∨
        c'.stateHandler = .state_await_waypoint_retract) := by
  have fin : ∀ r : Except Stop (Bool × Config),
      (∃ x, r = .ok x ∧ Kept c x.2 ∧ (x.1 = false → x.2.stateHandler = c.stateHandler) ∧
        (x.1 = true → x.2.stateHandler = .state_await_resume ∨
          x.2.stateHandler = .state_await_waypoint_retract)) →
      ∃ c', (r >>= fun r => if !r.1 then
          Except.ok ((r.2.with_holding_state .Hold_Complete).with_stateHandler .state_await_resume)
        else .ok r.2) = .ok c' ∧ Kept c c' ∧
      (c'.stateHandler = c.stateHandler ∨ c'.stateHandler = .state_await_resume ∨
        c'.stateHandler = .state_await_waypoint_retract) := by
    rintro r ⟨⟨b, x⟩, rfl, hk, h1, h2⟩
    cases b
    · exact ⟨_, rfl, by simpa [Kept] using hk, by simp⟩
    · exact ⟨_, rfl, hk, Or.inr (h2 rfl)⟩
  rw [run_handler]
  simp only [call_handler, state_await_hold]
  split
  · apply fin
    have hpark : ∀ c0 : Config, Kept c c0 → c0.stateHandler = c.stateHandler →
        ∃ x, state_await_hold_parking E (run E) c0 = .ok x ∧ Kept c x.2 ∧
          (x.1 = false → x.2.stateHandler = c.stateHandler) ∧
          (x.1 = true → x.2.stateHandler = .state_await_resume ∨
            x.2.stateHandler = .state_await_waypoint_retract) := by
      intro c0 hk hh
      obtain ⟨x, hx, k1, k2, k3⟩ := park_retract_ok E (park_retract_setup E c0)
      refine ⟨x, hx, Kept.kept_trans (Kept.kept_trans hk (by simp [Kept])) k1, fun hb => ?_, k3⟩
      rw [k2 hb]; simpa using hh
    split
    · exact ⟨_, rfl, by simp [Kept], by simp, by simp⟩
    · split
      · exact ⟨_, rfl, by simp [Kept], by simp, by simp⟩
      · exact hpark _ (by simp [Kept]) (by simp)
    · split
      · exact ⟨_, rfl, by simp [Kept], by simp, by simp⟩
      · exact hpark _ (by simp [Kept]) (by simp)
    · exact ⟨_, rfl, by simp [Kept], by simp, by simp⟩
  · exact ⟨c, rfl, Kept.kept_refl c, Or.inl rfl⟩

theorem run_await_hold (E : Env) (m : Events) (c : Config) :
    run E (.handler .state_await_hold m) c = .ok (after E (.handler .state_await_hold m) c) := by
  obtain ⟨c', h, -⟩ := kept_await_hold E m c
  rw [after_of_ok h, h]

theorem after_await_hold (E : Env) (m : Events) (c : Config) :
    Kept c (after E (.handler .state_await_hold m) c) ∧
      ((after E (.handler .state_await_hold m) c).stateHandler = c.stateHandler ∨
        (after E (.handler .state_await_hold m) c).stateHandler = .state_await_resume ∨
        (after E (.handler .state_await_hold m) c).stateHandler
          = .state_await_waypoint_retract) := by
  obtain ⟨c', h, hk⟩ := kept_await_hold E m c
  rw [after_of_ok h]; exact hk

/-! ## What the blocks of `initiate_hold` leave alone -/

@[simp]
theorem hold_park_init_state (E : Env) (c : Config) : (hold_park_init E c).state = c.state := by
  unfold hold_park_init; split <;> rfl

@[simp]
theorem hold_snapshot_state (E : Env) (c : Config) : (hold_snapshot E c).state = c.state := by
  unfold hold_snapshot; split <;> rfl

@[simp]
theorem hold_laser_state (E : Env) (c : Config) : (hold_laser E c).state = c.state := by
  unfold hold_laser; split <;> rfl

@[simp]
theorem hold_decelerate_state (c : Config) : (hold_decelerate c).state = c.state := by
  unfold hold_decelerate; split <;> rfl

@[simp]
theorem hold_park_init_suspend (E : Env) (c : Config) : (hold_park_init E c).suspend = c.suspend := by
  unfold hold_park_init; split <;> rfl

@[simp]
theorem hold_snapshot_suspend (E : Env) (c : Config) : (hold_snapshot E c).suspend = c.suspend := by
  unfold hold_snapshot; split <;> rfl

@[simp]
theorem hold_laser_suspend (E : Env) (c : Config) : (hold_laser E c).suspend = c.suspend := by
  unfold hold_laser; split <;> rfl

@[simp]
theorem hold_decelerate_suspend (c : Config) : (hold_decelerate c).suspend = c.suspend := by
  unfold hold_decelerate; split <;> rfl

@[simp]
theorem hold_park_init_step_control (E : Env) (c : Config) : (hold_park_init E c).step_control = c.step_control := by
  unfold hold_park_init; split <;> rfl

@[simp]
theorem hold_snapshot_step_control (E : Env) (c : Config) : (hold_snapshot E c).step_control = c.step_control := by
  unfold hold_snapshot; split <;> rfl

@[simp]
theorem hold_laser_step_control (E : Env) (c : Config) : (hold_laser E c).step_control = c.step_control := by
  unfold hold_laser; split <;> rfl

@[simp]
theorem hold_park_init_holding_state (E : Env) (c : Config) : (hold_park_init E c).holding_state = c.holding_state := by
  unfold hold_park_init; split <;> rfl

@[simp]
theorem hold_snapshot_holding_state (E : Env) (c : Config) : (hold_snapshot E c).holding_state = c.holding_state := by
  unfold hold_snapshot; split <;> rfl

@[simp]
theorem hold_laser_holding_state (E : Env) (c : Config) : (hold_laser E c).holding_state = c.holding_state := by
  unfold hold_laser; split <;> rfl

@[simp]
theorem hold_decelerate_holding_state (c : Config) : (hold_decelerate c).holding_state = c.holding_state := by
  unfold hold_decelerate; split <;> rfl

@[simp]
theorem hold_park_init_parking_state (E : Env) (c : Config) : (hold_park_init E c).parking_state = c.parking_state := by
  unfold hold_park_init; split <;> rfl

@[simp]
theorem hold_snapshot_parking_state (E : Env) (c : Config) : (hold_snapshot E c).parking_state = c.parking_state := by
  unfold hold_snapshot; split <;> rfl

@[simp]
theorem hold_laser_parking_state (E : Env) (c : Config) : (hold_laser E c).parking_state = c.parking_state := by
  unfold hold_laser; split <;> rfl

@[simp]
theorem hold_decelerate_parking_state (c : Config) : (hold_decelerate c).parking_state = c.parking_state := by
  unfold hold_decelerate; split <;> rfl

@[simp]
theorem hold_park_init_steppers_deenergize (E : Env) (c : Config) : (hold_park_init E c).steppers_deenergize = c.steppers_deenergize := by
  unfold hold_park_init; split <;> rfl

@[simp]
theorem hold_snapshot_steppers_deenergize (E : Env) (c : Config) : (hold_snapshot E c).steppers_deenergize = c.steppers_deenergize := by
  unfold hold_snapshot; split <;> rfl

@[simp]
theorem hold_laser_steppers_deenergize (E : Env) (c : Config) : (hold_laser E c).steppers_deenergize = c.steppers_deenergize := by
  unfold hold_laser; split <;> rfl

@[simp]
theorem hold_decelerate_steppers_deenergize (c : Config) : (hold_decelerate c).steppers_deenergize = c.steppers_deenergize := by
  unfold hold_decelerate; split <;> rfl

@[simp]
theorem hold_park_init_spindle_stop_ovr (E : Env) (c : Config) : (hold_park_init E c).spindle_stop_ovr = c.spindle_stop_ovr := by
  unfold hold_park_init; split <;> rfl

@[simp]
theorem hold_snapshot_spindle_stop_ovr (E : Env) (c : Config) : (hold_snapshot E c).spindle_stop_ovr = c.spindle_stop_ovr := by
  unfold hold_snapshot; split <;> rfl

@[simp]
theorem hold_laser_spindle_stop_ovr (E : Env) (c : Config) : (hold_laser E c).spindle_stop_ovr = c.spindle_stop_ovr := by
  unfold hold_laser; split <;> rfl

@[simp]
theorem hold_decelerate_spindle_stop_ovr (c : Config) : (hold_decelerate c).spindle_stop_ovr = c.spindle_stop_ovr := by
  unfold hold_decelerate; split <;> rfl

@[simp]
theorem hold_park_init_override_ctrl (E : Env) (c : Config) : (hold_park_init E c).override_ctrl = c.override_ctrl := by
  unfold hold_park_init; split <;> rfl

@[simp]
theorem hold_snapshot_override_ctrl (E : Env) (c : Config) : (hold_snapshot E c).override_ctrl = c.override_ctrl := by
  unfold hold_snapshot; split <;> rfl

@[simp]
theorem hold_laser_override_ctrl (E : Env) (c : Config) : (hold_laser E c).override_ctrl = c.override_ctrl := by
  unfold hold_laser; split <;> rfl

@[simp]
theorem hold_decelerate_override_ctrl (c : Config) : (hold_decelerate c).override_ctrl = c.override_ctrl := by
  unfold hold_decelerate; split <;> rfl

@[simp]
theorem hold_park_init_stateHandler (E : Env) (c : Config) : (hold_park_init E c).stateHandler = c.stateHandler := by
  unfold hold_park_init; split <;> rfl

@[simp]
theorem hold_snapshot_stateHandler (E : Env) (c : Config) : (hold_snapshot E c).stateHandler = c.stateHandler := by
  unfold hold_snapshot; split <;> rfl

@[simp]
theorem hold_laser_stateHandler (E : Env) (c : Config) : (hold_laser E c).stateHandler = c.stateHandler := by
  unfold hold_laser; split <;> rfl

@[simp]
theorem hold_park_init_restore_spindle_rpm (E : Env) (c : Config) : (hold_park_init E c).restore_spindle_rpm = c.restore_spindle_rpm := by
  unfold hold_park_init; split <;> rfl

@[simp]
theorem hold_laser_restore_spindle_rpm (E : Env) (c : Config) : (hold_laser E c).restore_spindle_rpm = c.restore_spindle_rpm := by
  unfold hold_laser; split <;> rfl

@[simp]
theorem hold_decelerate_restore_spindle_rpm (c : Config) : (hold_decelerate c).restore_spindle_rpm = c.restore_spindle_rpm := by
  unfold hold_decelerate; split <;> rfl

@[simp]
theorem hold_park_init_restore_condition (E : Env) (c : Config) : (hold_park_init E c).restore_condition = c.restore_condition := by
  unfold hold_park_init; split <;> rfl

@[simp]
theorem hold_laser_restore_condition (E : Env) (c : Config) : (hold_laser E c).restore_condition = c.restore_condition := by
  unfold hold_laser; split <;> rfl

@[simp]
theorem hold_decelerate_restore_condition (c : Config) : (hold_decelerate c).restore_condition = c.restore_condition := by
  unfold hold_decelerate; split <;> rfl

@[simp]
theorem hold_park_init_pending_state (E : Env) (c : Config) : (hold_park_init E c).pending_state = c.pending_state := by
  unfold hold_park_init; split <;> rfl

@[simp]
theorem hold_snapshot_pending_state (E : Env) (c : Config) : (hold_snapshot E c).pending_state = c.pending_state := by
  unfold hold_snapshot; split <;> rfl

@[simp]
theorem hold_laser_pending_state (E : Env) (c : Config) : (hold_laser E c).pending_state = c.pending_state := by
  unfold hold_laser; split <;> rfl

@[simp]
theorem hold_decelerate_pending_state (c : Config) : (hold_decelerate c).pending_state = c.pending_state := by
  unfold hold_decelerate; split <;> rfl

@[simp]
theorem hold_snapshot_park (E : Env) (c : Config) : (hold_snapshot E c).park = c.park := by
  unfold hold_snapshot; split <;> rfl

@[simp]
theorem hold_laser_park (E : Env) (c : Config) : (hold_laser E c).park = c.park := by
  unfold hold_laser; split <;> rfl

@[simp]
theorem hold_decelerate_park (c : Config) : (hold_decelerate c).park = c.park := by
  unfold hold_decelerate; split <;> rfl

@[simp]
theorem hold_park_init_log (E : Env) (c : Config) : (hold_park_init E c).log = c.log := by
  unfold hold_park_init; split <;> rfl

@[simp]
theorem hold_snapshot_log (E : Env) (c : Config) : (hold_snapshot E c).log = c.log := by
  unfold hold_snapshot; split <;> rfl

theorem hold_decelerate_stateHandler (c : Config) :
    (hold_decelerate c).stateHandler =
      if c.state = .STATE_CYCLE ∨ c.state = .STATE_JOG then .state_await_hold
      else c.stateHandler := by
  unfold hold_decelerate
  cases h : c.state <;> simp [State.among, h]

theorem hold_decelerate_step_control (c : Config) :
    (hold_decelerate c).step_control =
      if c.state = .STATE_CYCLE ∨ c.state = .STATE_JOG then
        { c.step_control with execute_hold := true }
      else c.step_control := by
  unfold hold_decelerate
  cases h : c.state <;> simp [State.among, h]

/-! ## Summary of `initiate_hold` and `set_state` -/

@[simp]
theorem initiate_hold_fst (E : Env) (s : State) (c : Config) :
    (initiate_hold E s c).1 = (c.state == .STATE_CYCLE) := by
  simp only [initiate_hold]; split <;> simp

@[simp]
theorem initiate_hold_state (E : Env) (s : State) (c : Config) :
    (initiate_hold E s c).2.state = c.state := by
  simp only [initiate_hold]; split <;> simp

@[simp]
theorem initiate_hold_suspend (E : Env) (s : State) (c : Config) :
    (initiate_hold E s c).2.suspend = true := by
  simp [initiate_hold]

@[simp]
theorem initiate_hold_override_ctrl (E : Env) (s : State) (c : Config) :
    (initiate_hold E s c).2.override_ctrl = c.override_ctrl := by
  simp only [initiate_hold]; split <;> simp

@[simp]
theorem initiate_hold_steppers_deenergize (E : Env) (s : State) (c : Config) :
    (initiate_hold E s c).2.steppers_deenergize = c.steppers_deenergize := by
  simp only [initiate_hold]; split <;> simp

@[simp]
theorem initiate_hold_spindle_stop_ovr (E : Env) (s : State) (c : Config) :
    (initiate_hold E s c).2.spindle_stop_ovr = c.spindle_stop_ovr := by
  simp only [initiate_hold]; split <;> simp

@[simp]
theorem initiate_hold_pending_state (E : Env) (s : State) (c : Config) :
    (initiate_hold E s c).2.pending_state = if c.state = .STATE_JOG then s else .STATE_IDLE := by
  simp only [initiate_hold]; split <;> simp

@[simp]
theorem initiate_hold_stateHandler (E : Env) (s : State) (c : Config) :
    (initiate_hold E s c).2.stateHandler =
      if c.state = .STATE_CYCLE ∨ c.state = .STATE_JOG then .state_await_hold
      else c.stateHandler := by
  simp only [initiate_hold]; split <;> simp [hold_decelerate_stateHandler]

@[simp]
theorem initiate_hold_step_control (E : Env) (s : State) (c : Config) :
    (initiate_hold E s c).2.step_control =
      if c.state = .STATE_CYCLE ∨ c.state = .STATE_JOG then
        { c.step_control with execute_hold := true }
      else c.step_control := by
  simp only [initiate_hold]; split <;> simp [hold_decelerate_step_control]


@[simp]
theorem after_await_hold_state (E : Env) (m : Events) (c : Config) :
    (after E (.handler .state_await_hold m) c).state = c.state :=
  (after_await_hold E m c).1.1

@[simp]
theorem after_await_hold_suspend (E : Env) (m : Events) (c : Config) :
    (after E (.handler .state_await_hold m) c).suspend = c.suspend :=
  (after_await_hold E m c).1.2.1

@[simp]
theorem after_await_hold_pending_state (E : Env) (m : Events) (c : Config) :
    (after E (.handler .state_await_hold m) c).pending_state = c.pending_state :=
  (after_await_hold E m c).1.2.2.1

@[simp]
theorem after_await_hold_override_ctrl (E : Env) (m : Events) (c : Config) :
    (after E (.handler .state_await_hold m) c).override_ctrl = c.override_ctrl :=
  (after_await_hold E m c).1.2.2.2.1

@[simp]
theorem after_await_hold_restore_condition (E : Env) (m : Events) (c : Config) :
    (after E (.handler .state_await_hold m) c).restore_condition = c.restore_condition :=
  (after_await_hold E m c).1.2.2.2.2.1

@[simp]
theorem after_await_hold_restore_spindle_rpm (E : Env) (m : Events) (c : Config) :
    (after E (.handler .state_await_hold m) c).restore_spindle_rpm = c.restore_spindle_rpm :=
  (after_await_hold E m c).1.2.2.2.2.2.1

@[simp]
theorem after_await_hold_steppers_deenergize (E : Env) (m : Events) (c : Config) :
    (after E (.handler .state_await_hold m) c).steppers_deenergize = c.steppers_deenergize :=
  (after_await_hold E m c).1.2.2.2.2.2.2

theorem set_state_case_sleep_spec (E : Env) (s : State) (c : Config)
    (hs : s ≠ .STATE_IDLE) :
    ∃ c', set_state_case_sleep E (run E) s c = .ok c' ∧ c'.suspend = true ∧
      c'.override_ctrl = c.override_ctrl ∧ c'.steppers_deenergize = c.steppers_deenergize ∧
      (c.state ≠ .STATE_JOG → c'.state = s) ∧
      (c.state = .STATE_JOG →
        c'.state = .STATE_JOG ∧ c'.stateHandler = .state_await_hold ∧ c'.pending_state = s) := by
  by_cases hc : c.state = .STATE_CYCLE
  · simp [set_state_case_sleep, hc]
  · by_cases hj : c.state = .STATE_JOG
    · simp [set_state_case_sleep, hj, hs]
    · simp [set_state_case_sleep, hc, hj, hs, Ne.symm hs, run_await_hold]

theorem spindle_sync_wait_ok (E : Env) (c c' : Config) (h : spindle_sync_wait E c = .ok c') :
    c' = c ∨ c' = c.emit .spindle_reset_data := by
  unfold spindle_sync_wait at h
  cases hr : E.has_spindle_reset_data
  · rw [hr] at h
    simp only [Bool.false_eq_true, if_false] at h
    split at h
    · injection h with h; exact Or.inl h.symm
    · cases h
  · rw [hr] at h
    simp only [if_true] at h
    split at h
    · injection h with h; exact Or.inr h.symm
    · cases h

theorem set_state_spec (E : Env) (s : State) (c c' : Config)
    (h : run E (.set_state s) c = .ok c') :
    c' = c ∨
    (c.state = .STATE_JOG ∧ (s = .STATE_SAFETY_DOOR ∨ s = .STATE_SLEEP) ∧
      c'.state = .STATE_JOG ∧ c'.suspend = true ∧ c'.stateHandler = .state_await_hold ∧
      c'.pending_state = s) ∨
    (s ≠ c.state ∧ c'.state = s ∧ s ≠ .STATE_TOOL_CHANGE ∧
      (s = .STATE_IDLE → c'.stateHandler = .state_idle ∧ c'.suspend = false ∧
        c'.step_control = {} ∧ c'.parking_state = .Parking_DoorClosed ∧
        c'.holding_state = .Hold_NotHolding) ∧
      (s = .STATE_CYCLE → c.state = .STATE_IDLE ∧ c'.stateHandler = .state_cycle ∧
        c'.suspend = c.suspend ∧ c'.step_control = c.step_control) ∧
      (s = .STATE_JOG → c'.stateHandler = .state_cycle ∧ c'.suspend = c.suspend ∧
        c'.step_control = c.step_control) ∧
      (s = .STATE_HOLD ∨ s = .STATE_SAFETY_DOOR ∨ s = .STATE_SLEEP → c'.suspend = true) ∧
      (s = .STATE_ALARM ∨ s = .STATE_ESTOP ∨ s = .STATE_HOMING ∨ s = .STATE_CHECK_MODE →
        c'.stateHandler = .state_noop ∧ c'.suspend = c.suspend ∧
        c'.step_control = c.step_control)) := by
  rw [run_set_state] at h
  unfold set_state at h
  split at h
  · left; injection h with h; exact h.symm
  · rename_i hne
    cases s
    case STATE_IDLE =>
      injection h with h; subst h
      right; right; simp [hne]
    case STATE_TOOL_CHANGE => left; injection h with h; exact h.symm
    case STATE_JOG =>
      injection h with h; subst h
      right; right; simp [hne]
    case STATE_ALARM => injection h with h; subst h; right; right; simp [hne]
    case STATE_ESTOP => injection h with h; subst h; right; right; simp [hne]
    case STATE_HOMING => injection h with h; subst h; right; right; simp [hne]
    case STATE_CHECK_MODE => injection h with h; subst h; right; right; simp [hne]
    case STATE_CYCLE =>
      simp only at h
      split at h
      · rename_i hi
        split at h
        · rename_i block hb
          obtain ⟨c1, h1, h2⟩ := bind_eq_ok _ _ _ h
          injection h2 with h2; subst h2
          have hc1 : c1.suspend = c.suspend ∧ c1.step_control = c.step_control ∧
              c1.state = .STATE_CYCLE := by
            split at h1
            · rcases spindle_sync_wait_ok _ _ _ h1 with h1 | h1 <;> subst h1 <;> simp
            · injection h1 with h1; subst h1; simp
          right; right; simp [hne, hi, hc1.1, hc1.2.1, hc1.2.2]
        · left; injection h with h; exact h.symm
      · left; injection h with h; exact h.symm
    case STATE_HOLD =>
      simp only at h
      split at h
      · injection h with h; subst h
        right; right
        by_cases hc : c.state = .STATE_CYCLE <;> simp [hne, hc]
      · left; injection h with h; exact h.symm
    case STATE_SAFETY_DOOR =>
      simp only at h
      split at h
      · left; injection h with h; exact h.symm
      · obtain ⟨c2, e2, k1, k2, k3, k4, k5⟩ := set_state_case_sleep_spec E .STATE_SAFETY_DOOR
          (c.emit (.report_feedback_message .Message_SafetyDoorAjar)) (by decide)
        rw [e2] at h; injection h with h; subst h
        by_cases hj : c.state = .STATE_JOG
        · right; left
          have := k5 (by simpa using hj)
          exact ⟨hj, Or.inl rfl, this.1, k1, this.2.1, this.2.2⟩
        · right; right
          have := k4 (by simpa using hj)
          simp [hne, this, k1]
    case STATE_SLEEP =>
      simp only at h
      obtain ⟨c2, e2, k1, k2, k3, k4, k5⟩ := set_state_case_sleep_spec E .STATE_SLEEP c
        (by decide)
      rw [e2] at h; injection h with h; subst h
      by_cases hj : c.state = .STATE_JOG
      · right; left
        have := k5 hj
        exact ⟨hj, Or.inr rfl, this.1, k1, this.2.1, this.2.2⟩
      · right; right
        have := k4 hj
        simp [hne, this, k1]

/-! ## Summary of the handlers -/

theorem Quiet.quiet_refl (c : Config) : Quiet c c := ⟨rfl, Or.inl rfl⟩

theorem Quiet.quiet_trans {a b c : Config} (h1 : Quiet a b) (h2 : Quiet b c) : Quiet a c := by
  obtain ⟨a1, a2⟩ := h1
  obtain ⟨b1, b2⟩ := h2
  refine ⟨b1.trans a1, ?_⟩
  rcases b2 with b2 | b2
  · rcases a2 with a2 | a2
    · exact Or.inl (b2.trans a2)
    · exact Or.inr (b2.trans a2)
  · exact Or.inr b2

theorem Quiet.of_kept {c c' : Config} (h : Kept c c') : Quiet c c' := ⟨h.1, Or.inl h.2.1⟩

theorem Quiet.of_frame {c c' : Config} (h : Frame c c') : Quiet c c' := by
  obtain ⟨sc, l, rfl⟩ := h
  exact ⟨rfl, Or.inl rfl⟩

theorem Quiet.suspendInv {c c' : Config} (h : Quiet c c') (hi : SuspendInv c) :
    SuspendInv c' := by
  intro hs
  rw [h.1] at hs
  rcases h.2 with h2 | h2
  · rw [h2]; exact hi hs
  · exact h2

theorem set_state_good (E : Env) (s : State) (c c' : Config)
    (h : run E (.set_state s) c = .ok c') : c' = c ∨ Good c' := by
  rcases set_state_spec E s c c' h with h | h | h
  · exact Or.inl h
  · obtain ⟨-, -, h1, h2, -⟩ := h
    right
    refine ⟨fun _ => h2, ⟨?_, ?_⟩, ?_⟩ <;> simp [h1, State.inert, State.among]
  · obtain ⟨-, h1, h0, hI, hC, hJ, hH, hN⟩ := h
    right
    cases s
    case STATE_TOOL_CHANGE => exact absurd rfl h0
    case STATE_IDLE =>
      obtain ⟨a, b, d, -⟩ := hI rfl
      refine ⟨?_, ⟨fun _ => a, ?_⟩, fun _ => ⟨d, b⟩⟩ <;>
        simp [SuspendInv, h1, State.inert, State.held, State.among]
    case STATE_CYCLE =>
      refine ⟨?_, ⟨?_, ?_⟩, ?_⟩ <;> simp [SuspendInv, h1, State.inert, State.held, State.among]
    case STATE_JOG =>
      refine ⟨?_, ⟨?_, ?_⟩, ?_⟩ <;> simp [SuspendInv, h1, State.inert, State.held, State.among]
    case STATE_HOLD =>
      refine ⟨fun _ => hH (by simp), ⟨?_, ?_⟩, ?_⟩ <;> simp [h1, State.inert, State.among]
    case STATE_SAFETY_DOOR =>
      refine ⟨fun _ => hH (by simp), ⟨?_, ?_⟩, ?_⟩ <;> simp [h1, State.inert, State.among]
    case STATE_SLEEP =>
      refine ⟨fun _ => hH (by simp), ⟨?_, ?_⟩, ?_⟩ <;> simp [h1, State.inert, State.among]
    case STATE_ALARM =>
      refine ⟨?_, ⟨?_, fun _ => (hN (by simp)).1⟩, ?_⟩ <;>
        simp [SuspendInv, h1, State.held, State.among]
    case STATE_ESTOP =>
      refine ⟨?_, ⟨?_, fun _ => (hN (by simp)).1⟩, ?_⟩ <;>
        simp [SuspendInv, h1, State.held, State.among]
    case STATE_HOMING =>
      refine ⟨?_, ⟨?_, fun _ => (hN (by simp)).1⟩, ?_⟩ <;>
        simp [SuspendInv, h1, State.held, State.among]
    case STATE_CHECK_MODE =>
      refine ⟨?_, ⟨?_, fun _ => (hN (by simp)).1⟩, ?_⟩ <;>
        simp [SuspendInv, h1, State.held, State.among]

theorem run_set_state_idle (E : Env) (c : Config) (h : c.state ≠ .STATE_IDLE) :
    run E (.set_state .STATE_IDLE) c = .ok ((((((c.with_suspend false).with_step_control
      {}).with_parking_state .Parking_DoorClosed).with_holding_state
      .Hold_NotHolding).with_state .STATE_IDLE).with_stateHandler .state_idle) := by
  rw [run_set_state]
  simp only [set_state, if_neg (Ne.symm h)]

/-- The tail `set_state(STATE_IDLE); set_state(STATE_CYCLE);` of a resume. -/
theorem resume_tail (E : Env) (c c' : Config)
    (h : (run E (.set_state .STATE_IDLE) c >>= fun c => run E (.set_state .STATE_CYCLE) c)
      = .ok c') : Quiet c c' ∨ Good c' := by
  obtain ⟨c1, h1, h2⟩ := bind_eq_ok _ _ _ h
  rcases set_state_good E _ _ _ h2 with e2 | g2
  · subst e2
    rcases set_state_good E _ _ _ h1 with e1 | g1
    · subst e1; exact Or.inl (Quiet.quiet_refl _)
    · exact Or.inr g1
  · exact Or.inr g2

theorem sum_state_idle (E : Env) (m : Events) (c c' : Config)
    (h : run E (.handler .state_idle m) c = .ok c') : c' = c ∨ Good c' := by
  rw [run_handler] at h
  simp only [call_handler, state_idle] at h
  obtain ⟨c1, h1, h2⟩ := bind_eq_ok _ _ _ h
  have s2 : c' = c1 ∨ Good c' := by
    split at h2
    · exact set_state_good E _ _ _ h2
    · injection h2 with h2; exact Or.inl h2.symm
  have s1 : c1 = c ∨ Good c1 := by
    split at h1
    · exact set_state_good E _ _ _ h1
    · injection h1 with h1; exact Or.inl h1.symm
  rcases s2 with e | g
  · subst e; exact s1
  · exact Or.inr g

theorem quiet_motion_cancel (c : Config) : Quiet c (motion_cancel c) :=
  ⟨by simp, Or.inr (by simp)⟩

theorem sum_state_cycle (E : Env) (m : Events) (c c' : Config)
    (h : run E (.handler .state_cycle m) c = .ok c') :
    (SuspendInv c → SuspendInv c') ∧
      (¬(m.cycle_complete = true ∧ m.motion_cancel = true) → Quiet c c' ∨ Good c') := by
  rw [run_handler] at h
  simp only [call_handler, state_cycle] at h
  obtain ⟨c1, h1, h2⟩ := bind_eq_ok _ _ _ h
  have s1 : (c1 = c ∧ (m.cycle_complete = true → c.state = .STATE_IDLE)) ∨
      (Good c1 ∧ m.cycle_complete = true) := by
    split at h1
    · rename_i hcc
      by_cases hi : c.state = .STATE_IDLE
      · left
        rw [run_set_state] at h1
        simp only [set_state, hi, if_true] at h1
        injection h1 with h1
        exact ⟨h1.symm, fun _ => hi⟩
      · rcases set_state_good E _ _ _ h1 with e | g
        · rw [run_set_state_idle E c hi] at h1
          injection h1 with h1
          rw [e] at h1
          have := congrArg Config.state h1
          simp at this
          exact absurd this.symm hi
        · exact Or.inr ⟨g, hcc⟩
    · rename_i hcc
      injection h1 with h1
      exact Or.inl ⟨h1.symm, fun h => absurd h hcc⟩
  have s2 : c' = (if m.motion_cancel = true then motion_cancel c1 else c1) ∨ Good c' := by
    split at h2
    · exact set_state_good E _ _ _ h2
    · injection h2 with h2; exact Or.inl h2.symm
  have q12 : Quiet c1 (if m.motion_cancel = true then motion_cancel c1 else c1) := by
    split
    · exact quiet_motion_cancel c1
    · exact Quiet.quiet_refl c1
  constructor
  · intro hi
    rcases s2 with e | g
    · rw [e]
      refine q12.suspendInv ?_
      rcases s1 with ⟨e1, -⟩ | ⟨g1, -⟩
      · rw [e1]; exact hi
      · exact g1.1
    · exact g.1
  · intro hbad
    rcases s2 with e | g
    · rcases s1 with ⟨e1, -⟩ | ⟨g1, hcc⟩
      · left; rw [e]; subst e1; exact q12
      · right
        have hmc : ¬ m.motion_cancel = true := fun hm => hbad ⟨hcc, hm⟩
        rw [e, if_neg hmc]; exact g1
    · exact Or.inr g

theorem sum_state_await_motion_cancel (E : Env) (m : Events) (c c' : Config)
    (h : run E (.handler .state_await_motion_cancel m) c = .ok c') :
    Quiet c c' ∨ Good c' := by
  rw [run_handler] at h
  simp only [call_handler, state_await_motion_cancel] at h
  split at h
  · rcases set_state_good E _ _ _ h with e | g
    · left; rw [e]
      split
      · exact ⟨rfl, Or.inl rfl⟩
      · exact Quiet.quiet_refl c
    · exact Or.inr g
  · injection h with h; subst h; exact Or.inl (Quiet.quiet_refl c)

theorem sum_state_await_hold (E : Env) (m : Events) (c c' : Config)
    (h : run E (.handler .state_await_hold m) c = .ok c') : Quiet c c' := by
  obtain ⟨c2, h2, k, -⟩ := kept_await_hold E m c
  rw [h2] at h; injection h with h; subst h
  exact Quiet.of_kept k

theorem sum_state_await_waypoint_retract (E : Env) (m : Events) (c c' : Config)
    (h : run E (.handler .state_await_waypoint_retract m) c = .ok c') : Quiet c c' := by
  obtain ⟨c2, h2, k, -⟩ := kept_await_waypoint_retract E m c
  rw [h2] at h; injection h with h; subst h
  exact Quiet.of_kept k

theorem quiet_end_sys_motion (c : Config) : Quiet c (end_sys_motion c) :=
  ⟨by simp, Or.inl (by simp)⟩

theorem quiet_restart_retract (E : Env) (c c' : Config)
    (h : restart_retract (run E) c = .ok c') : Quiet c c' := by
  simp only [restart_retract] at h
  split at h
  · injection h with h; subst h; exact ⟨rfl, Or.inl rfl⟩
  · have := sum_state_await_hold E _ _ _ h
    exact Quiet.quiet_trans ⟨rfl, Or.inl rfl⟩ this

theorem sum_state_await_resumed (E : Env) (m : Events) (c c' : Config)
    (h : run E (.handler .state_await_resumed m) c = .ok c') : Quiet c c' ∨ Good c' := by
  rw [run_handler] at h
  simp only [call_handler, state_await_resumed] at h
  split at h
  · exact Or.inl (quiet_restart_retract E _ _ h)
  · split at h
    · rcases resume_tail E _ _ h with q | g
      · exact Or.inl ((quiet_end_sys_motion c).quiet_trans q)
      · exact Or.inr g
    · injection h with h; subst h; exact Or.inl (Quiet.quiet_refl c)

theorem sum_state_restore (E : Env) (m : Events) (c c' : Config)
    (h : run E (.handler .state_restore m) c = .ok c') : Quiet c c' ∨ Good c' := by
  rw [run_handler] at h
  simp only [call_handler, state_restore] at h
  split at h
  · exact Or.inl (quiet_restart_retract E _ _ h)
  · split at h
    · obtain ⟨c1, h1, h2⟩ := bind_eq_ok _ _ _ h
      have q0 : Quiet c ((end_sys_motion c).with_stateHandler .state_await_resumed) :=
        ⟨by simp, Or.inl (by simp)⟩
      have q1 : Quiet c c1 :=
        q0.quiet_trans (Quiet.of_frame (state_restore_conditions_frame _ _ _ _ _ h1))
      obtain ⟨sc, l, rfl⟩ := state_restore_conditions_frame _ _ _ _ _ h1
      simp only [call_mc_parking_motion] at h2
      split at h2
      · simp only [Config.emit_stateHandler, Config.with_park_plan_data_stateHandler,
          Config.emits_stateHandler, Config.with_step_control_stateHandler,
          Config.with_stateHandler_stateHandler] at h2
        rcases sum_state_await_resumed E _ _ _ h2 with q | g
        · exact Or.inl (q1.quiet_trans (Quiet.quiet_trans ⟨rfl, Or.inl rfl⟩ q))
        · exact Or.inr g
      · injection h2 with h2; subst h2
        exact Or.inl (q1.quiet_trans ⟨rfl, Or.inl rfl⟩)
    · injection h with h; subst h; exact Or.inl (Quiet.quiet_refl c)

theorem quiet_state_await_resume_hold (E : Env) (c : Config) :
    Quiet c (state_await_resume_hold E c) := ⟨by simp, Or.inl (by simp)⟩

theorem map_eq_ok {α β : Type} (x : Except Stop α) (f : α → β) (b : β)
    (h : x.map f = .ok b) : ∃ a, x = .ok a ∧ f a = b := by
  cases x with
  | error e => cases h
  | ok a => injection h with h; exact ⟨a, rfl, h⟩

theorem sum_state_await_resume_parking (E : Env) (c : Config) (r : Bool × Config)
    (h : state_await_resume_parking E (run E) c = .ok r) :
    (r.1 = false → Quiet c r.2) ∧ (r.1 = true → Quiet c r.2 ∨ Good r.2) := by
  simp only [state_await_resume_parking, call_mc_parking_motion] at h
  split at h
  · simp only [Config.emit_stateHandler, Config.with_park_plan_data_stateHandler,
      Config.with_park_target_stateHandler, Config.with_stateHandler_stateHandler] at h
    split at h
    · split at h
      · obtain ⟨c1, h1, rfl⟩ := map_eq_ok _ _ _ h
        refine ⟨(fun hf => by cases hf), fun _ => ?_⟩
        rcases sum_state_restore E _ _ _ h1 with q | g
        · exact Or.inl (Quiet.quiet_trans ⟨rfl, Or.inl rfl⟩ q)
        · exact Or.inr g
      · injection h with h; subst h
        exact ⟨(fun hf => by cases hf), fun _ => Or.inl ⟨rfl, Or.inl rfl⟩⟩
    · obtain ⟨c1, h1, rfl⟩ := map_eq_ok _ _ _ h
      refine ⟨(fun hf => by cases hf), fun _ => ?_⟩
      rcases sum_state_restore E _ _ _ h1 with q | g
      · exact Or.inl (Quiet.quiet_trans ⟨rfl, Or.inl rfl⟩ q)
      · exact Or.inr g
  · injection h with h; subst h
    exact ⟨fun _ => ⟨rfl, Or.inl rfl⟩, fun hf => by cases hf⟩

theorem sum_state_await_resume (E : Env) (m : Events) (c c' : Config)
    (h : run E (.handler .state_await_resume m) c = .ok c') : Quiet c c' ∨ Good c' := by
  rw [run_handler] at h
  simp only [call_handler, state_await_resume] at h
  have q0 : Quiet c (if (E.PARKING_ENABLE && m.cycle_complete) = true then
      (end_sys_motion c).with_parking_state .Parking_DoorAjar else c) := by
    split
    · exact ⟨by simp, Or.inl (by simp)⟩
    · exact Quiet.quiet_refl c
  generalize (if (E.PARKING_ENABLE && m.cycle_complete) = true then
      (end_sys_motion c).with_parking_state .Parking_DoorAjar else c) = c0 at h q0
  split at h
  · have q1 : Quiet c0 (if (c0.state == State.STATE_HOLD && !c0.spindle_stop_ovr.value) = true
        then c0.with_spindle_stop_ovr { c0.spindle_stop_ovr with restore_cycle := true }
        else c0) := by
      split
      · exact ⟨rfl, Or.inl rfl⟩
      · exact Quiet.quiet_refl c0
    generalize (if (c0.state == State.STATE_HOLD && !c0.spindle_stop_ovr.value) = true
        then c0.with_spindle_stop_ovr { c0.spindle_stop_ovr with restore_cycle := true }
        else c0) = c1 at h q1
    obtain ⟨r, h1, h2⟩ := bind_eq_ok _ _ _ h
    have hr : (r.1 = false → Quiet c1 r.2) ∧ (r.1 = true → Quiet c1 r.2 ∨ Good r.2) := by
      split at h1
      · injection h1 with h1; subst h1
        exact ⟨fun _ => Quiet.quiet_refl _, fun hf => by cases hf⟩
      · split at h1
        · exact sum_state_await_resume_parking E _ _ h1
        · obtain ⟨c2, e2, rfl⟩ := map_eq_ok _ _ _ h1
          exact ⟨fun _ => Quiet.of_frame (state_restore_conditions_frame _ _ _ _ _ e2),
            fun hf => by cases hf⟩
      · split at h1
        · exact sum_state_await_resume_parking E _ _ h1
        · obtain ⟨c2, e2, rfl⟩ := map_eq_ok _ _ _ h1
          exact ⟨fun _ => Quiet.of_frame (state_restore_conditions_frame _ _ _ _ _ e2),
            fun hf => by cases hf⟩
      · injection h1 with h1; subst h1
        exact ⟨fun _ => quiet_state_await_resume_hold E c1, fun hf => by cases hf⟩
    obtain ⟨b, c2⟩ := r
    cases b
    · simp only [Bool.not_false, if_true] at h2
      rcases resume_tail E _ _ h2 with q | g
      · exact Or.inl (q0.quiet_trans (q1.quiet_trans ((hr.1 rfl).quiet_trans q)))
      · exact Or.inr g
    · simp only [Bool.not_true, Bool.false_eq_true, if_false] at h2
      injection h2 with h2; subst h2
      rcases hr.2 rfl with q | g
      · exact Or.inl (q0.quiet_trans (q1.quiet_trans q))
      · exact Or.inr g
  · injection h with h; subst h; exact Or.inl q0

theorem sum_update_state (E : Env) (m : Events) (c c' : Config)
    (h : run E (.update_state m) c = .ok c') :
    (SuspendInv c → SuspendInv c') ∧
      (¬(c.stateHandler = .state_cycle ∧ m.cycle_complete = true ∧ m.motion_cancel = true) →
        Quiet c c' ∨ Good c') := by
  rw [run_update_state] at h
  have of_sum : ∀ P : Prop, Quiet c c' ∨ Good c' → (SuspendInv c → SuspendInv c') ∧
      (P → Quiet c c' ∨ Good c') := by
    intro P hs
    refine ⟨fun hi => ?_, fun _ => hs⟩
    rcases hs with q | g
    · exact q.suspendInv hi
    · exact g.1
  simp only [update_state] at h
  split at h
  · apply of_sum _
    rcases set_state_good E _ _ _ h with e | g
    · left; rw [e]; exact Quiet.quiet_refl c
    · exact Or.inr g
  · cases hh : c.stateHandler <;> rw [hh] at h
    case state_idle =>
      apply of_sum _
      rcases sum_state_idle E _ _ _ h with e | g
      · left; rw [e]; exact Quiet.quiet_refl c
      · exact Or.inr g
    case state_cycle =>
      obtain ⟨a, b⟩ := sum_state_cycle E _ _ _ h
      exact ⟨a, fun hb => b (fun hcm => hb ⟨rfl, hcm⟩)⟩
    case state_await_hold => exact of_sum _ (Or.inl (sum_state_await_hold E _ _ _ h))
    case state_noop =>
      rw [run_handler] at h
      simp only [call_handler, state_noop] at h
      injection h with h; subst h
      exact of_sum _ (Or.inl (Quiet.quiet_refl c))
    case state_await_motion_cancel => exact of_sum _ (sum_state_await_motion_cancel E _ _ _ h)
    case state_await_resume => exact of_sum _ (sum_state_await_resume E _ _ _ h)
    case state_await_waypoint_retract =>
      exact of_sum _ (Or.inl (sum_state_await_waypoint_retract E _ _ _ h))
    case state_restore => exact of_sum _ (sum_state_restore E _ _ _ h)
    case state_await_resumed => exact of_sum _ (sum_state_await_resumed E _ _ _ h)

/-! ## The dispatcher -/

theorem run_update_state_eq (E : Env) (m : Events) (c : Config) :
    run E (.update_state m) c =
      (if m.safety_door = true ∧ c.state ≠ .STATE_SAFETY_DOOR then
        run E (.set_state .STATE_SAFETY_DOOR) c
      else run E (.handler c.stateHandler m) c) := by
  rw [run_update_state]
  unfold update_state
  by_cases h1 : m.safety_door = true <;> by_cases h2 : c.state = .STATE_SAFETY_DOOR <;>
    simp [h1, h2]

theorem handlerInv_set_state (E : Env) (s : State) (c c' : Config) (hi : HandlerInv c)
    (h : run E (.set_state s) c = .ok c') : HandlerInv c' := by
  rcases set_state_good E _ _ _ h with e | g
  · rw [e]; exact hi
  · exact g.2.1

theorem handlerInv_update_state (E : Env) (m : Events) (c c' : Config) (hi : HandlerInv c)
    (hm : ¬(c.stateHandler = .state_cycle ∧ m.cycle_complete = true ∧ m.motion_cancel = true))
    (h : run E (.update_state m) c = .ok c') : HandlerInv c' := by
  have hsum := (sum_update_state E m c c' h).2 hm
  rcases hsum with q | g
  · rw [run_update_state_eq] at h
    split at h
    · exact handlerInv_set_state E _ _ _ hi h
    · by_cases h1 : c.state = .STATE_IDLE
      · rw [hi.1 h1] at h
        rcases sum_state_idle E _ _ _ h with e | g
        · rw [e]; exact hi
        · exact g.2.1
      · by_cases h2 : c.state.inert = true
        · rw [hi.2 h2, run_handler] at h
          simp only [call_handler, state_noop] at h
          injection h with h; subst h; exact hi
        · refine ⟨fun h' => ?_, fun h' => ?_⟩
          · rw [q.1] at h'; exact absurd h' h1
          · rw [q.1] at h'; exact absurd h' h2
  · exact g.2.1

theorem suspendInv_set_state (E : Env) (s : State) (c c' : Config) (hi : SuspendInv c)
    (h : run E (.set_state s) c = .ok c') : SuspendInv c' := by
  rcases set_state_good E _ _ _ h with e | g
  · rw [e]; exact hi
  · exact g.1

/-! ## The nesting budget is never used up -/

theorem no_depth_bind {α β : Type} (x : Except Stop α) (f : α → Except Stop β)
    (hx : x ≠ .error .depth) (hf : ∀ a, f a ≠ .error .depth) :
    (x >>= f) ≠ .error .depth := by
  cases x with
  | error e =>
    intro h
    have h' : (Except.error e : Except Stop β) = .error .depth := h
    injection h' with h'
    exact hx (by rw [h'])
  | ok a => exact hf a

theorem no_depth_map {α β : Type} (x : Except Stop α) (f : α → β)
    (hx : x ≠ .error .depth) : x.map f ≠ .error .depth := by
  cases x with
  | error e => intro h; injection h with h; exact hx (by rw [h])
  | ok a => intro h; cases h

theorem no_depth_wait_at_speed (E : Env) (n : Nat) (c : Config) :
    wait_at_speed E n c ≠ .error .depth := by
  induction n generalizing c with
  | zero => unfold wait_at_speed; split <;> simp
  | succ n ih =>
    unfold wait_at_speed
    split
    · simp
    · exact ih _

theorem no_depth_state_restore_conditions (E : Env) (cond : planner_cond_t) (rpm : ℚ)
    (c : Config) : state_restore_conditions E cond rpm c ≠ .error .depth := by
  unfold state_restore_conditions
  split
  · simp
  · refine no_depth_bind _ _ ?_ (fun a => by split <;> simp)
    split
    · split
      · simp
      · simp only
        split
        · split
          · exact no_depth_wait_at_speed E _ _
          · simp
        · simp
    · simp

theorem no_depth_spindle_sync_wait (E : Env) (c : Config) :
    spindle_sync_wait E c ≠ .error .depth := by
  unfold spindle_sync_wait
  cases hr : E.has_spindle_reset_data
  · simp only [Bool.false_eq_true, if_false]
    split <;> simp
  · simp only [if_true]
    split <;> simp

theorem no_depth_set_state (E : Env) (s : State) (c : Config) :
    run E (.set_state s) c ≠ .error .depth := by
  rw [run_set_state]
  unfold set_state
  split
  · simp
  · cases s <;> simp only
    case STATE_CYCLE =>
      split
      · split
        · refine no_depth_bind _ _ ?_ (fun a => by simp)
          split
          · exact no_depth_spindle_sync_wait E _
          · simp
        · simp
      · simp
    case STATE_HOLD => split <;> simp
    case STATE_SAFETY_DOOR =>
      split
      · simp
      · obtain ⟨c', e, -⟩ := set_state_case_sleep_spec E .STATE_SAFETY_DOOR
          (c.emit (.report_feedback_message .Message_SafetyDoorAjar)) (by decide)
        rw [e]; simp
    case STATE_SLEEP =>
      obtain ⟨c', e, -⟩ := set_state_case_sleep_spec E .STATE_SLEEP c (by decide)
      rw [e]; simp
    all_goals simp

theorem no_depth_resume_tail (E : Env) (c : Config) :
    (run E (.set_state .STATE_IDLE) c >>= fun c => run E (.set_state .STATE_CYCLE) c)
      ≠ .error .depth :=
  no_depth_bind _ _ (no_depth_set_state E _ c) (fun a => no_depth_set_state E _ a)

theorem no_depth_state_await_hold (E : Env) (m : Events) (c : Config) :
    run E (.handler .state_await_hold m) c ≠ .error .depth := by
  rw [run_await_hold]; simp

theorem no_depth_restart_retract (E : Env) (c : Config) :
    restart_retract (run E) c ≠ .error .depth := by
  simp only [restart_retract]
  split
  · simp
  · simp only [Config.with_parking_state_stateHandler,
      Config.with_park_restart_retract_stateHandler, Config.with_stateHandler_stateHandler]
    exact no_depth_state_await_hold E _ _

theorem no_depth_state_await_resumed (E : Env) (m : Events) (c : Config) :
    run E (.handler .state_await_resumed m) c ≠ .error .depth := by
  rw [run_handler]
  simp only [call_handler, state_await_resumed]
  split
  · exact no_depth_restart_retract E c
  · split
    · exact no_depth_resume_tail E _
    · simp

theorem no_depth_state_restore (E : Env) (m : Events) (c : Config) :
    run E (.handler .state_restore m) c ≠ .error .depth := by
  rw [run_handler]
  simp only [call_handler, state_restore]
  split
  · exact no_depth_restart_retract E c
  · split
    · cases hrc : state_restore_conditions E
          ((end_sys_motion c).with_stateHandler .state_await_resumed).restore_condition
          ((end_sys_motion c).with_stateHandler .state_await_resumed).restore_spindle_rpm
          ((end_sys_motion c).with_stateHandler .state_await_resumed) with
      | error e =>
        intro h
        exact no_depth_state_restore_conditions E _ _ _ (hrc.trans h)
      | ok c1 =>
        obtain ⟨sc, l, rfl⟩ := state_restore_conditions_frame _ _ _ _ _ hrc
        simp only [bind, Except.bind, call_mc_parking_motion]
        split
        · simp only [Config.emit_stateHandler, Config.with_park_plan_data_stateHandler,
            Config.emits_stateHandler, Config.with_step_control_stateHandler,
            Config.with_stateHandler_stateHandler]
          exact no_depth_state_await_resumed E _ _
        · simp
    · simp

theorem no_depth_state_await_resume_parking (E : Env) (c : Config) :
    state_await_resume_parking E (run E) c ≠ .error .depth := by
  simp only [state_await_resume_parking, call_mc_parking_motion]
  split
  · simp only [Config.emit_stateHandler, Config.with_park_plan_data_stateHandler,
      Config.with_park_target_stateHandler, Config.with_stateHandler_stateHandler]
    split
    · split
      · exact no_depth_map _ _ (no_depth_state_restore E _ _)
      · simp
    · exact no_depth_map _ _ (no_depth_state_restore E _ _)
  · simp

theorem no_depth_state_await_resume (E : Env) (m : Events) (c : Config) :
    run E (.handler .state_await_resume m) c ≠ .error .depth := by
  rw [run_handler]
  simp only [call_handler, state_await_resume]
  generalize (if (E.PARKING_ENABLE && m.cycle_complete) = true then
      (end_sys_motion c).with_parking_state .Parking_DoorAjar else c) = c0
  split
  · generalize (if (c0.state == State.STATE_HOLD && !c0.spindle_stop_ovr.value) = true
        then c0.with_spindle_stop_ovr { c0.spindle_stop_ovr with restore_cycle := true }
        else c0) = c1
    refine no_depth_bind _ _ ?_ (fun r => ?_)
    · split
      · simp
      · split
        · exact no_depth_state_await_resume_parking E c1
        · exact no_depth_map _ _ (no_depth_state_restore_conditions E _ _ _)
      · split
        · exact no_depth_state_await_resume_parking E c1
        · exact no_depth_map _ _ (no_depth_state_restore_conditions E _ _ _)
      · simp
    · split
      · exact no_depth_resume_tail E _
      · simp
  · simp

/-- The nesting budget of `run` is never used up: a call returns a configuration or hangs
in a busy wait. -/
theorem run_no_depth (E : Env) (call : Call) (c : Config) :
    run E call c ≠ .error .depth := by
  have hh : ∀ (h : Handler) (m : Events) (c : Config),
      run E (.handler h m) c ≠ .error .depth := by
    intro h m c
    cases h
    case state_idle =>
      rw [run_handler]
      simp only [call_handler, state_idle]
      refine no_depth_bind _ _ ?_ (fun a => ?_)
      · split
        · exact no_depth_set_state E _ _
        · simp
      · split
        · exact no_depth_set_state E _ _
        · simp
    case state_cycle =>
      rw [run_handler]
      simp only [call_handler, state_cycle]
      refine no_depth_bind _ _ ?_ (fun a => ?_)
      · split
        · exact no_depth_set_state E _ _
        · simp
      · split
        · exact no_depth_set_state E _ _
        · simp
    case state_await_hold => exact no_depth_state_await_hold E m c
    case state_noop => rw [run_handler]; simp [call_handler, state_noop]
    case state_await_motion_cancel =>
      rw [run_handler]
      simp only [call_handler, state_await_motion_cancel]
      split
      · exact no_depth_set_state E _ _
      · simp
    case state_await_resume => exact no_depth_state_await_resume E m c
    case state_await_waypoint_retract => rw [run_await_waypoint_retract]; simp
    case state_restore => exact no_depth_state_restore E m c
    case state_await_resumed => exact no_depth_state_await_resumed E m c
  cases call
  case set_state s => exact no_depth_set_state E s c
  case handler h m => exact hh h m c
  case update_state m =>
    rw [run_update_state_eq]
    split
    · exact no_depth_set_state E _ _
    · exact hh _ _ _

/-! ## The snapshot -/

@[simp]
theorem initiate_hold_restore_condition (E : Env) (s : State) (c : Config) :
    (initiate_hold E s c).2.restore_condition
      = (hold_snapshot E (hold_park_init E c)).restore_condition := by
  simp only [initiate_hold]; split <;> simp

@[simp]
theorem initiate_hold_restore_spindle_rpm (E : Env) (s : State) (c : Config) :
    (initiate_hold E s c).2.restore_spindle_rpm
      = (hold_snapshot E (hold_park_init E c)).restore_spindle_rpm := by
  simp only [initiate_hold]; split <;> simp

theorem initiate_hold_holding_state (E : Env) (s : State) (c : Config) :
    (initiate_hold E s c).2.holding_state
      = if s = .STATE_HOLD then .Hold_Pending else c.holding_state := by
  simp only [initiate_hold]; split <;> simp

theorem initiate_hold_parking_state (E : Env) (s : State) (c : Config) :
    (initiate_hold E s c).2.parking_state
      = if s = .STATE_HOLD then c.parking_state else .Parking_Retracting := by
  simp only [initiate_hold]; split <;> simp

theorem hold_snapshot_none (E : Env) (c : Config)
    (h : E.plan_get_current_block c.log = none) :
    (hold_snapshot E c).restore_condition.spindle = E.gc_modal_spindle ∧
    (hold_snapshot E c).restore_condition.coolant.mask
      = E.gc_modal_coolant.mask ||| (E.hal_coolant_get_state c.log).mask ∧
    (hold_snapshot E c).restore_spindle_rpm = E.gc_spindle_rpm := by
  simp [hold_snapshot, h]

theorem hold_snapshot_some (E : Env) (c : Config) (b : plan_block_t)
    (h : E.plan_get_current_block c.log = some b) :
    (hold_snapshot E c).restore_condition = b.condition ∧
    (hold_snapshot E c).restore_spindle_rpm = b.spindle_rpm := by
  simp [hold_snapshot, h]

/-! ## The parking data after `park_retract_setup` -/

@[simp]
theorem park_retract_setup_target (E : Env) (c : Config) :
    (park_retract_setup E c).park.target = E.mpos c.log := by
  simp only [park_retract_setup]; split <;> simp

@[simp]
theorem park_retract_setup_retracting (E : Env) (c : Config) :
    (park_retract_setup E c).park.retracting = c.park.retracting := by
  simp only [park_retract_setup]; split <;> simp

@[simp]
theorem park_retract_setup_restart_retract (E : Env) (c : Config) :
    (park_retract_setup E c).park.restart_retract = c.park.restart_retract := by
  simp only [park_retract_setup]; split <;> simp

@[simp]
theorem park_retract_setup_plan_data (E : Env) (c : Config) :
    (park_retract_setup E c).park.plan_data = c.park.plan_data := by
  simp only [park_retract_setup]; split <;> simp

theorem park_retract_setup_restore_target (E : Env) (c : Config)
    (h : c.park.restart_retract = false) :
    (park_retract_setup E c).park.restore_target = E.mpos c.log := by
  simp [park_retract_setup, h]

theorem park_retract_setup_retract_waypoint (E : Env) (c : Config)
    (h : c.park.restart_retract = false) :
    (park_retract_setup E c).park.retract_waypoint
      = min (c.park.retract_waypoint + axis_get (E.mpos c.log) E.PARKING_AXIS)
          E.PARKING_TARGET := by
  simp [park_retract_setup, h]

/-! ## The calls of `state_restore_conditions` -/

theorem wait_at_speed_log (E : Env) (n : Nat) (c : Config) :
    wait_at_speed E n c = .error .hang ∨
      ∃ k, wait_at_speed E n c = .ok (c.emits (List.replicate k (.delay_sec (1 / 10)))) := by
  induction n generalizing c with
  | zero =>
    unfold wait_at_speed
    split
    · exact Or.inr ⟨0, by simp [Config.emits]⟩
    · exact Or.inl rfl
  | succ n ih =>
    unfold wait_at_speed
    split
    · exact Or.inr ⟨0, by simp [Config.emits]⟩
    · rcases ih (c.emit (.delay_sec (1 / 10))) with h | ⟨k, h⟩
      · exact Or.inl h
      · exact Or.inr ⟨k + 1, by rw [h]; simp [Config.emits, Config.emit, List.replicate_succ]⟩

/-- What `state_restore_conditions` does when `park.restart_retract` is not set: either
the at-speed wait never ends, or the call returns having changed `update_spindle_rpm`
in laser mode and made the spindle and coolant calls selected by
`gc_state.modal`, with the arguments `condition` and `rpm`. -/
theorem state_restore_conditions_calls (E : Env) (cond : planner_cond_t) (rpm : ℚ)
    (c : Config) (hr : (E.PARKING_ENABLE && c.park.restart_retract) = false) :
    (∃ waits : List Effect, (∀ e ∈ waits, ∃ d, e = Effect.delay_sec d) ∧
      state_restore_conditions E cond rpm c = .ok
        ((c.with_step_control
            (if E.gc_modal_spindle.on_ = true ∧ E.laser_mode = true then
              { c.step_control with update_spindle_rpm := true } else c.step_control)).emits
          ((if E.gc_modal_spindle.on_ = true ∧ E.laser_mode = false then
              .spindle_set_state cond.spindle rpm :: waits else []) ++
            (if E.gc_modal_coolant.mask ≠ 0 then
              [.coolant_set_state cond.coolant, .delay_sec E.SAFETY_DOOR_COOLANT_DELAY]
            else [])))) ∨
    (state_restore_conditions E cond rpm c = .error .hang ∧
      E.gc_modal_spindle.on_ = true ∧ E.laser_mode = false ∧
      E.cap_spindle_at_speed = true) := by
  unfold state_restore_conditions
  rw [hr]
  simp only [Bool.false_eq_true, if_false]
  cases hon : E.gc_modal_spindle.on_
  · refine Or.inl ⟨[], by simp, ?_⟩
    by_cases hc : E.gc_modal_coolant.mask = 0 <;>
      simp [hc, bind, Except.bind, Config.emits, Config.emit, Config.with_step_control]
  · cases hl : E.laser_mode
    · cases hch : E.spindle_set_state c.log cond.spindle rpm
      · refine Or.inl ⟨[], by simp, ?_⟩
        by_cases hc : E.gc_modal_coolant.mask = 0 <;>
          simp [hc, hch, bind, Except.bind, Config.emits, Config.emit, Config.with_step_control]
      · cases hcap : E.cap_spindle_at_speed
        · refine Or.inl ⟨[.delay_sec E.SAFETY_DOOR_SPINDLE_DELAY], by simp, ?_⟩
          by_cases hc : E.gc_modal_coolant.mask = 0 <;>
            simp [hc, hch, bind, Except.bind, Config.emits, Config.emit,
              Config.with_step_control]
        · rcases wait_at_speed_log E E.poll_budget
              (c.emit (.spindle_set_state cond.spindle rpm)) with h | ⟨k, h⟩
          · refine Or.inr ⟨?_, rfl, rfl, rfl⟩
            simp [hch, h, bind, Except.bind]
          · refine Or.inl ⟨List.replicate k (.delay_sec (1 / 10)), ?_, ?_⟩
            · intro e he; exact ⟨_, List.eq_of_mem_replicate he⟩
            · simp only [hch, h, if_true, Bool.false_eq_true, if_false, bind, Except.bind]
              by_cases hc : E.gc_modal_coolant.mask = 0 <;>
                simp [hc, Config.emits, Config.emit, Config.with_step_control]
    · refine Or.inl ⟨[], by simp, ?_⟩
      by_cases hc : E.gc_modal_coolant.mask = 0 <;>
        simp [hc, bind, Except.bind, Config.emits, Config.emit, Config.with_step_control]

/-! ## Steps of a hold and its resume -/

theorem run_set_state_cycle (E : Env) (c : Config) (b : plan_block_t)
    (hs : c.state = .STATE_IDLE) (hb : E.plan_get_current_block c.log = some b)
    (hsync : b.condition.spindle.synchronized = false) :
    run E (.set_state .STATE_CYCLE) c
      = .ok (((((c.with_state .STATE_CYCLE).with_steppers_deenergize false).emit
          .st_prep_buffer).emit .st_wake_up).with_stateHandler .state_cycle) := by
  rw [run_set_state]
  simp [set_state, hs, hb, hsync, bind, Except.bind]

/-- The tail `set_state(STATE_IDLE); set_state(STATE_CYCLE);` of a resume when a planner
block without spindle synchronization is queued. -/
theorem resume_tail_ok (E : Env) (c : Config) (b : plan_block_t)
    (hs : c.state ≠ .STATE_IDLE) (hb : E.plan_get_current_block c.log = some b)
    (hsync : b.condition.spindle.synchronized = false) :
    (run E (.set_state .STATE_IDLE) c >>= fun c => run E (.set_state .STATE_CYCLE) c)
      = .ok (((((((((((c.with_suspend false).with_step_control {}).with_parking_state
          .Parking_DoorClosed).with_holding_state .Hold_NotHolding).with_state
          .STATE_IDLE).with_stateHandler .state_idle).with_state
          .STATE_CYCLE).with_steppers_deenergize false).emit .st_prep_buffer).emit
          .st_wake_up).with_stateHandler .state_cycle) := by
  rw [run_set_state_idle E c hs]
  simp only [bind, Except.bind]
  rw [run_set_state_cycle E _ b rfl (by simpa using hb) hsync]

theorem feed_hold_step (E : Env) (c : Config)
    (hs : c.state = .STATE_CYCLE) (hh : c.stateHandler = .state_cycle)
    (hf : c.override_ctrl.feed_hold_disable = false) :
    ∃ c1, run E (.update_state EXEC_FEED_HOLD) c = .ok c1 ∧
      c1.state = .STATE_HOLD ∧ c1.stateHandler = .state_await_hold ∧
      c1.step_control.execute_hold = true ∧ c1.holding_state = .Hold_Pending ∧
      c1.suspend = true := by
  rw [run_update_state_eq, if_neg (by simp [EXEC_FEED_HOLD]), hh, run_handler]
  simp only [call_handler, state_cycle, EXEC_FEED_HOLD, Bool.false_eq_true, if_false, if_true,
    bind, Except.bind, run_set_state, set_state, hs, hf]
  simp [State.among, initiate_hold_holding_state, hs, hold_decelerate]

theorem hold_complete_step (E : Env) (c : Config)
    (hs : c.state = .STATE_HOLD) (hh : c.stateHandler = .state_await_hold) :
    ∃ c2, run E (.update_state EXEC_CYCLE_COMPLETE) c = .ok c2 ∧
      c2.state = .STATE_HOLD ∧ c2.stateHandler = .state_await_resume ∧
      c2.step_control = {} ∧ c2.holding_state = .Hold_Complete ∧
      c2.suspend = c.suspend := by
  rw [run_update_state_eq, if_neg (by simp [EXEC_CYCLE_COMPLETE]), hh, run_handler]
  simp [call_handler, state_await_hold, EXEC_CYCLE_COMPLETE, hs, bind, Except.bind]

theorem hold_resume_step (E : Env) (c : Config)
    (hs : c.state = .STATE_HOLD) (hh : c.stateHandler = .state_await_resume)
    (hb : ∀ l, ∃ b, E.plan_get_current_block l = some b ∧
      b.condition.spindle.synchronized = false) :
    ∃ c3, run E (.update_state EXEC_CYCLE_START) c = .ok c3 ∧
      c3.state = .STATE_CYCLE ∧ c3.stateHandler = .state_cycle ∧
      c3.suspend = false ∧ c3.holding_state = .Hold_NotHolding ∧ c3.step_control = {} := by
  rw [run_update_state_eq, if_neg (by simp [EXEC_CYCLE_START]), hh, run_handler]
  simp only [call_handler, state_await_resume, EXEC_CYCLE_START, Bool.false_eq_true,
    Bool.and_false, if_false, hs]
  simp only [beq_iff_eq, reduceCtorEq, Bool.false_and, Bool.not_false, Bool.and_true,
    if_true, Bool.true_and, bind, Except.bind]
  generalize hc1 : (if (State.STATE_HOLD == State.STATE_HOLD && !c.spindle_stop_ovr.value) = true
    then c.with_spindle_stop_ovr { c.spindle_stop_ovr with restore_cycle := true } else c) = c1
  have hs1 : c1.state = .STATE_HOLD := by
    rw [← hc1]; split <;> simp [hs]
  simp only [hs1]
  obtain ⟨b, hb1, hb2⟩ := hb (state_await_resume_hold E c1).log
  have := resume_tail_ok E (state_await_resume_hold E c1) b (by simp [hs1]) hb1 hb2
  simp only [bind, Except.bind] at this
  simp [this]

/-! ## What leaves the snapshot alone -/

theorem SameSnapshot.snap_refl (c : Config) : SameSnapshot c c := ⟨rfl, rfl⟩

theorem SameSnapshot.snap_trans {a b c : Config} (h1 : SameSnapshot a b)
    (h2 : SameSnapshot b c) : SameSnapshot a c :=
  ⟨h2.1.trans h1.1, h2.2.trans h1.2⟩

theorem SameSnapshot.snap_of_kept {c c' : Config} (h : Kept c c') : SameSnapshot c c' :=
  ⟨h.2.2.2.2.1, h.2.2.2.2.2.1⟩

theorem SameSnapshot.snap_of_frame {c c' : Config} (h : Frame c c') : SameSnapshot c c' := by
  obtain ⟨sc, l, rfl⟩ := h
  exact ⟨rfl, rfl⟩

theorem snap_set_state_idle (E : Env) (c c' : Config)
    (h : run E (.set_state .STATE_IDLE) c = .ok c') : SameSnapshot c c' := by
  rw [run_set_state] at h
  simp only [set_state] at h
  split at h <;> (injection h with h; subst h; exact ⟨rfl, rfl⟩)

theorem snap_set_state_cycle (E : Env) (c c' : Config)
    (h : run E (.set_state .STATE_CYCLE) c = .ok c') : SameSnapshot c c' := by
  rw [run_set_state] at h
  simp only [set_state] at h
  split at h
  · injection h with h; subst h; exact ⟨rfl, rfl⟩
  · split at h
    · split at h
      · obtain ⟨c1, h1, h2⟩ := bind_eq_ok _ _ _ h
        injection h2 with h2; subst h2
        split at h1
        · rcases spindle_sync_wait_ok E _ _ h1 with e | e <;> subst e <;> exact ⟨rfl, rfl⟩
        · injection h1 with h1; subst h1; exact ⟨rfl, rfl⟩
      · injection h with h; subst h; exact ⟨rfl, rfl⟩
    · injection h with h; subst h; exact ⟨rfl, rfl⟩

theorem snap_resume_tail (E : Env) (c c' : Config)
    (h : (run E (.set_state .STATE_IDLE) c >>= fun c => run E (.set_state .STATE_CYCLE) c)
      = .ok c') : SameSnapshot c c' := by
  obtain ⟨c1, h1, h2⟩ := bind_eq_ok _ _ _ h
  exact (snap_set_state_idle E _ _ h1).snap_trans (snap_set_state_cycle E _ _ h2)

theorem snap_await_hold (E : Env) (m : Events) (c c' : Config)
    (h : run E (.handler .state_await_hold m) c = .ok c') : SameSnapshot c c' := by
  obtain ⟨c2, h2, k, -⟩ := kept_await_hold E m c
  rw [h2] at h; injection h with h; subst h
  exact SameSnapshot.snap_of_kept k

theorem snap_await_waypoint_retract (E : Env) (m : Events) (c c' : Config)
    (h : run E (.handler .state_await_waypoint_retract m) c = .ok c') :
    SameSnapshot c c' := by
  obtain ⟨c2, h2, k, -⟩ := kept_await_waypoint_retract E m c
  rw [h2] at h; injection h with h; subst h
  exact SameSnapshot.snap_of_kept k

theorem snap_end_sys_motion (c : Config) : SameSnapshot c (end_sys_motion c) :=
  ⟨by simp, by simp⟩

theorem snap_restart_retract (E : Env) (c c' : Config)
    (h : restart_retract (run E) c = .ok c') : SameSnapshot c c' := by
  simp only [restart_retract] at h
  split at h
  · injection h with h; subst h; exact ⟨rfl, rfl⟩
  · have q2 := snap_await_hold E _ _ _ h
    refine SameSnapshot.snap_trans ?_ q2
    exact ⟨by simp, by simp⟩

theorem snap_await_resumed (E : Env) (m : Events) (c c' : Config)
    (h : run E (.handler .state_await_resumed m) c = .ok c') : SameSnapshot c c' := by
  rw [run_handler] at h
  simp only [call_handler, state_await_resumed] at h
  split at h
  · exact snap_restart_retract E _ _ h
  · split at h
    · exact (snap_end_sys_motion c).snap_trans (snap_resume_tail E _ _ h)
    · injection h with h; subst h; exact SameSnapshot.snap_refl c

theorem snap_restore (E : Env) (m : Events) (c c' : Config)
    (h : run E (.handler .state_restore m) c = .ok c') : SameSnapshot c c' := by
  rw [run_handler] at h
  simp only [call_handler, state_restore] at h
  split at h
  · exact snap_restart_retract E _ _ h
  · split at h
    · obtain ⟨c1, h1, h2⟩ := bind_eq_ok _ _ _ h
      have q0 : SameSnapshot c ((end_sys_motion c).with_stateHandler .state_await_resumed) :=
        ⟨by simp, by simp⟩
      have q1 : SameSnapshot c c1 :=
        q0.snap_trans (SameSnapshot.snap_of_frame (state_restore_conditions_frame _ _ _ _ _ h1))
      obtain ⟨sc, l, rfl⟩ := state_restore_conditions_frame _ _ _ _ _ h1
      simp only [call_mc_parking_motion] at h2
      split at h2
      · simp only [Config.emit_stateHandler, Config.with_park_plan_data_stateHandler,
          Config.emits_stateHandler, Config.with_step_control_stateHandler,
          Config.with_stateHandler_stateHandler] at h2
        have q2 := snap_await_resumed E _ _ _ h2
        refine q1.snap_trans (SameSnapshot.snap_trans ?_ q2)
        exact ⟨by simp, by simp⟩
      · injection h2 with h2; subst h2
        refine q1.snap_trans ?_
        exact ⟨by simp, by simp⟩
    · injection h with h; subst h; exact SameSnapshot.snap_refl c

theorem snap_await_resume_parking (E : Env) (c : Config) (r : Bool × Config)
    (h : state_await_resume_parking E (run E) c = .ok r) : SameSnapshot c r.2 := by
  simp only [state_await_resume_parking, call_mc_parking_motion] at h
  split at h
  · simp only [Config.emit_stateHandler, Config.with_park_plan_data_stateHandler,
      Config.with_park_target_stateHandler, Config.with_stateHandler_stateHandler] at h
    split at h
    · split at h
      · obtain ⟨c1, h1, rfl⟩ := map_eq_ok _ _ _ h
        have q2 := snap_restore E _ _ _ h1
        refine SameSnapshot.snap_trans ?_ q2
        exact ⟨by simp, by simp⟩
      · injection h with h; subst h
        exact ⟨by simp, by simp⟩
    · obtain ⟨c1, h1, rfl⟩ := map_eq_ok _ _ _ h
      have q2 := snap_restore E _ _ _ h1
      refine SameSnapshot.snap_trans ?_ q2
      exact ⟨by simp, by simp⟩
  · injection h with h; subst h
    exact ⟨by simp, by simp⟩

theorem snap_await_resume (E : Env) (m : Events) (c c' : Config)
    (h : run E (.handler .state_await_resume m) c = .ok c') : SameSnapshot c c' := by
  rw [run_handler] at h
  simp only [call_handler, state_await_resume] at h
  have q0 : SameSnapshot c (if (E.PARKING_ENABLE && m.cycle_complete) = true then
      (end_sys_motion c).with_parking_state .Parking_DoorAjar else c) := by
    split
    · exact ⟨by simp, by simp⟩
    · exact SameSnapshot.snap_refl c
  generalize (if (E.PARKING_ENABLE && m.cycle_complete) = true then
      (end_sys_motion c).with_parking_state .Parking_DoorAjar else c) = c0 at h q0
  split at h
  · have q1 : SameSnapshot c0
        (if (c0.state == State.STATE_HOLD && !c0.spindle_stop_ovr.value) = true
        then c0.with_spindle_stop_ovr { c0.spindle_stop_ovr with restore_cycle := true }
        else c0) := by
      split
      · exact ⟨rfl, rfl⟩
      · exact SameSnapshot.snap_refl c0
    generalize (if (c0.state == State.STATE_HOLD && !c0.spindle_stop_ovr.value) = true
        then c0.with_spindle_stop_ovr { c0.spindle_stop_ovr with restore_cycle := true }
        else c0) = c1 at h q1
    obtain ⟨r, h1, h2⟩ := bind_eq_ok _ _ _ h
    have hr : SameSnapshot c1 r.2 := by
      split at h1
      · injection h1 with h1; subst h1
        exact SameSnapshot.snap_refl _
      · split at h1
        · exact snap_await_resume_parking E _ _ h1
        · obtain ⟨c2, e2, rfl⟩ := map_eq_ok _ _ _ h1
          exact SameSnapshot.snap_of_frame (state_restore_conditions_frame _ _ _ _ _ e2)
      · split at h1
        · exact snap_await_resume_parking E _ _ h1
        · obtain ⟨c2, e2, rfl⟩ := map_eq_ok _ _ _ h1
          exact SameSnapshot.snap_of_frame (state_restore_conditions_frame _ _ _ _ _ e2)
      · injection h1 with h1; subst h1
        exact ⟨by simp, by simp⟩
    obtain ⟨b, c2⟩ := r
    cases b
    · simp only [Bool.not_false, if_true] at h2
      exact q0.snap_trans (q1.snap_trans (hr.snap_trans (snap_resume_tail E _ _ h2)))
    · simp only [Bool.not_true, Bool.false_eq_true, if_false] at h2
      injection h2 with h2; subst h2
      exact q0.snap_trans (q1.snap_trans hr)
  · injection h with h; subst h; exact q0

/-! ## Parking motions in the log -/

@[simp]
theorem parking_motions_append (l l' : List Effect) :
    parking_motions (l ++ l') = parking_motions l ++ parking_motions l' := by
  simp [parking_motions, List.filterMap_append]

@[simp]
theorem parking_motions_nil : parking_motions [] = [] := rfl

@[simp]
theorem parking_motions_cons (e : Effect) (l : List Effect) :
    parking_motions (e :: l)
      = (match e.parking_motion with
          | some x => [x]
          | none => []) ++ parking_motions l := by
  unfold parking_motions
  rw [List.filterMap_cons]
  cases e.parking_motion <;> rfl

theorem axis_get_set (l : List ℚ) (i : Nat) (v : ℚ) (h : i < l.length) :
    axis_get (l.set i v) i = v := by
  simp [axis_get, List.getD_eq_getElem?_getD, List.getElem?_set, h]

theorem wait_at_speed_at_speed (E : Env) (n : Nat) (c : Config)
    (h : ∀ l, E.spindle_at_speed l = true) : wait_at_speed E n c = .ok c := by
  cases n <;> simp [wait_at_speed, h]

/-- When the spindle reports at speed, or the driver has no at-speed signal,
`state_restore_conditions` returns; it changes step-control flags and the log only and
submits no parking motion. -/
theorem state_restore_conditions_ok (E : Env) (cond : planner_cond_t) (rpm : ℚ) (c : Config)
    (hsp : E.cap_spindle_at_speed = false ∨ ∀ l, E.spindle_at_speed l = true) :
    ∃ c', state_restore_conditions E cond rpm c = .ok c' ∧ Frame c c' ∧
      parking_motions c'.log = parking_motions c.log := by
  cases hr : (E.PARKING_ENABLE && c.park.restart_retract)
  · rcases state_restore_conditions_calls E cond rpm c hr with ⟨w, hw, h⟩ | ⟨h, -, -, hcap⟩
    · refine ⟨_, h, ⟨_, _, rfl⟩, ?_⟩
      have hw' : parking_motions w = [] := by
        clear h
        induction w with
        | nil => rfl
        | cons e w ih =>
          obtain ⟨d, rfl⟩ := hw e (List.mem_cons_self _ _)
          rw [parking_motions_cons, ih (fun e he => hw e (List.mem_cons_of_mem _ he))]
          rfl
      simp only [Config.emits_log, Config.with_step_control_log, parking_motions_append]
      split <;> split <;> simp [hw', Effect.parking_motion]
    · rcases hsp with hsp | hsp
      · rw [hsp] at hcap; cases hcap
      · exfalso
        unfold state_restore_conditions at h
        rw [hr] at h
        simp only [Bool.false_eq_true, if_false, wait_at_speed_at_speed E _ _ hsp] at h
        cases h1 : E.gc_modal_spindle.on_ <;> cases h2 : E.laser_mode <;>
          cases h3 : E.spindle_set_state c.log cond.spindle rpm <;>
          cases h4 : E.cap_spindle_at_speed <;>
          by_cases h5 : E.gc_modal_coolant.mask = 0 <;>
          simp [h1, h2, h3, h4, h5, bind, Except.bind] at h
  · refine ⟨c, ?_, Frame.frame_refl c, rfl⟩
    unfold state_restore_conditions
    rw [hr]; rfl

/-! ## The steps of a parking round trip -/

@[simp]
theorem initiate_hold_park (E : Env) (s : State) (c : Config) :
    (initiate_hold E s c).2.park = (hold_park_init E c).park := by
  simp only [initiate_hold]; split <;> simp

theorem initiate_hold_motions (E : Env) (s : State) (c : Config) :
    parking_motions (initiate_hold E s c).2.log = parking_motions c.log := by
  have h : (initiate_hold E s c).2.log
      = (hold_decelerate (hold_laser E (hold_snapshot E (hold_park_init E c)))).log := by
    simp only [initiate_hold]; split <;> simp
  rw [h]
  unfold hold_decelerate hold_laser
  split <;> split <;> simp [Effect.parking_motion]

/-- Step 1 of the round trip: `EXEC_SAFETY_DOOR` in `STATE_CYCLE`. -/
theorem park_step_door (E : Env) (c : Config) (hp : E.PARKING_ENABLE = true)
    (hs : c.state = .STATE_CYCLE) :
    ∃ c1, run E (.update_state EXEC_SAFETY_DOOR) c = .ok c1 ∧
      c1.state = .STATE_SAFETY_DOOR ∧ c1.stateHandler = .state_await_hold ∧
      c1.override_ctrl = c.override_ctrl ∧
      c1.park.restart_retract = c.park.restart_retract ∧
      c1.park.retract_waypoint = E.PARKING_PULLOUT_INCREMENT ∧
      parking_motions c1.log = parking_motions c.log := by
  rw [run_update_state_eq, if_pos ⟨rfl, by simp [hs]⟩, run_set_state]
  refine ⟨((initiate_hold E .STATE_SAFETY_DOOR
    ((c.emit (.report_feedback_message .Message_SafetyDoorAjar)).with_parking_state
      .Parking_Retracting)).2.with_state .STATE_SAFETY_DOOR), ?_, rfl, ?_, ?_, ?_, ?_, ?_⟩
  · simp [set_state, hs, State.among, set_state_case_sleep]
  · simp [hs, State.among, hold_decelerate]
  · simp
  · simp [hold_park_init, hp]
  · simp [hold_park_init, hp]
  · simp [initiate_hold_motions, Effect.parking_motion]

/-- Step 2 of the round trip: `EXEC_CYCLE_COMPLETE` ends the deceleration and submits the
pull-out motion to the retract waypoint, the pull-out increment above the position but
not above `PARKING_TARGET`. -/
theorem park_step_pull_out (E : Env) (c : Config) (p : List ℚ)
    (hp : E.PARKING_ENABLE = true) (hh : E.homing_enable = true) (hl : E.laser_mode = false)
    (hmc : ∀ l t d, E.mc_parking_motion l t d = true) (hpos : ∀ l, E.mpos l = p)
    (g1 : axis_get p E.PARKING_AXIS < E.PARKING_TARGET)
    (g2 : axis_get p E.PARKING_AXIS
      < min (E.PARKING_PULLOUT_INCREMENT + axis_get p E.PARKING_AXIS) E.PARKING_TARGET)
    (hs : c.state = .STATE_SAFETY_DOOR) (hk : c.stateHandler = .state_await_hold)
    (hpd : c.override_ctrl.parking_disable = false)
    (hrr : c.park.restart_retract = false)
    (hwp : c.park.retract_waypoint = E.PARKING_PULLOUT_INCREMENT) :
    ∃ c2, run E (.update_state EXEC_CYCLE_COMPLETE) c = .ok c2 ∧
      c2.state = .STATE_SAFETY_DOOR ∧ c2.stateHandler = .state_await_waypoint_retract ∧
      c2.park.target = p.set E.PARKING_AXIS
        (min (E.PARKING_PULLOUT_INCREMENT + axis_get p E.PARKING_AXIS) E.PARKING_TARGET) ∧
      c2.park.restore_target = p ∧
      c2.park.retract_waypoint
        = min (E.PARKING_PULLOUT_INCREMENT + axis_get p E.PARKING_AXIS) E.PARKING_TARGET ∧
      c2.park.retracting = true ∧ c2.park.restart_retract = false ∧
      parking_motions c2.log = parking_motions c.log ++
        [(p.set E.PARKING_AXIS
            (min (E.PARKING_PULLOUT_INCREMENT + axis_get p E.PARKING_AXIS) E.PARKING_TARGET),
          E.PARKING_PULLOUT_RATE)] := by
  rw [run_update_state_eq, if_neg (by simp [EXEC_CYCLE_COMPLETE]), hk, run_handler]
  simp only [call_handler, state_await_hold, EXEC_CYCLE_COMPLETE, if_true,
    Config.with_step_control_state, Config.emit_state, hs, hp, Bool.not_true,
    Bool.false_eq_true, if_false, state_await_hold_parking]
  generalize hX : park_retract_setup E (((c.emit .plan_cycle_reinit).with_step_control
    {}).with_spindle_stop_ovr {}) = X
  have t1 : X.park.target = p := by rw [← hX]; simp [hpos]
  have t2 : X.park.retract_waypoint
      = min (E.PARKING_PULLOUT_INCREMENT + axis_get p E.PARKING_AXIS) E.PARKING_TARGET := by
    rw [← hX, park_retract_setup_retract_waypoint _ _ (by simpa using hrr)]
    simp only [Config.with_spindle_stop_ovr_park, Config.with_step_control_park,
      Config.emit_park, hwp, hpos]
  have t3 : X.park.restore_target = p := by
    rw [← hX, park_retract_setup_restore_target _ _ (by simpa using hrr)]
    simp [hpos]
  have t4 : X.override_ctrl.parking_disable = false := by rw [← hX]; simpa using hpd
  have t5 : X.park.restart_retract = false := by rw [← hX]; simpa using hrr
  have t6 : X.state = .STATE_SAFETY_DOOR := by rw [← hX]; simpa using hs
  have t7 : parking_motions X.log = parking_motions c.log := by
    rw [← hX]; simp [Effect.parking_motion]
  simp only [park_retract, hh, hl, t1, t4, g1, decide_True, Bool.and_self, Bool.not_false,
    if_true, Config.with_stateHandler_park, t2, g2, call_mc_parking_motion, hmc]
  exact ⟨_, rfl, by simpa using t6, by simp, by simp [t1, t2], by simpa using t3,
    by simpa using t2, by simp, by simpa using t5,
    by simp [t7, t1, t2, Effect.parking_motion]⟩

@[simp]
theorem end_sys_motion_motions (c : Config) :
    parking_motions (end_sys_motion c).log = parking_motions c.log := by
  rcases end_sys_motion_log c with h | h <;> rw [h]
  simp [Effect.parking_motion]

/-- Step 3 of the round trip: `EXEC_CYCLE_COMPLETE` ends the pull-out, de-energizes and
submits the retract to `PARKING_TARGET`. -/
theorem park_step_retract (E : Env) (c : Config)
    (hmc : ∀ l t d, E.mc_parking_motion l t d = true)
    (hk : c.stateHandler = .state_await_waypoint_retract)
    (hs : c.state = .STATE_SAFETY_DOOR)
    (ht : axis_get c.park.target E.PARKING_AXIS < E.PARKING_TARGET) :
    ∃ c3, run E (.update_state EXEC_CYCLE_COMPLETE) c = .ok c3 ∧
      c3.state = .STATE_SAFETY_DOOR ∧ c3.stateHandler = .state_await_resume ∧
      c3.park.target = c.park.target.set E.PARKING_AXIS E.PARKING_TARGET ∧
      c3.park.restore_target = c.park.restore_target ∧
      c3.park.retract_waypoint = c.park.retract_waypoint ∧
      c3.park.retracting = true ∧ c3.park.restart_retract = c.park.restart_retract ∧
      parking_motions c3.log = parking_motions c.log ++
        [(c.park.target.set E.PARKING_AXIS E.PARKING_TARGET, E.PARKING_RATE)] := by
  rw [run_update_state_eq, if_neg (by simp [EXEC_CYCLE_COMPLETE]), hk, run_handler]
  simp only [call_handler, state_await_waypoint_retract, EXEC_CYCLE_COMPLETE, if_true,
    Config.with_stateHandler_park, de_energize_park, Config.with_park_plan_data_park_target,
    end_sys_motion_park, ht, call_mc_parking_motion, hmc]
  exact ⟨_, rfl, by simpa using hs, by simp, by simp, by simp, by simp, by simp, by simp,
    by simp [Effect.parking_motion]⟩

/-- Step 4 of the round trip: `EXEC_CYCLE_COMPLETE` ends the retract; the parking
sub-state becomes `Parking_DoorAjar`. -/
theorem park_step_parked (E : Env) (c : Config) (hp : E.PARKING_ENABLE = true)
    (hk : c.stateHandler = .state_await_resume) :
    ∃ c4, run E (.update_state EXEC_CYCLE_COMPLETE) c = .ok c4 ∧
      c4.state = c.state ∧ c4.stateHandler = .state_await_resume ∧
      c4.parking_state = .Parking_DoorAjar ∧ c4.park = c.park ∧
      parking_motions c4.log = parking_motions c.log := by
  rw [run_update_state_eq, if_neg (by simp [EXEC_CYCLE_COMPLETE]), hk, run_await_resume_cc,
    if_pos hp]
  exact ⟨_, rfl, by simp, by simpa using hk, by simp, by simp, by simp⟩

/-- Step 5 of the round trip: `EXEC_CYCLE_START` with the door closed submits the return
to the retract waypoint. -/
theorem park_step_resume (E : Env) (c : Config) (hp : E.PARKING_ENABLE = true)
    (hmc : ∀ l t d, E.mc_parking_motion l t d = true)
    (hdoor : ∀ l, E.safety_door_ajar l = false)
    (hk : c.stateHandler = .state_await_resume) (hs : c.state = .STATE_SAFETY_DOOR)
    (hr : c.park.retracting = true)
    (ht : axis_get c.park.target E.PARKING_AXIS ≤ E.PARKING_TARGET) :
    ∃ c5, run E (.update_state EXEC_CYCLE_START) c = .ok c5 ∧
      c5.state = .STATE_SAFETY_DOOR ∧ c5.stateHandler = .state_restore ∧
      c5.park.target = c.park.target.set E.PARKING_AXIS c.park.retract_waypoint ∧
      c5.park.restore_target = c.park.restore_target ∧
      c5.park.restart_retract = false ∧
      parking_motions c5.log = parking_motions c.log ++
        [(c.park.target.set E.PARKING_AXIS c.park.retract_waypoint, E.PARKING_RATE)] := by
  rw [run_update_state_eq, if_neg (by simp [EXEC_CYCLE_START]), hk, run_handler]
  have e1 : (State.STATE_SAFETY_DOOR == State.STATE_HOLD) = false := rfl
  have e2 : (State.STATE_SAFETY_DOOR == State.STATE_SAFETY_DOOR) = true := rfl
  simp only [call_handler, state_await_resume, EXEC_CYCLE_START, Bool.and_false,
    Bool.false_eq_true, if_false, hdoor, Bool.not_false, Bool.and_self, if_true, hs, e1, e2,
    Bool.false_and, Bool.and_true, Bool.true_and]
  simp only [hs, hp, if_true, state_await_resume_parking,
    Config.with_parking_state_park, Config.with_park_restart_retract_park_retracting, hr,
    Config.with_stateHandler_park, Config.with_park_restart_retract_park_target, ht,
    call_mc_parking_motion, hmc, bind, Except.bind, Bool.not_true, Bool.false_eq_true,
    if_false]
  exact ⟨_, rfl, by simpa using hs, by simp, by simp, by simp, by simp,
    by simp [Effect.parking_motion]⟩

/-- Step 6 of the round trip: `EXEC_CYCLE_COMPLETE` ends the return to the waypoint,
restores spindle and coolant and submits the plunge to the restore location. -/
theorem park_step_restore (E : Env) (c : Config)
    (hmc : ∀ l t d, E.mc_parking_motion l t d = true)
    (hsp : E.cap_spindle_at_speed = false ∨ ∀ l, E.spindle_at_speed l = true)
    (hk : c.stateHandler = .state_restore) (hs : c.state = .STATE_SAFETY_DOOR) :
    ∃ c6, run E (.update_state EXEC_CYCLE_COMPLETE) c = .ok c6 ∧
      c6.state = .STATE_SAFETY_DOOR ∧ c6.stateHandler = .state_await_resumed ∧
      parking_motions c6.log = parking_motions c.log ++
        [(c.park.restore_target, E.PARKING_PULLOUT_RATE)] := by
  rw [run_update_state_eq, if_neg (by simp [EXEC_CYCLE_COMPLETE]), hk, run_handler]
  simp only [call_handler, state_restore, EXEC_CYCLE_COMPLETE, Bool.false_eq_true, if_false,
    if_true]
  generalize hc2 : (end_sys_motion c).with_stateHandler .state_await_resumed = c2
  have a1 : c2.state = .STATE_SAFETY_DOOR := by rw [← hc2]; simpa using hs
  have a2 : c2.stateHandler = .state_await_resumed := by rw [← hc2]; rfl
  have a3 : c2.park = c.park := by rw [← hc2]; simp
  have a4 : parking_motions c2.log = parking_motions c.log := by rw [← hc2]; simp
  obtain ⟨c3, h3, ⟨sc, l, rfl⟩, hm3⟩ :=
    state_restore_conditions_ok E c2.restore_condition c2.restore_spindle_rpm c2 hsp
  rw [h3]
  simp only [bind, Except.bind, call_mc_parking_motion, hmc, Bool.not_true,
    Bool.false_eq_true, if_false]
  refine ⟨_, rfl, by simpa using a1, by simpa using a2, ?_⟩
  simp only [Config.emit_log, Config.with_park_plan_data_log, parking_motions_append, hm3, a4,
    Config.with_park_plan_data_park_restore_target, Config.emits_park,
    Config.with_step_control_park, a3]
  simp [Effect.parking_motion]

/-- Step 7 of the round trip: `EXEC_CYCLE_COMPLETE` ends the plunge and restarts the
cycle. -/
theorem park_step_resumed (E : Env) (c : Config)
    (hb : ∀ l, ∃ b, E.plan_get_current_block l = some b ∧
      b.condition.spindle.synchronized = false)
    (hk : c.stateHandler = .state_await_resumed) (hs : c.state = .STATE_SAFETY_DOOR) :
    ∃ c7, run E (.update_state EXEC_CYCLE_COMPLETE) c = .ok c7 ∧
      c7.state = .STATE_CYCLE ∧ c7.stateHandler = .state_cycle ∧ c7.suspend = false ∧
      c7.step_control = {} ∧
      parking_motions c7.log = parking_motions c.log := by
  rw [run_update_state_eq, if_neg (by simp [EXEC_CYCLE_COMPLETE]), hk, run_handler]
  simp only [call_handler, state_await_resumed, EXEC_CYCLE_COMPLETE, Bool.false_eq_true,
    if_false, if_true]
  obtain ⟨b, hb1, hb2⟩ := hb (end_sys_motion c).log
  rw [resume_tail_ok E (end_sys_motion c) b (by simp [hs]) hb1 hb2]
  exact ⟨_, rfl, rfl, rfl, rfl, rfl, by simp [Effect.parking_motion]⟩

/-- Step 3 of the round trip when the pull-out already reached `PARKING_TARGET`:
`EXEC_CYCLE_COMPLETE` de-energizes, submits no motion and goes on to
`Parking_DoorAjar`. -/
theorem park_step_no_retract (E : Env) (c : Config) (hp : E.PARKING_ENABLE = true)
    (hk : c.stateHandler = .state_await_waypoint_retract)
    (hs : c.state = .STATE_SAFETY_DOOR)
    (ht : ¬ axis_get c.park.target E.PARKING_AXIS < E.PARKING_TARGET) :
    ∃ c3, run E (.update_state EXEC_CYCLE_COMPLETE) c = .ok c3 ∧
      c3.state = .STATE_SAFETY_DOOR ∧ c3.stateHandler = .state_await_resume ∧
      c3.parking_state = .Parking_DoorAjar ∧
      c3.park.target = c.park.target ∧
      c3.park.restore_target = c.park.restore_target ∧
      c3.park.retract_waypoint = c.park.retract_waypoint ∧
      c3.park.retracting = c.park.retracting ∧
      parking_motions c3.log = parking_motions c.log := by
  rw [run_update_state_eq, if_neg (by simp [EXEC_CYCLE_COMPLETE]), hk, run_handler]
  have hcc : EXEC_CYCLE_COMPLETE.cycle_complete = true := rfl
  simp only [call_handler, state_await_waypoint_retract, hcc, if_true,
    Config.with_stateHandler_park, de_energize_park, Config.with_park_plan_data_park_target,
    end_sys_motion_park, ht, if_false, Config.with_stateHandler_stateHandler,
    run_await_resume_cc]
  rw [if_pos hp]
  exact ⟨_, rfl, by simpa using hs, by simp, by simp, by simp, by simp, by simp, by simp,
    by simp [Effect.parking_motion]⟩

/-! ## No hold is in progress in `STATE_IDLE` and `STATE_CYCLE` -/

theorem NotHoldingInv.of_quiet {c c' : Config} (q : Quiet c c')
    (h1 : c.state ≠ .STATE_IDLE) (h2 : c.state ≠ .STATE_CYCLE) : NotHoldingInv c' := by
  intro h
  rw [q.1] at h
  rcases h with h | h
  · exact absurd h h1
  · exact absurd h h2

theorem set_state_cycle_holding (E : Env) (c c' : Config)
    (h : run E (.set_state .STATE_CYCLE) c = .ok c') :
    c'.holding_state = c.holding_state := by
  rw [run_set_state] at h
  simp only [set_state] at h
  split at h
  · injection h with h; subst h; rfl
  · split at h
    · split at h
      · obtain ⟨c1, h1, h2⟩ := bind_eq_ok _ _ _ h
        injection h2 with h2; subst h2
        split at h1
        · rcases spindle_sync_wait_ok E _ _ h1 with e | e <;> subst e <;> rfl
        · injection h1 with h1; subst h1; rfl
      · injection h with h; subst h; rfl
    · injection h with h; subst h; rfl

theorem nh_set_state (E : Env) (s : State) (c c' : Config) (hi : NotHoldingInv c)
    (h : run E (.set_state s) c = .ok c') : NotHoldingInv c' := by
  rcases set_state_spec E s c c' h with e | ⟨-, -, hj, -⟩ | ⟨-, hs, -, hI, hC, -⟩
  · rw [e]; exact hi
  · intro hc; rw [hj] at hc; rcases hc with hc | hc <;> cases hc
  · intro hc
    rw [hs] at hc
    rcases hc with hc | hc
    · obtain ⟨a, -, -, -, b⟩ := hI hc
      exact ⟨b, by simp [a]⟩
    · obtain ⟨a, b, -⟩ := hC hc
      subst hc
      refine ⟨?_, by simp [b]⟩
      rw [set_state_cycle_holding E c c' h]
      exact (hi (Or.inl a)).1

theorem nh_resume_tail (E : Env) (c c' : Config) (hs : c.state ≠ .STATE_IDLE)
    (h : (run E (.set_state .STATE_IDLE) c >>= fun c => run E (.set_state .STATE_CYCLE) c)
      = .ok c') : NotHoldingInv c' := by
  rw [run_set_state_idle E c hs] at h
  simp only [bind, Except.bind] at h
  refine nh_set_state E .STATE_CYCLE _ c' ?_ h
  intro _
  exact ⟨rfl, by simp⟩

theorem nh_state_idle (E : Env) (m : Events) (c c' : Config) (hi : NotHoldingInv c)
    (h : run E (.handler .state_idle m) c = .ok c') : NotHoldingInv c' := by
  rw [run_handler] at h
  simp only [call_handler, state_idle] at h
  obtain ⟨c1, h1, h2⟩ := bind_eq_ok _ _ _ h
  have s1 : NotHoldingInv c1 := by
    split at h1
    · exact nh_set_state E _ _ _ hi h1
    · injection h1 with h1; subst h1; exact hi
  split at h2
  · exact nh_set_state E _ _ _ s1 h2
  · injection h2 with h2; subst h2; exact s1

theorem nh_motion_cancel (c : Config) (hi : NotHoldingInv c) :
    NotHoldingInv (motion_cancel c) := by
  intro h
  simp only [motion_cancel_state] at h
  exact ⟨by simpa using (hi h).1, by simp⟩

theorem nh_state_cycle (E : Env) (m : Events) (c c' : Config) (hi : NotHoldingInv c)
    (h : run E (.handler .state_cycle m) c = .ok c') : NotHoldingInv c' := by
  rw [run_handler] at h
  simp only [call_handler, state_cycle] at h
  obtain ⟨c1, h1, h2⟩ := bind_eq_ok _ _ _ h
  have s1 : NotHoldingInv c1 := by
    split at h1
    · exact nh_set_state E _ _ _ hi h1
    · injection h1 with h1; subst h1; exact hi
  have s2 : NotHoldingInv (if m.motion_cancel = true then motion_cancel c1 else c1) := by
    split
    · exact nh_motion_cancel c1 s1
    · exact s1
  split at h2
  · exact nh_set_state E _ _ _ s2 h2
  · injection h2 with h2; subst h2; exact s2

theorem nh_state_await_motion_cancel (E : Env) (m : Events) (c c' : Config)
    (hi : NotHoldingInv c)
    (h : run E (.handler .state_await_motion_cancel m) c = .ok c') : NotHoldingInv c' := by
  rw [run_handler] at h
  simp only [call_handler, state_await_motion_cancel] at h
  split at h
  · refine nh_set_state E _ _ _ ?_ h
    split
    · exact hi
    · exact hi
  · injection h with h; subst h; exact hi

theorem nh_state_await_resumed (E : Env) (m : Events) (c c' : Config)
    (hs : c.state ≠ .STATE_IDLE)
    (h : run E (.handler .state_await_resumed m) c = .ok c') :
    Quiet c c' ∨ NotHoldingInv c' := by
  rw [run_handler] at h
  simp only [call_handler, state_await_resumed] at h
  split at h
  · exact Or.inl (quiet_restart_retract E _ _ h)
  · split at h
    · exact Or.inr (nh_resume_tail E _ _ (by simpa using hs) h)
    · injection h with h; subst h; exact Or.inl (Quiet.quiet_refl c)

theorem nh_state_restore (E : Env) (m : Events) (c c' : Config)
    (hs : c.state ≠ .STATE_IDLE)
    (h : run E (.handler .state_restore m) c = .ok c') :
    Quiet c c' ∨ NotHoldingInv c' := by
  rw [run_handler] at h
  simp only [call_handler, state_restore] at h
  split at h
  · exact Or.inl (quiet_restart_retract E _ _ h)
  · split at h
    · obtain ⟨c1, h1, h2⟩ := bind_eq_ok _ _ _ h
      have q0 : Quiet c ((end_sys_motion c).with_stateHandler .state_await_resumed) :=
        ⟨by simp, Or.inl (by simp)⟩
      have q1 : Quiet c c1 :=
        q0.quiet_trans (Quiet.of_frame (state_restore_conditions_frame _ _ _ _ _ h1))
      obtain ⟨sc, l, rfl⟩ := state_restore_conditions_frame _ _ _ _ _ h1
      simp only [call_mc_parking_motion] at h2
      split at h2
      · simp only [Config.emit_stateHandler, Config.with_park_plan_data_stateHandler,
          Config.emits_stateHandler, Config.with_step_control_stateHandler,
          Config.with_stateHandler_stateHandler] at h2
        rcases nh_state_await_resumed E _ _ _ (by simpa using hs) h2 with q | g
        · exact Or.inl (q1.quiet_trans (Quiet.quiet_trans ⟨rfl, Or.inl rfl⟩ q))
        · exact Or.inr g
      · injection h2 with h2; subst h2
        exact Or.inl (q1.quiet_trans ⟨rfl, Or.inl rfl⟩)
    · injection h with h; subst h; exact Or.inl (Quiet.quiet_refl c)

theorem nh_state_await_resume_parking (E : Env) (c : Config) (r : Bool × Config)
    (hs : c.state ≠ .STATE_IDLE)
    (h : state_await_resume_parking E (run E) c = .ok r) :
    (r.1 = false → Quiet c r.2) ∧ (r.1 = true → Quiet c r.2 ∨ NotHoldingInv r.2) := by
  simp only [state_await_resume_parking, call_mc_parking_motion] at h
  split at h
  · simp only [Config.emit_stateHandler, Config.with_park_plan_data_stateHandler,
      Config.with_park_target_stateHandler, Config.with_stateHandler_stateHandler] at h
    split at h
    · split at h
      · obtain ⟨c1, h1, rfl⟩ := map_eq_ok _ _ _ h
        refine ⟨(fun hf => by cases hf), fun _ => ?_⟩
        rcases nh_state_restore E _ _ _ (by simpa using hs) h1 with q | g
        · exact Or.inl (Quiet.quiet_trans ⟨rfl, Or.inl rfl⟩ q)
        · exact Or.inr g
      · injection h with h; subst h
        exact ⟨(fun hf => by cases hf), fun _ => Or.inl ⟨rfl, Or.inl rfl⟩⟩
    · obtain ⟨c1, h1, rfl⟩ := map_eq_ok _ _ _ h
      refine ⟨(fun hf => by cases hf), fun _ => ?_⟩
      rcases nh_state_restore E _ _ _ (by simpa using hs) h1 with q | g
      · exact Or.inl (Quiet.quiet_trans ⟨rfl, Or.inl rfl⟩ q)
      · exact Or.inr g
  · injection h with h; subst h
    exact ⟨fun _ => ⟨rfl, Or.inl rfl⟩, fun hf => by cases hf⟩

theorem nh_state_await_resume (E : Env) (m : Events) (c c' : Config)
    (hs : c.state ≠ .STATE_IDLE)
    (h : run E (.handler .state_await_resume m) c = .ok c') :
    Quiet c c' ∨ NotHoldingInv c' := by
  rw [run_handler] at h
  simp only [call_handler, state_await_resume] at h
  have q0 : Quiet c (if (E.PARKING_ENABLE && m.cycle_complete) = true then
      (end_sys_motion c).with_parking_state .Parking_DoorAjar else c) := by
    split
    · exact ⟨by simp, Or.inl (by simp)⟩
    · exact Quiet.quiet_refl c
  generalize (if (E.PARKING_ENABLE && m.cycle_complete) = true then
      (end_sys_motion c).with_parking_state .Parking_DoorAjar else c) = c0 at h q0
  split at h
  · have q1 : Quiet c0 (if (c0.state == State.STATE_HOLD && !c0.spindle_stop_ovr.value) = true
        then c0.with_spindle_stop_ovr { c0.spindle_stop_ovr with restore_cycle := true }
        else c0) := by
      split
      · exact ⟨rfl, Or.inl rfl⟩
      · exact Quiet.quiet_refl c0
    generalize (if (c0.state == State.STATE_HOLD && !c0.spindle_stop_ovr.value) = true
        then c0.with_spindle_stop_ovr { c0.spindle_stop_ovr with restore_cycle := true }
        else c0) = c1 at h q1
    have hs1 : c1.state ≠ .STATE_IDLE := by rw [q1.1, q0.1]; exact hs
    obtain ⟨r, h1, h2⟩ := bind_eq_ok _ _ _ h
    have hr : (r.1 = false → Quiet c1 r.2) ∧
        (r.1 = true → Quiet c1 r.2 ∨ NotHoldingInv r.2) := by
      split at h1
      · injection h1 with h1; subst h1
        exact ⟨fun _ => Quiet.quiet_refl _, fun hf => by cases hf⟩
      · split at h1
        · exact nh_state_await_resume_parking E _ _ hs1 h1
        · obtain ⟨c2, e2, rfl⟩ := map_eq_ok _ _ _ h1
          exact ⟨fun _ => Quiet.of_frame (state_restore_conditions_frame _ _ _ _ _ e2),
            fun hf => by cases hf⟩
      · split at h1
        · exact nh_state_await_resume_parking E _ _ hs1 h1
        · obtain ⟨c2, e2, rfl⟩ := map_eq_ok _ _ _ h1
          exact ⟨fun _ => Quiet.of_frame (state_restore_conditions_frame _ _ _ _ _ e2),
            fun hf => by cases hf⟩
      · injection h1 with h1; subst h1
        exact ⟨fun _ => quiet_state_await_resume_hold E c1, fun hf => by cases hf⟩
    obtain ⟨b, c2⟩ := r
    cases b
    · simp only [Bool.not_false, if_true] at h2
      have hs2 : c2.state ≠ .STATE_IDLE := by rw [(hr.1 rfl).1]; exact hs1
      exact Or.inr (nh_resume_tail E _ _ hs2 h2)
    · simp only [Bool.not_true, Bool.false_eq_true, if_false] at h2
      injection h2 with h2; subst h2
      rcases hr.2 rfl with q | g
      · exact Or.inl (q0.quiet_trans (q1.quiet_trans q))
      · exact Or.inr g
  · injection h with h; subst h; exact Or.inl q0

theorem nh_update_state (E : Env) (m : Events) (c c' : Config) (hi : NotHoldingInv c)
    (h : run E (.update_state m) c = .ok c') : NotHoldingInv c' := by
  rw [run_update_state_eq] at h
  split at h
  · exact nh_set_state E _ _ _ hi h
  · have hold : ∀ hd : Handler,
        hd ∉ [Handler.state_idle, .state_cycle, .state_await_motion_cancel] →
        c.stateHandler = hd → c.state ≠ .STATE_IDLE ∧ c.state ≠ .STATE_CYCLE := by
      intro hd hn hk
      constructor <;> intro hc
      · exact hn (hk ▸ (hi (Or.inl hc)).2)
      · exact hn (hk ▸ (hi (Or.inr hc)).2)
    cases hk : c.stateHandler <;> rw [hk] at h
    case state_idle => exact nh_state_idle E _ _ _ hi h
    case state_cycle => exact nh_state_cycle E _ _ _ hi h
    case state_await_motion_cancel => exact nh_state_await_motion_cancel E _ _ _ hi h
    case state_noop =>
      rw [run_handler] at h
      simp only [call_handler, state_noop] at h
      injection h with h; subst h
      exact hi
    case state_await_hold =>
      obtain ⟨a, b⟩ := hold _ (by decide) hk
      exact NotHoldingInv.of_quiet (sum_state_await_hold E _ _ _ h) a b
    case state_await_waypoint_retract =>
      obtain ⟨a, b⟩ := hold _ (by decide) hk
      exact NotHoldingInv.of_quiet (sum_state_await_waypoint_retract E _ _ _ h) a b
    case state_await_resume =>
      obtain ⟨a, b⟩ := hold _ (by decide) hk
      rcases nh_state_await_resume E _ _ _ a h with q | g
      · exact NotHoldingInv.of_quiet q a b
      · exact g
    case state_restore =>
      obtain ⟨a, b⟩ := hold _ (by decide) hk
      rcases nh_state_restore E _ _ _ a h with q | g
      · exact NotHoldingInv.of_quiet q a b
      · exact g
    case state_await_resumed =>
      obtain ⟨a, b⟩ := hold _ (by decide) hk
      rcases nh_state_await_resumed E _ _ _ a h with q | g
      · exact NotHoldingInv.of_quiet q a b
      · exact g

/-- In every configuration reached from the initial one, no hold is in progress in
`STATE_IDLE` and `STATE_CYCLE`. -/
theorem reachable_not_holding (c : Config) (hr : Reachable any_mask {} c) :
    NotHoldingInv c := by
  induction hr with
  | init => intro _; exact ⟨rfl, by simp⟩
  | update_state E m _ _ h ih => exact nh_update_state E m _ _ ih h
  | set_state E s _ h ih => exact nh_set_state E s _ _ ih h

/-! ## What the retract handlers leave alone in the parking data -/

theorem ParkKept.pk_refl (c : Config) : ParkKept c c := ⟨rfl, rfl, rfl⟩

theorem ParkKept.pk_trans {a b c : Config} (h1 : ParkKept a b) (h2 : ParkKept b c) :
    ParkKept a c :=
  ⟨h2.1.trans h1.1, h2.2.1.trans h1.2.1, h2.2.2.trans h1.2.2⟩

theorem ParkKept.of_park {c c' : Config} (h : c'.park = c.park) : ParkKept c c' := by
  unfold ParkKept; rw [h]; exact ⟨rfl, rfl, rfl⟩

theorem pk_await_resume_cc (E : Env) (c c' : Config)
    (h : run E (.handler .state_await_resume EXEC_CYCLE_COMPLETE) c = .ok c') :
    c'.park = c.park := by
  rw [run_await_resume_cc] at h
  injection h with h; subst h
  split <;> simp

theorem pk_await_waypoint_retract (E : Env) (m : Events) (c c' : Config)
    (h : run E (.handler .state_await_waypoint_retract m) c = .ok c') :
    ParkKept c c' ∧ (c.park.retracting = true → c'.park.retracting = true) := by
  rw [run_handler] at h
  simp only [call_handler, state_await_waypoint_retract, call_mc_parking_motion] at h
  split at h
  · split at h
    · split at h
      · injection h with h; subst h
        exact ⟨⟨by simp, by simp, by simp⟩, fun _ => by simp⟩
      · simp only [Config.emit_stateHandler, Config.with_park_target_stateHandler,
          Config.with_park_plan_data_stateHandler,
          Config.with_stateHandler_stateHandler] at h
        have := pk_await_resume_cc E _ _ h
        exact ⟨⟨by rw [this]; simp, by rw [this]; simp, by rw [this]; simp⟩,
          fun hr => by rw [this]; simpa using hr⟩
    · simp only [Config.emit_stateHandler, Config.with_park_target_stateHandler,
        Config.with_park_plan_data_stateHandler,
        Config.with_stateHandler_stateHandler] at h
      have := pk_await_resume_cc E _ _ h
      exact ⟨⟨by rw [this]; simp, by rw [this]; simp, by rw [this]; simp⟩,
        fun hr => by rw [this]; simpa using hr⟩
  · injection h with h; subst h
    exact ⟨ParkKept.pk_refl c, id⟩

theorem pk_park_retract (E : Env) (c : Config) (r : Bool × Config)
    (h : park_retract E (run E) c = .ok r) :
    ParkKept c r.2 ∧
      ((∀ l t d, E.mc_parking_motion l t d = true) → c.park.retracting = true →
        r.2.park.retracting = true) := by
  simp only [park_retract, call_mc_parking_motion] at h
  split at h
  · split at h
    · split at h
      · simp only [Config.emit_stateHandler, Config.with_park_target_stateHandler,
          Config.with_park_plan_data_stateHandler, Config.with_park_retracting_stateHandler,
          Config.with_stateHandler_stateHandler] at h
        obtain ⟨c1, h1, rfl⟩ := map_eq_ok _ _ _ h
        obtain ⟨k, kr⟩ := pk_await_waypoint_retract E _ _ _ h1
        refine ⟨ParkKept.pk_trans ⟨by simp, by simp, by simp⟩ k, fun hmc _hr => ?_⟩
        rename_i hf
        rw [hmc] at hf
        exact absurd hf (by decide)
      · injection h with h; subst h
        refine ⟨⟨by simp, by simp, by simp⟩, fun hmc _ => ?_⟩
        simp [hmc]
    · simp only [Config.with_stateHandler_stateHandler] at h
      obtain ⟨c1, h1, rfl⟩ := map_eq_ok _ _ _ h
      obtain ⟨k, kr⟩ := pk_await_waypoint_retract E _ _ _ h1
      exact ⟨ParkKept.pk_trans ⟨by simp, by simp, by simp⟩ k,
        fun _ hr => kr (by simpa using hr)⟩
  · injection h with h; subst h
    exact ⟨⟨by simp, by simp, by simp⟩, fun _ hr => by simpa using hr⟩

/-- The handler `state_await_hold` keeps `park.restart_retract`; it keeps
`park.restore_target` and `park.retract_waypoint` unless it runs the first-entry block
(parking build, `STATE_SAFETY_DOOR` or `STATE_SLEEP`, `EXEC_CYCLE_COMPLETE`,
`restart_retract` clear); `park.retracting` stays set when every motion is reported as
moving. -/
theorem pk_await_hold (E : Env) (m : Events) (c c' : Config)
    (h : run E (.handler .state_await_hold m) c = .ok c') :
    c'.park.restart_retract = c.park.restart_retract ∧
    (c.park.restart_retract = true → ParkKept c c') ∧
    ((∀ l t d, E.mc_parking_motion l t d = true) → c.park.retracting = true →
      c'.park.retracting = true) := by
  have fin : ∀ (r : Except Stop (Bool × Config)) (P : Config → Prop),
      (∀ x, r = .ok x → P x.2) → (∀ x v w, P x → P ((x.with_holding_state v).with_stateHandler w)) →
      (r >>= fun r => if !r.1 then
          Except.ok ((r.2.with_holding_state .Hold_Complete).with_stateHandler .state_await_resume)
        else .ok r.2) = .ok c' → P c' := by
    intro r P hP hQ hr
    obtain ⟨x, hx, h2⟩ := bind_eq_ok _ _ _ hr
    split at h2
    · injection h2 with h2; subst h2; exact hQ _ _ _ (hP x hx)
    · injection h2 with h2; subst h2; exact hP x hx
  rw [run_handler] at h
  simp only [call_handler, state_await_hold] at h
  split at h
  · refine fin _ (fun c' => c'.park.restart_retract = c.park.restart_retract ∧
      (c.park.restart_retract = true → ParkKept c c') ∧
      ((∀ l t d, E.mc_parking_motion l t d = true) → c.park.retracting = true →
        c'.park.retracting = true)) ?_ ?_ h
    · intro x hx
      have hpark : ∀ c0 : Config, c0.park = c.park →
          state_await_hold_parking E (run E) c0 = .ok x →
          x.2.park.restart_retract = c.park.restart_retract ∧
          (c.park.restart_retract = true → ParkKept c x.2) ∧
          ((∀ l t d, E.mc_parking_motion l t d = true) → c.park.retracting = true →
            x.2.park.retracting = true) := by
        intro c0 h0 hx
        obtain ⟨k, kr⟩ := pk_park_retract E _ _ hx
        refine ⟨?_, fun hrr => ?_, fun hmc hr => ?_⟩
        · rw [k.1]; simp [h0]
        · refine ParkKept.pk_trans ?_ k
          have hrr0 : c0.park.restart_retract = true := by rw [h0]; exact hrr
          have e : park_retract_setup E c0 = c0.with_park_target (E.mpos c0.log) := by
            simp [park_retract_setup, hrr0]
          rw [e]
          exact ⟨by simp [h0], by simp [h0], by simp [h0]⟩
        · exact kr hmc (by simpa [h0] using hr)
      split at hx
      · injection hx with hx; subst hx
        exact ⟨by simp, fun _ => ⟨by simp, by simp, by simp⟩, fun _ hr => by simpa using hr⟩
      · split at hx
        · injection hx with hx; subst hx
          exact ⟨by simp, fun _ => ⟨by simp, by simp, by simp⟩,
            fun _ hr => by simpa using hr⟩
        · exact hpark _ (by simp) hx
      · split at hx
        · injection hx with hx; subst hx
          exact ⟨by simp, fun _ => ⟨by simp, by simp, by simp⟩,
            fun _ hr => by simpa using hr⟩
        · exact hpark _ (by simp) hx
      · injection hx with hx; subst hx
        exact ⟨by simp, fun _ => ⟨by simp, by simp, by simp⟩, fun _ hr => by simpa using hr⟩
    · intro x v w hP
      exact ⟨by simpa using hP.1, fun hrr => by simpa [ParkKept] using hP.2.1 hrr,
        fun hmc hr => by simpa using hP.2.2 hmc hr⟩
  · injection h with h; subst h
    exact ⟨rfl, fun _ => ParkKept.pk_refl c, fun _ hr => hr⟩

/-! ## The log of the retract handlers -/

theorem ext_await_resume_cc (E : Env) (c c' : Config)
    (h : run E (.handler .state_await_resume EXEC_CYCLE_COMPLETE) c = .ok c') :
    ∃ rest, c'.log = c.log ++ rest := by
  rw [run_await_resume_cc] at h
  injection h with h; subst h
  split
  · rcases end_sys_motion_log c with e | e
    · exact ⟨[], by simp [e]⟩
    · exact ⟨_, by simpa using e⟩
  · exact ⟨[], by simp⟩

theorem log_await_waypoint_retract (E : Env) (c c' : Config)
    (h : run E (.handler .state_await_waypoint_retract EXEC_CYCLE_COMPLETE) c = .ok c')
    (hsm : c.step_control.execute_sys_motion = false) :
    ∃ rest, c'.log = c.log ++ .spindle_stop :: rest := by
  have hcc : EXEC_CYCLE_COMPLETE.cycle_complete = true := rfl
  have he : end_sys_motion c = c := by simp [end_sys_motion, hsm]
  rw [run_handler] at h
  simp only [call_handler, state_await_waypoint_retract, call_mc_parking_motion, hcc, if_true,
    he] at h
  split at h
  · split at h
    · injection h with h; subst h
      simp
    · simp only [Config.emit_stateHandler, Config.with_park_target_stateHandler,
        Config.with_park_plan_data_stateHandler,
        Config.with_stateHandler_stateHandler] at h
      obtain ⟨r, hr⟩ := ext_await_resume_cc E _ _ h
      rw [hr]
      simp
  · simp only [Config.with_stateHandler_stateHandler] at h
    obtain ⟨r, hr⟩ := ext_await_resume_cc E _ _ h
    rw [hr]
    simp

theorem ext_await_waypoint_retract (E : Env) (m : Events) (c c' : Config)
    (h : run E (.handler .state_await_waypoint_retract m) c = .ok c') :
    ∃ rest, c'.log = c.log ++ rest := by
  rw [run_handler] at h
  simp only [call_handler, state_await_waypoint_retract, call_mc_parking_motion] at h
  split at h
  · obtain ⟨r0, h0⟩ : ∃ r0, (end_sys_motion c).log = c.log ++ r0 := by
      rcases end_sys_motion_log c with e | e
      · exact ⟨[], by simp [e]⟩
      · exact ⟨_, e⟩
    split at h
    · split at h
      · injection h with h; subst h
        simp [h0]
      · simp only [Config.emit_stateHandler, Config.with_park_target_stateHandler,
          Config.with_park_plan_data_stateHandler,
          Config.with_stateHandler_stateHandler] at h
        obtain ⟨r, hr⟩ := ext_await_resume_cc E _ _ h
        rw [hr]
        simp [h0]
    · simp only [Config.with_stateHandler_stateHandler] at h
      obtain ⟨r, hr⟩ := ext_await_resume_cc E _ _ h
      rw [hr]
      simp [h0]
  · injection h with h; subst h
    exact ⟨[], by simp⟩

theorem ext_park_retract (E : Env) (c : Config) (r : Bool × Config)
    (h : park_retract E (run E) c = .ok r) : ∃ rest, r.2.log = c.log ++ rest := by
  simp only [park_retract, call_mc_parking_motion] at h
  split at h
  · split at h
    · split at h
      · simp only [Config.emit_stateHandler, Config.with_park_target_stateHandler,
          Config.with_park_plan_data_stateHandler, Config.with_park_retracting_stateHandler,
          Config.with_stateHandler_stateHandler] at h
        obtain ⟨c1, h1, rfl⟩ := map_eq_ok _ _ _ h
        obtain ⟨r, hr⟩ := ext_await_waypoint_retract E _ _ _ h1
        rw [hr]
        simp
      · injection h with h; subst h
        simp
    · simp only [Config.with_stateHandler_stateHandler] at h
      obtain ⟨c1, h1, rfl⟩ := map_eq_ok _ _ _ h
      obtain ⟨r, hr⟩ := ext_await_waypoint_retract E _ _ _ h1
      rw [hr]
      simp
  · injection h with h; subst h
    simp

theorem ext_await_hold (E : Env) (m : Events) (c c' : Config)
    (h : run E (.handler .state_await_hold m) c = .ok c') :
    ∃ rest, c'.log = c.log ++ rest := by
  rw [run_handler] at h
  simp only [call_handler, state_await_hold] at h
  split at h
  · obtain ⟨x, hx, h2⟩ := bind_eq_ok _ _ _ h
    have hx' : ∃ rest, x.2.log = c.log ++ rest := by
      split at hx
      · injection hx with hx; subst hx; simp
      · split at hx
        · injection hx with hx; subst hx; simp
        · obtain ⟨r, hr⟩ := ext_park_retract E _ _ hx
          rw [hr]; simp
      · split at hx
        · injection hx with hx; subst hx; simp
        · obtain ⟨r, hr⟩ := ext_park_retract E _ _ hx
          rw [hr]; simp
      · injection hx with hx; subst hx
        simp only [state_await_hold_hold]
        split
        · split <;> simp
        · simp
    split at h2
    · injection h2 with h2; subst h2; simpa using hx'
    · injection h2 with h2; subst h2; exact hx'
  · injection h with h; subst h
    exact ⟨[], by simp⟩

/-- The function `restart_retract()` returns; it sets `park.restart_retract`, emits the
door message first, keeps state and `suspend`, and ends with one of the retract
handlers - `state_await_hold` with `execute_hold` and `execute_sys_motion` raised when a
system motion was in progress. -/
theorem restart_retract_spec (E : Env) (c : Config) :
    ∃ c', restart_retract (run E) c = .ok c' ∧
      c'.park.restart_retract = true ∧
      (∃ rest, c'.log = c.log ++ .report_feedback_message .Message_SafetyDoorAjar :: rest) ∧
      c'.stateHandler ∈ [Handler.state_await_hold, .state_await_waypoint_retract,
        .state_await_resume] ∧
      c'.state = c.state ∧ c'.suspend = c.suspend ∧
      c'.park.restore_target = c.park.restore_target ∧
      c'.park.retract_waypoint = c.park.retract_waypoint ∧
      (c.step_control.execute_sys_motion = true →
        c'.step_control.execute_hold = true ∧ c'.step_control.execute_sys_motion = true ∧
        c'.stateHandler = .state_await_hold ∧ c'.parking_state = .Parking_Retracting) ∧
      ((∀ l t d, E.mc_parking_motion l t d = true) → c.park.retracting = true →
        c'.park.retracting = true) := by
  simp only [restart_retract]
  split
  · exact ⟨_, rfl, by simp, by simp, by simp, by simp, by simp, by simp, by simp,
      fun _ => by simp, fun _ hr => by simpa using hr⟩
  · rename_i hsm
    simp only [Config.with_parking_state_step_control,
      Config.with_park_restart_retract_step_control, Config.with_stateHandler_step_control,
      Config.emit_step_control] at hsm
    simp only [Config.with_parking_state_stateHandler,
      Config.with_park_restart_retract_stateHandler, Config.with_stateHandler_stateHandler]
    obtain ⟨c', h, k, kh⟩ := kept_await_hold E EXEC_CYCLE_COMPLETE
      ((((c.emit (.report_feedback_message .Message_SafetyDoorAjar)).with_stateHandler
        .state_await_hold).with_park_restart_retract true).with_parking_state
        .Parking_Retracting)
    obtain ⟨p1, p2, p3⟩ := pk_await_hold E _ _ _ h
    obtain ⟨r, hr⟩ := ext_await_hold E _ _ _ h
    have pk := p2 (by simp)
    refine ⟨c', h, ?_, ?_, ?_, ?_, ?_, ?_, ?_, fun hs => absurd hs hsm,
      fun hmc hr => p3 hmc (by simpa using hr)⟩
    · rw [p1]; simp
    · rw [hr]; simp
    · rcases kh with kh | kh | kh <;> rw [kh] <;> simp
    · rw [k.1]; simp
    · rw [k.2.1]; simp
    · rw [pk.2.1]; simp
    · rw [pk.2.2]; simp

/-! ## A parking episode keeps the restore location -/

theorem park_set_state_cycle (E : Env) (c c' : Config)
    (h : run E (.set_state .STATE_CYCLE) c = .ok c') :
    c'.park = c.park ∧ (c'.state = c.state ∨ c'.state = .STATE_CYCLE) := by
  rw [run_set_state] at h
  simp only [set_state] at h
  split at h
  · injection h with h; subst h; exact ⟨rfl, Or.inl rfl⟩
  · split at h
    · split at h
      · obtain ⟨c1, h1, h2⟩ := bind_eq_ok _ _ _ h
        injection h2 with h2; subst h2
        split at h1
        · rcases spindle_sync_wait_ok E _ _ h1 with e | e <;> subst e <;>
            exact ⟨rfl, Or.inr rfl⟩
        · injection h1 with h1; subst h1; exact ⟨rfl, Or.inr rfl⟩
      · injection h with h; subst h; exact ⟨rfl, Or.inl rfl⟩
    · injection h with h; subst h; exact ⟨rfl, Or.inl rfl⟩

theorem episode_resume_tail (E : Env) (c0 c c' : Config)
    (h1 : c.state ≠ .STATE_IDLE) (h2 : c.state ≠ .STATE_CYCLE)
    (hp : c.park = c0.park) (hs : c.state = c0.state)
    (h : (run E (.set_state .STATE_IDLE) c >>= fun c => run E (.set_state .STATE_CYCLE) c)
      = .ok c') : EpisodeStep E c0 c' := by
  rw [run_set_state_idle E c h1] at h
  simp only [bind, Except.bind] at h
  obtain ⟨a, b⟩ := park_set_state_cycle E _ _ h
  have hp' : c'.park = c0.park := by rw [a]; simpa using hp
  refine ⟨by rw [hp'], fun _ hr => by rw [hp']; exact hr, fun hc => ?_⟩
  exfalso
  rw [← hs] at hc
  rcases b with b | b
  · rw [b] at hc; exact h1 hc.symm
  · rw [b] at hc; exact h2 hc.symm

theorem episode_of_restart (E : Env) (c : Config) (c' : Config)
    (h : restart_retract (run E) c = .ok c') : EpisodeStep E c c' := by
  obtain ⟨c2, h2, a1, -, a3, -, -, a6, -, -, a9⟩ := restart_retract_spec E c
  rw [h2] at h; injection h with h; subst h
  refine ⟨a6, a9, fun _ => ⟨?_, fun _ => a1⟩⟩
  simp only [List.mem_cons, List.mem_singleton, List.not_mem_nil, or_false] at a3 ⊢
  rcases a3 with a3 | a3 | a3 <;> simp [a3]

theorem episode_await_resumed (E : Env) (m : Events) (c c' : Config)
    (h1 : c.state ≠ .STATE_IDLE) (h2 : c.state ≠ .STATE_CYCLE)
    (hk : c.stateHandler = .state_await_resumed)
    (h : run E (.handler .state_await_resumed m) c = .ok c') : EpisodeStep E c c' := by
  rw [run_handler] at h
  simp only [call_handler, state_await_resumed] at h
  split at h
  · exact episode_of_restart E _ _ h
  · split at h
    · exact episode_resume_tail E c _ _ (by simpa using h1) (by simpa using h2) (by simp)
        (by simp) h
    · injection h with h; subst h
      exact ⟨rfl, fun _ hr => hr, fun _ => ⟨by simp [hk], fun hh => by rw [hk] at hh; cases hh⟩⟩

theorem episode_restore (E : Env) (m : Events) (c c' : Config)
    (h1 : c.state ≠ .STATE_IDLE) (h2 : c.state ≠ .STATE_CYCLE)
    (hk : c.stateHandler = .state_restore)
    (h : run E (.handler .state_restore m) c = .ok c') : EpisodeStep E c c' := by
  rw [run_handler] at h
  simp only [call_handler, state_restore] at h
  split at h
  · exact episode_of_restart E _ _ h
  · split at h
    · obtain ⟨c1, e1, e2⟩ := bind_eq_ok _ _ _ h
      obtain ⟨sc, l, rfl⟩ := state_restore_conditions_frame _ _ _ _ _ e1
      simp only [call_mc_parking_motion] at e2
      split at e2
      · simp only [Config.emit_stateHandler, Config.with_park_plan_data_stateHandler,
          Config.emits_stateHandler, Config.with_step_control_stateHandler,
          Config.with_stateHandler_stateHandler] at e2
        obtain ⟨b1, b2, b3⟩ := episode_await_resumed E _ _ _ (by simpa using h1)
          (by simpa using h2) (by simp) e2
        exact ⟨by rw [b1]; simp, fun hmc hr => b2 hmc (by simpa using hr),
          fun hc => b3 (by rw [hc]; simp)⟩
      · injection e2 with e2; subst e2
        exact ⟨by simp, fun _ hr => by simpa using hr,
          fun _ => ⟨by simp, fun hh => by simp at hh⟩⟩
    · injection h with h; subst h
      exact ⟨rfl, fun _ hr => hr, fun _ => ⟨by simp [hk], fun hh => by rw [hk] at hh; cases hh⟩⟩

theorem episode_await_resume_parking (E : Env) (c : Config) (r : Bool × Config)
    (h1 : c.state ≠ .STATE_IDLE) (h2 : c.state ≠ .STATE_CYCLE)
    (h : state_await_resume_parking E (run E) c = .ok r) :
    (r.1 = true → EpisodeStep E c r.2) ∧
      (r.1 = false → r.2.park.restore_target = c.park.restore_target ∧
        r.2.park.retracting = c.park.retracting ∧ r.2.state = c.state) := by
  simp only [state_await_resume_parking, call_mc_parking_motion] at h
  split at h
  · simp only [Config.emit_stateHandler, Config.with_park_plan_data_stateHandler,
      Config.with_park_target_stateHandler, Config.with_stateHandler_stateHandler] at h
    split at h
    · split at h
      · obtain ⟨c1, e1, rfl⟩ := map_eq_ok _ _ _ h
        refine ⟨fun _ => ?_, fun hf => by cases hf⟩
        obtain ⟨b1, b2, b3⟩ := episode_restore E _ _ _ (by simpa using h1)
          (by simpa using h2) (by simp) e1
        exact ⟨by rw [b1]; simp, fun hmc hr => b2 hmc (by simpa using hr),
          fun hc => b3 (by rw [hc]; simp)⟩
      · injection h with h; subst h
        refine ⟨fun _ => ?_, fun hf => by cases hf⟩
        exact ⟨by simp, fun _ hr => by simpa using hr,
          fun _ => ⟨by simp, fun hh => by simp at hh⟩⟩
    · obtain ⟨c1, e1, rfl⟩ := map_eq_ok _ _ _ h
      refine ⟨fun _ => ?_, fun hf => by cases hf⟩
      obtain ⟨b1, b2, b3⟩ := episode_restore E _ _ _ (by simpa using h1)
        (by simpa using h2) (by simp) e1
      exact ⟨by rw [b1]; simp, fun hmc hr => b2 hmc (by simpa using hr),
        fun hc => b3 (by rw [hc]; simp)⟩
  · injection h with h; subst h
    exact ⟨(fun hf => by cases hf), fun _ => ⟨by simp, by simp, by simp⟩⟩

theorem episode_await_resume (E : Env) (m : Events) (c c' : Config)
    (h1 : c.state ≠ .STATE_IDLE) (h2 : c.state ≠ .STATE_CYCLE)
    (hk : c.stateHandler = .state_await_resume)
    (h : run E (.handler .state_await_resume m) c = .ok c') : EpisodeStep E c c' := by
  rw [run_handler] at h
  simp only [call_handler, state_await_resume] at h
  have q0 : (if (E.PARKING_ENABLE && m.cycle_complete) = true then
      (end_sys_motion c).with_parking_state .Parking_DoorAjar else c).park = c.park ∧
      (if (E.PARKING_ENABLE && m.cycle_complete) = true then
      (end_sys_motion c).with_parking_state .Parking_DoorAjar else c).state = c.state ∧
      (if (E.PARKING_ENABLE && m.cycle_complete) = true then
      (end_sys_motion c).with_parking_state .Parking_DoorAjar else c).stateHandler
        = c.stateHandler := by
    split <;> simp
  generalize (if (E.PARKING_ENABLE && m.cycle_complete) = true then
      (end_sys_motion c).with_parking_state .Parking_DoorAjar else c) = c0 at h q0
  obtain ⟨q01, q02, q03⟩ := q0
  split at h
  · have q1 : (if (c0.state == State.STATE_HOLD && !c0.spindle_stop_ovr.value) = true
        then c0.with_spindle_stop_ovr { c0.spindle_stop_ovr with restore_cycle := true }
        else c0).park = c0.park ∧
        (if (c0.state == State.STATE_HOLD && !c0.spindle_stop_ovr.value) = true
        then c0.with_spindle_stop_ovr { c0.spindle_stop_ovr with restore_cycle := true }
        else c0).state = c0.state ∧
        (if (c0.state == State.STATE_HOLD && !c0.spindle_stop_ovr.value) = true
        then c0.with_spindle_stop_ovr { c0.spindle_stop_ovr with restore_cycle := true }
        else c0).stateHandler = c0.stateHandler := by
      split <;> simp
    generalize (if (c0.state == State.STATE_HOLD && !c0.spindle_stop_ovr.value) = true
        then c0.with_spindle_stop_ovr { c0.spindle_stop_ovr with restore_cycle := true }
        else c0) = c1 at h q1
    obtain ⟨q11, q12, q13⟩ := q1
    have s1 : c1.state = c.state := q12.trans q02
    have p1 : c1.park = c.park := q11.trans q01
    obtain ⟨r, e1, e2⟩ := bind_eq_ok _ _ _ h
    have hr : (r.1 = true → EpisodeStep E c1 r.2) ∧
        (r.1 = false → r.2.park.restore_target = c1.park.restore_target ∧
          r.2.park.retracting = c1.park.retracting ∧ r.2.state = c1.state) := by
      split at e1
      · injection e1 with e1; subst e1
        exact ⟨(fun hf => by cases hf), fun _ => ⟨rfl, rfl, rfl⟩⟩
      · split at e1
        · exact episode_await_resume_parking E _ _ (by rw [s1]; exact h1)
            (by rw [s1]; exact h2) e1
        · obtain ⟨c2, f2, rfl⟩ := map_eq_ok _ _ _ e1
          obtain ⟨sc, l, rfl⟩ := state_restore_conditions_frame _ _ _ _ _ f2
          exact ⟨(fun hf => by cases hf), fun _ => ⟨rfl, rfl, rfl⟩⟩
      · split at e1
        · exact episode_await_resume_parking E _ _ (by rw [s1]; exact h1)
            (by rw [s1]; exact h2) e1
        · obtain ⟨c2, f2, rfl⟩ := map_eq_ok _ _ _ e1
          obtain ⟨sc, l, rfl⟩ := state_restore_conditions_frame _ _ _ _ _ f2
          exact ⟨(fun hf => by cases hf), fun _ => ⟨rfl, rfl, rfl⟩⟩
      · injection e1 with e1; subst e1
        exact ⟨(fun hf => by cases hf), fun _ => ⟨by simp, by simp, by simp⟩⟩
    obtain ⟨b, c2⟩ := r
    cases b
    · simp only [Bool.not_false, if_true] at e2
      obtain ⟨a1, a2, a3⟩ := hr.2 rfl
      have hs2 : c2.state = c.state := a3.trans s1
      obtain ⟨t1, t2, t3⟩ := episode_resume_tail E c2 c2 c' (by rw [hs2]; exact h1)
        (by rw [hs2]; exact h2) rfl rfl e2
      refine ⟨by rw [t1, a1, p1], fun hmc hr' => t2 hmc (by rw [a2, p1]; exact hr'),
        fun hc => t3 (by rw [hc, hs2])⟩
    · simp only [Bool.not_true, Bool.false_eq_true, if_false] at e2
      injection e2 with e2; subst e2
      obtain ⟨a1, a2, a3⟩ := hr.1 rfl
      exact ⟨by rw [a1, p1], fun hmc hr' => a2 hmc (by rw [p1]; exact hr'),
        fun hc => a3 (by rw [hc, s1])⟩
  · injection h with h; subst h
    exact ⟨by rw [q01], fun _ hr => by rw [q01]; exact hr,
      fun _ => ⟨by simp [q03, hk], fun hh => by rw [q03, hk] at hh; cases hh⟩⟩

/-- In `STATE_SAFETY_DOOR` or `STATE_SLEEP` with `RetractInv`, a returning `update_state`
is an `EpisodeStep`. -/
theorem episode_update_state (E : Env) (m : Events) (c c' : Config)
    (hs : c.state = .STATE_SAFETY_DOOR ∨ c.state = .STATE_SLEEP) (hi : RetractInv c)
    (h : run E (.update_state m) c = .ok c') : EpisodeStep E c c' := by
  have h1 : c.state ≠ .STATE_IDLE := by rcases hs with hs | hs <;> simp [hs]
  have h2 : c.state ≠ .STATE_CYCLE := by rcases hs with hs | hs <;> simp [hs]
  rw [run_update_state_eq] at h
  split at h
  next hd =>
    have hsl : c.state = .STATE_SLEEP := by
      rcases hs with hs | hs
      · exact absurd hs hd.2
      · exact hs
    rw [run_set_state] at h
    simp [set_state, hsl, State.among] at h
    subst h
    exact ⟨rfl, fun _ hr => hr, fun _ => hi⟩
  next =>
    obtain ⟨hi1, hi2⟩ := hi
    cases hk : c.stateHandler <;> rw [hk] at h
    case state_idle => simp [hk] at hi1
    case state_cycle => simp [hk] at hi1
    case state_await_motion_cancel => simp [hk] at hi1
    case state_noop => simp [hk] at hi1
    case state_await_hold =>
      obtain ⟨c2, e2, k, kh⟩ := kept_await_hold E m c
      obtain ⟨p1, p2, p3⟩ := pk_await_hold E _ _ _ h
      have pk := p2 (hi2 hk)
      refine ⟨pk.2.1, p3, fun _ => ⟨?_, fun _ => by rw [p1]; exact hi2 hk⟩⟩
      rw [e2] at h; injection h with h; subst h
      rcases kh with kh | kh | kh <;> simp [kh, hk]
    case state_await_waypoint_retract =>
      obtain ⟨c2, e2, k, kh⟩ := kept_await_waypoint_retract E m c
      obtain ⟨pk, p3⟩ := pk_await_waypoint_retract E _ _ _ h
      rw [e2] at h; injection h with h; subst h
      refine ⟨pk.2.1, fun _ => p3, fun _ => ⟨?_, fun hh => ?_⟩⟩
      · rcases kh with kh | kh <;> simp [kh, hk]
      · rcases kh with kh | kh <;> rw [kh] at hh
        · rw [hk] at hh; cases hh
        · cases hh
    case state_await_resume => exact episode_await_resume E _ _ _ h1 h2 hk h
    case state_restore => exact episode_restore E _ _ _ h1 h2 hk h
    case state_await_resumed => exact episode_await_resumed E _ _ _ h1 h2 hk h

/-! ## The first entry of `state_await_hold` in a door or sleep hold -/

/-- The pull-out decision: the first call logged by `park_retract` is the pull-out
motion, to the retract waypoint at `PARKING_PULLOUT_RATE`, exactly when parking is
possible and the parking axis is below the waypoint. -/
theorem park_retract_first (E : Env) (c : Config) (r : Bool × Config)
    (h : park_retract E (run E) c = .ok r)
    (hsm : c.step_control.execute_sys_motion = false) :
    ∃ rest, r.2.log = c.log ++ rest ∧
      ((∃ d tail, rest = .mc_parking_motion
          (c.park.target.set E.PARKING_AXIS c.park.retract_waypoint) d :: tail ∧
          d.feed_rate = E.PARKING_PULLOUT_RATE) ↔
        ((E.homing_enable && decide (axis_get c.park.target E.PARKING_AXIS < E.PARKING_TARGET)
          && !E.laser_mode && !c.override_ctrl.parking_disable) = true ∧
          axis_get c.park.target E.PARKING_AXIS < c.park.retract_waypoint)) := by
  simp only [park_retract, call_mc_parking_motion] at h
  split at h
  · rename_i hg
    split at h
    · rename_i hlt
      simp only [Config.with_stateHandler_park] at hlt
      split at h
      · simp only [Config.emit_stateHandler, Config.with_park_target_stateHandler,
          Config.with_park_plan_data_stateHandler, Config.with_park_retracting_stateHandler,
          Config.with_stateHandler_stateHandler] at h
        obtain ⟨c1, h1, rfl⟩ := map_eq_ok _ _ _ h
        obtain ⟨r1, hr1⟩ := ext_await_waypoint_retract E _ _ _ h1
        simp only [Config.emit_log, Config.with_park_retracting_log, List.append_assoc,
          List.singleton_append] at hr1
        exact ⟨_, hr1, fun _ => ⟨hg, hlt⟩, fun _ => ⟨_, _, rfl, rfl⟩⟩
      · injection h with h; subst h
        have hl : ∀ (x : Config) (e : Effect), (x.emit e).log = x.log ++ e :: [] := fun _ _ => rfl
        exact ⟨_, hl _ _, fun _ => ⟨hg, hlt⟩, fun _ => ⟨_, _, rfl, rfl⟩⟩
    · rename_i hlt
      simp only [Config.with_stateHandler_park] at hlt
      simp only [Config.with_stateHandler_stateHandler] at h
      obtain ⟨c1, h1, rfl⟩ := map_eq_ok _ _ _ h
      obtain ⟨r1, hr1⟩ := log_await_waypoint_retract E _ _ h1 (by simpa using hsm)
      refine ⟨.spindle_stop :: r1, by rw [hr1]; simp, fun hx => ?_, fun hx => absurd hx.2 hlt⟩
      obtain ⟨d, tail, e, -⟩ := hx
      cases e
  · rename_i hg
    injection h with h; subst h
    refine ⟨[.spindle_stop, .hal_coolant_set_state { mask := 0 }], by simp [de_energize],
      fun hx => ?_, fun hx => absurd hx.1 hg⟩
    obtain ⟨d, tail, e, -⟩ := hx
    cases e

theorem await_hold_first_entry (E : Env) (m : Events) (c : Config) (p : List ℚ)
    (hp : E.PARKING_ENABLE = true) (hm : m.cycle_complete = true)
    (hs : c.state = .STATE_SAFETY_DOOR ∨ c.state = .STATE_SLEEP)
    (hrr : c.park.restart_retract = false)
    (hwp : c.park.retract_waypoint = E.PARKING_PULLOUT_INCREMENT)
    (hpos : ∀ l, E.mpos l = p) :
    ∃ c' rest, run E (.handler .state_await_hold m) c = .ok c' ∧
      c'.state = c.state ∧
      c'.park.restore_target = p ∧
      c'.park.retract_waypoint
        = min (axis_get p E.PARKING_AXIS + E.PARKING_PULLOUT_INCREMENT) E.PARKING_TARGET ∧
      c'.log = c.log ++ .plan_cycle_reinit :: rest ∧
      ((∃ d tail, rest = .mc_parking_motion
          (p.set E.PARKING_AXIS
            (min (axis_get p E.PARKING_AXIS + E.PARKING_PULLOUT_INCREMENT) E.PARKING_TARGET))
          d :: tail ∧ d.feed_rate = E.PARKING_PULLOUT_RATE) ↔
        (E.homing_enable = true ∧ axis_get p E.PARKING_AXIS < E.PARKING_TARGET ∧
          E.laser_mode = false ∧ c.override_ctrl.parking_disable = false ∧
          axis_get p E.PARKING_AXIS
            < min (axis_get p E.PARKING_AXIS + E.PARKING_PULLOUT_INCREMENT)
                E.PARKING_TARGET)) := by
  obtain ⟨c', h, k, -⟩ := kept_await_hold E m c
  have h' := h
  rw [run_handler] at h'
  have hst : ((c.emit .plan_cycle_reinit).with_step_control {}).state = .STATE_SAFETY_DOOR ∨
      ((c.emit .plan_cycle_reinit).with_step_control {}).state = .STATE_SLEEP := by
    simpa using hs
  simp only [call_handler, state_await_hold, hm, if_true] at h'
  generalize hX : park_retract_setup E (((c.emit .plan_cycle_reinit).with_step_control
    {}).with_spindle_stop_ovr {}) = X at h'
  have t1 : X.park.target = p := by rw [← hX]; simp [hpos]
  have t2 : X.park.retract_waypoint
      = min (axis_get p E.PARKING_AXIS + E.PARKING_PULLOUT_INCREMENT) E.PARKING_TARGET := by
    rw [← hX, park_retract_setup_retract_waypoint _ _ (by simpa using hrr)]
    simp only [Config.with_spindle_stop_ovr_park, Config.with_step_control_park,
      Config.emit_park, hwp, hpos, add_comm]
  have t3 : X.park.restore_target = p := by
    rw [← hX, park_retract_setup_restore_target _ _ (by simpa using hrr)]
    simp [hpos]
  have t4 : X.override_ctrl = c.override_ctrl := by rw [← hX]; simp
  have t5 : X.log = c.log ++ [.plan_cycle_reinit] := by rw [← hX]; simp
  have t6 : X.step_control.execute_sys_motion = false := by rw [← hX]; simp
  have hx : ∃ x, park_retract E (run E) X = .ok x ∧
      c' = (if !x.1 then
        (x.2.with_holding_state .Hold_Complete).with_stateHandler .state_await_resume
        else x.2) := by
    rcases hs with hs | hs <;>
      simp only [Config.with_step_control_state, Config.emit_state, hs, hp, Bool.not_true,
        Bool.false_eq_true, if_false, state_await_hold_parking, hX] at h'
    all_goals
      obtain ⟨x, e1, e2⟩ := bind_eq_ok _ _ _ h'
      refine ⟨x, e1, ?_⟩
      split at e2 <;> (injection e2 with e2; simp_all)
  obtain ⟨x, e1, e2⟩ := hx
  obtain ⟨pk, -⟩ := pk_park_retract E _ _ e1
  obtain ⟨rest, l1, l2⟩ := park_retract_first E _ _ e1 t6
  have f1 : c'.park = x.2.park := by rw [e2]; split <;> simp
  have f2 : c'.log = x.2.log := by rw [e2]; split <;> simp
  refine ⟨c', rest, h, k.1, ?_, ?_, ?_, ?_⟩
  · rw [f1, pk.2.1, t3]
  · rw [f1, pk.2.2, t2]
  · rw [f2, l1, t5]; simp
  · rw [t1, t2, t4] at l2
    rw [l2]
    simp only [Bool.and_eq_true, decide_eq_true_eq, Bool.not_eq_true']
    tauto

theorem initiate_hold_log_ext (E : Env) (s : State) (c : Config) :
    ∃ pre, (initiate_hold E s c).2.log = c.log ++ pre ∧ parking_motions pre = [] := by
  have h : (initiate_hold E s c).2.log
      = (hold_decelerate (hold_laser E (hold_snapshot E (hold_park_init E c)))).log := by
    simp only [initiate_hold]; split <;> simp
  rw [h]
  unfold hold_decelerate hold_laser
  split <;> split <;> simp [parking_motions, Effect.parking_motion]

/-- The hold of `set_state(STATE_SAFETY_DOOR)` and `set_state(STATE_SLEEP)` outside
`STATE_JOG`, up to the first `EXEC_CYCLE_COMPLETE` handled by `state_await_hold`: from
`STATE_CYCLE` that is the next `update_state` call, in the other states `set_state` itself
simulates it. -/
theorem case_sleep_first_entry (E : Env) (s : State) (c : Config) (p : List ℚ) (m : Events)
    (hp : E.PARKING_ENABLE = true)
    (hs : s = .STATE_SAFETY_DOOR ∨ s = .STATE_SLEEP)
    (hrr : c.park.restart_retract = false)
    (hpos : ∀ l, E.mpos l = p)
    (hj : c.state ≠ .STATE_JOG)
    (hm : m.cycle_complete = true) (hd : m.safety_door = true → s = .STATE_SAFETY_DOOR) :
    ∃ c1, set_state_case_sleep E (run E) s c = .ok c1 ∧ c1.state = s ∧
      ∃ c', (if c.state = .STATE_CYCLE then run E (.update_state m) c1 else .ok c1) = .ok c' ∧
        c'.state = s ∧
        c'.park.restore_target = p ∧
        c'.park.retract_waypoint
          = min (axis_get p E.PARKING_AXIS + E.PARKING_PULLOUT_INCREMENT) E.PARKING_TARGET ∧
        ∃ pre rest, c'.log = c.log ++ pre ++ .plan_cycle_reinit :: rest ∧
          parking_motions pre = [] ∧
          ((∃ d tail, rest = .mc_parking_motion
              (p.set E.PARKING_AXIS
                (min (axis_get p E.PARKING_AXIS + E.PARKING_PULLOUT_INCREMENT)
                  E.PARKING_TARGET))
              d :: tail ∧ d.feed_rate = E.PARKING_PULLOUT_RATE) ↔
            (E.homing_enable = true ∧ axis_get p E.PARKING_AXIS < E.PARKING_TARGET ∧
              E.laser_mode = false ∧ c.override_ctrl.parking_disable = false ∧
              axis_get p E.PARKING_AXIS
                < min (axis_get p E.PARKING_AXIS + E.PARKING_PULLOUT_INCREMENT)
                    E.PARKING_TARGET)) := by
  have hsi : s ≠ .STATE_IDLE := by rcases hs with hs | hs <;> rw [hs] <;> decide
  obtain ⟨pre, l0, l1⟩ := initiate_hold_log_ext E s (c.with_parking_state .Parking_Retracting)
  generalize hI : initiate_hold E s (c.with_parking_state .Parking_Retracting) = I at l0
  have i1 : I.1 = (c.state == .STATE_CYCLE) := by rw [← hI, initiate_hold_fst]; simp
  have i2 : I.2.park.retract_waypoint = E.PARKING_PULLOUT_INCREMENT := by
    rw [← hI]; simp [hold_park_init, hp]
  have i3 : I.2.park.restart_retract = false := by
    rw [← hI]; simp [hold_park_init, hp, hrr]
  have i4 : I.2.override_ctrl = c.override_ctrl := by rw [← hI]; simp
  have i5 : I.2.pending_state = .STATE_IDLE := by rw [← hI]; simp [hj]
  have i6 : c.state = .STATE_CYCLE → I.2.stateHandler = .state_await_hold := by
    intro hc; rw [← hI]; simp [hc]
  have l0' : (I.2.with_state s).log = c.log ++ pre := by simpa using l0
  have hX : (I.2.with_state s).state = .STATE_SAFETY_DOOR ∨
      (I.2.with_state s).state = .STATE_SLEEP := by simpa using hs
  by_cases hc : c.state = .STATE_CYCLE
  · refine ⟨I.2.with_state s, ?_, rfl, ?_⟩
    · simp [set_state_case_sleep, hI, i1, hc]
    · rw [if_pos hc, run_update_state_eq,
        if_neg (fun h => h.2 (by simpa using hd h.1))]
      obtain ⟨c', rest, h, a1, a2, a3, a4, a5⟩ :=
        await_hold_first_entry E m (I.2.with_state s) p hp hm hX (by simpa using i3)
          (by simpa using i2) hpos
      refine ⟨c', ?_, a1, a2, a3, pre, rest, ?_, l1, ?_⟩
      · have e : (I.2.with_state s).stateHandler = .state_await_hold := by simpa using i6 hc
        rw [e]; exact h
      · rw [a4, l0']
      · rw [a5]; simp [i4]
  · obtain ⟨c', rest, h, a1, a2, a3, a4, a5⟩ :=
      await_hold_first_entry E EXEC_CYCLE_COMPLETE (I.2.with_state s) p hp rfl hX
        (by simpa using i3) (by simpa using i2) hpos
    refine ⟨c', ?_, a1, c', ?_, a1, a2, a3, pre, rest, ?_, l1, ?_⟩
    · simp [set_state_case_sleep, hI, i1, hc, i5, Ne.symm hsi, h]
    · rw [if_neg hc]
    · rw [a4, l0']
    · rw [a5]; simp [i4]

/-- A result observed through `f` is the result of a call that returned. -/
theorem ok_of_observed {α : Type} (r : Res) (f : Config → α) (v : α)
    (h : r.toOption.map f = some v) : ∃ c, r = .ok c ∧ f c = v := by
  cases r with
  | error e => cases h
  | ok c => exact ⟨c, rfl, by simpa [Except.toOption] using h⟩

/-! ## Chains of synthesized `EXEC_CYCLE_COMPLETE` -/

theorem chain_await_resume_cc (E : Env) (n k : Nat) (c : Config) :
    chain E n k (.handler .state_await_resume EXEC_CYCLE_COMPLETE) c
      = exec E n (.handler .state_await_resume EXEC_CYCLE_COMPLETE) c := by
  cases n with
  | zero => rfl
  | succ n => simp [chain, exec, call_handler, state_await_resume, EXEC_CYCLE_COMPLETE]

theorem chain_await_waypoint_retract (E : Env) (n k : Nat) (m : Events) (c : Config) :
    chain E n (k + 1) (.handler .state_await_waypoint_retract m) c
      = exec E n (.handler .state_await_waypoint_retract m) c := by
  cases n with
  | zero => rfl
  | succ n =>
    exact state_await_waypoint_retract_congr E _ _ m c
      (fun c => chain_await_resume_cc E n k c)

theorem chain_await_hold (E : Env) (n k : Nat) (m : Events) (c : Config) :
    chain E n (k + 2) (.handler .state_await_hold m) c
      = exec E n (.handler .state_await_hold m) c := by
  cases n with
  | zero => rfl
  | succ n =>
    exact state_await_hold_congr E _ _ m c
      (fun c => chain_await_waypoint_retract E n k _ c)

theorem chain_set_state (E : Env) (n k : Nat) (s : State) (c : Config) :
    chain E n (k + 3) (.set_state s) c = exec E n (.set_state s) c := by
  cases n with
  | zero => rfl
  | succ n =>
    exact set_state_congr E _ _ s c (fun c => chain_await_hold E n k _ c)

theorem chain_set_state_idle (E : Env) (n k : Nat) (c : Config) :
    chain E n k (.set_state .STATE_IDLE) c = exec E n (.set_state .STATE_IDLE) c := by
  cases n with
  | zero => rfl
  | succ n => simp [chain, exec, set_state]

theorem chain_set_state_cycle (E : Env) (n k : Nat) (c : Config) :
    chain E n k (.set_state .STATE_CYCLE) c = exec E n (.set_state .STATE_CYCLE) c := by
  cases n with
  | zero => rfl
  | succ n => simp [chain, exec, set_state]

theorem chain_await_resumed_cc (E : Env) (n k : Nat) (c : Config) :
    chain E n k (.handler .state_await_resumed EXEC_CYCLE_COMPLETE) c
      = exec E n (.handler .state_await_resumed EXEC_CYCLE_COMPLETE) c := by
  cases n with
  | zero => rfl
  | succ n =>
    simp [chain, exec, call_handler, state_await_resumed, EXEC_CYCLE_COMPLETE, synthesized,
      chain_set_state_idle, chain_set_state_cycle]

theorem chain_restore_cc (E : Env) (n k : Nat) (c : Config) :
    chain E n (k + 1) (.handler .state_restore EXEC_CYCLE_COMPLETE) c
      = exec E n (.handler .state_restore EXEC_CYCLE_COMPLETE) c := by
  cases n with
  | zero => rfl
  | succ n =>
    show state_restore E _ EXEC_CYCLE_COMPLETE c = state_restore E _ EXEC_CYCLE_COMPLETE c
    have hsd : EXEC_CYCLE_COMPLETE.safety_door = false := rfl
    have hcc : EXEC_CYCLE_COMPLETE.cycle_complete = true := rfl
    simp only [state_restore, hsd, hcc, Bool.false_eq_true, if_false, if_true]
    cases hrc : state_restore_conditions E
        ((end_sys_motion c).with_stateHandler .state_await_resumed).restore_condition
        ((end_sys_motion c).with_stateHandler .state_await_resumed).restore_spindle_rpm
        ((end_sys_motion c).with_stateHandler .state_await_resumed) with
    | error e => rfl
    | ok c' =>
      obtain ⟨sc, l, rfl⟩ := state_restore_conditions_frame _ _ _ _ _ hrc
      simp [bind, Except.bind, call_mc_parking_motion, synthesized, chain_await_resumed_cc]

theorem chain_handler (E : Env) (n k : Nat) (h : Handler) (m : Events) (c : Config) :
    chain E n (k + 3) (.handler h m) c = exec E n (.handler h m) c := by
  cases n with
  | zero => rfl
  | succ n =>
    have hs : ∀ s c, synthesized (chain E n) (k + 3) (.set_state s) c
        = exec E n (.set_state s) c := fun s c => chain_set_state E n k s c
    show call_handler E _ h m c = call_handler E _ h m c
    cases h <;> simp only [call_handler]
    · exact state_idle_congr _ _ m c hs
    · exact state_cycle_congr _ _ m c hs
    · exact state_await_hold_congr E _ _ m c
        (fun c => chain_await_waypoint_retract E n (k + 1) _ c)
    · exact state_await_motion_cancel_congr _ _ m c hs
    · exact state_await_resume_congr E _ _ m c hs (fun c => chain_restore_cc E n (k + 1) c)
    · exact state_await_waypoint_retract_congr E _ _ m c
        (fun c => chain_await_resume_cc E n (k + 2) c)
    · exact state_restore_congr E _ _ m c (fun c => chain_await_resumed_cc E n (k + 2) c)
        (fun c => chain_await_hold E n k _ c)
    · exact state_await_resumed_congr _ _ m c hs (fun c => chain_await_hold E n k _ c)

theorem chain_update_state (E : Env) (n k : Nat) (m : Events) (c : Config) :
    chain E n (k + 3) (.update_state m) c = exec E n (.update_state m) c := by
  cases n with
  | zero => rfl
  | succ n =>
    exact update_state_congr _ _ m c (fun s c => chain_set_state E n k s c)
      (fun h m c => chain_handler E n k h m c)

/-! ## The keycode buffer -/

theorem and_keybuf_mask (x : Nat) : x &&& (KEYBUF_SIZE - 1) = x % 16 :=
  Nat.and_pow_two_sub_one_eq_mod x 4

theorem keypad_enqueue_spec (c : Nat) (k : Keypad) (hi : KeybufInv k)
    (hn : keybuf_count k < 15) :
    ∃ k', keypad_enqueue_keycode c k = some k' ∧ KeybufInv k' ∧
      k'.keybuf_tail = k.keybuf_tail ∧ keybuf_count k' = keybuf_count k + 1 ∧
      keybuf_contents k' = keybuf_contents k ++ [c % 256] := by
  obtain ⟨h1, h2⟩ := hi
  unfold keybuf_count at hn
  have hb : ((k.keybuf_head + 1) % 2 ^ 32) &&& (KEYBUF_SIZE - 1) = (k.keybuf_head + 1) % 16 := by
    rw [and_keybuf_mask]; omega
  have hne : (k.keybuf_head + 1) % 16 ≠ k.keybuf_tail := by omega
  refine ⟨{ k with
      keybuf_buf := Function.update k.keybuf_buf ⟨k.keybuf_head, h1⟩ (c % 256),
      keybuf_head := (k.keybuf_head + 1) % 16 }, ?_, ?_, rfl, ?_, ?_⟩
  · simp only [keypad_enqueue_keycode, hb, ne_eq, hne, not_false_eq_true, if_true, h1, dif_pos]
  · exact ⟨Nat.mod_lt _ (by decide), h2⟩
  · simp only [keybuf_count]; omega
  · have hc : keybuf_count { k with
        keybuf_buf := Function.update k.keybuf_buf ⟨k.keybuf_head, h1⟩ (c % 256),
        keybuf_head := (k.keybuf_head + 1) % 16 } = keybuf_count k + 1 := by
      simp only [keybuf_count]; omega
    simp only [keybuf_contents, hc, List.range_succ, List.map_append, List.map_cons,
      List.map_nil]
    congr 1
    · apply List.map_congr_left
      intro i hi
      rw [List.mem_range] at hi
      unfold keybuf_count at hi
      rw [Function.update_noteq]
      intro he
      have := congrArg Fin.val he
      simp only at this
      omega
    · have e : (k.keybuf_tail + keybuf_count k) % 16 = k.keybuf_head := by
        unfold keybuf_count; omega
      have e' : (⟨(k.keybuf_tail + keybuf_count k) % 16, Nat.mod_lt _ (by decide)⟩ : Fin 16)
          = ⟨k.keybuf_head, h1⟩ := Fin.ext e
      rw [e', Function.update_same]

theorem keypad_get_spec (k : Keypad) (hi : KeybufInv k) (x : Nat) (xs : List Nat)
    (hc : keybuf_contents k = x :: xs) :
    ∃ k', keypad_get_keycode k = some (x % 256, k') ∧ KeybufInv k' ∧
      k'.keybuf_head = k.keybuf_head ∧ keybuf_contents k' = xs := by
  obtain ⟨h1, h2⟩ := hi
  have hpos : 0 < keybuf_count k := by
    rcases Nat.eq_zero_or_pos (keybuf_count k) with h0 | h0
    · simp [keybuf_contents, h0] at hc
    · exact h0
  obtain ⟨n, hn⟩ : ∃ n, keybuf_count k = n + 1 := ⟨keybuf_count k - 1, by omega⟩
  have hne : k.keybuf_tail ≠ k.keybuf_head := by
    unfold keybuf_count at hpos; omega
  have hb : ((k.keybuf_tail + 1) % 2 ^ 32) &&& (KEYBUF_SIZE - 1) = (k.keybuf_tail + 1) % 16 := by
    rw [and_keybuf_mask]; omega
  simp only [keybuf_contents, hn, List.range_succ_eq_map, List.map_cons, List.map_map,
    List.cons.injEq] at hc
  obtain ⟨hx, hxs⟩ := hc
  refine ⟨{ k with keybuf_tail := (k.keybuf_tail + 1) % 16 }, ?_, ?_, rfl, ?_⟩
  · simp only [keypad_get_keycode, ne_eq, hne, not_false_eq_true, if_true, h2, dif_pos, hb]
    have e' : (⟨(k.keybuf_tail + 0) % 16, Nat.mod_lt _ (by decide)⟩ : Fin 16)
        = ⟨k.keybuf_tail, h2⟩ := Fin.ext (by simp only [Nat.add_zero]; omega)
    rw [e'] at hx
    rw [hx]
  · exact ⟨h1, Nat.mod_lt _ (by decide)⟩
  · have hc' : keybuf_count { k with keybuf_tail := (k.keybuf_tail + 1) % 16 } = n := by
      unfold keybuf_count at hn ⊢; simp only; omega
    rw [← hxs]
    simp only [keybuf_contents, hc']
    apply List.map_congr_left
    intro i _
    simp only [Function.comp]
    congr 1
    apply Fin.ext
    simp only [Nat.succ_eq_add_one]
    omega

theorem keypad_get_empty (k : Keypad) (h : k.keybuf_head = k.keybuf_tail) :
    keypad_get_keycode k = some (0, k) := by
  simp [keypad_get_keycode, h]

theorem enqueue_keycodes_spec (cs : List Nat) (k : Keypad) (hi : KeybufInv k)
    (hn : keybuf_count k + cs.length ≤ 15) :
    ∃ k', enqueue_keycodes cs k = some k' ∧ KeybufInv k' ∧
      keybuf_contents k' = keybuf_contents k ++ cs.map (· % 256) := by
  induction cs generalizing k with
  | nil => exact ⟨k, rfl, hi, by simp⟩
  | cons c cs ih =>
    simp only [List.length_cons] at hn
    obtain ⟨k1, e1, i1, -, c1, l1⟩ := keypad_enqueue_spec c k hi (by omega)
    obtain ⟨k2, e2, i2, l2⟩ := ih k1 i1 (by omega)
    refine ⟨k2, ?_, i2, ?_⟩
    · simp only [enqueue_keycodes, e1]; exact e2
    · rw [l2, l1]; simp

theorem get_keycodes_spec (xs : List Nat) (k : Keypad) (hi : KeybufInv k)
    (hc : keybuf_contents k = xs) :
    ∃ k', get_keycodes xs.length k = some (xs.map (· % 256), k') ∧ KeybufInv k' ∧
      k'.keybuf_head = k.keybuf_head ∧ keybuf_contents k' = [] := by
  induction xs generalizing k with
  | nil => exact ⟨k, rfl, hi, rfl, hc⟩
  | cons x xs ih =>
    obtain ⟨k1, e1, i1, h1, c1⟩ := keypad_get_spec k hi x xs hc
    obtain ⟨k2, e2, i2, h2, c2⟩ := ih k1 i1 c1
    refine ⟨k2, ?_, i2, h2.trans h1, c2⟩
    show (keypad_get_keycode k >>= fun r =>
      get_keycodes xs.length r.2 >>= fun rs => some (r.1 :: rs.1, rs.2)) = _
    rw [e1]
    show (get_keycodes xs.length k1 >>= fun rs => some (x % 256 :: rs.1, rs.2)) = _
    rw [e2]
    rfl

theorem keybuf_empty_iff (k : Keypad) (hi : KeybufInv k) :
    keybuf_contents k = [] ↔ k.keybuf_head = k.keybuf_tail := by
  obtain ⟨h1, h2⟩ := hi
  simp only [keybuf_contents, List.map_eq_nil_iff, List.range_eq_nil, keybuf_count]
  omega

/-! ## The spin-up wait of the restorer -/

/-- The at-speed wait returns after exactly `k` delays of 0.1 s when the `k`-th poll is the
first to report the spindle at speed. -/
theorem wait_at_speed_exact (E : Env) (n : Nat) (c : Config) (k : Nat) (hk : k ≤ n)
    (hlt : ∀ j, j < k →
      E.spindle_at_speed (c.log ++ List.replicate j (.delay_sec (1 / 10))) = false)
    (hat : E.spindle_at_speed (c.log ++ List.replicate k (.delay_sec (1 / 10))) = true) :
    wait_at_speed E n c = .ok (c.emits (List.replicate k (.delay_sec (1 / 10)))) := by
  induction n generalizing c k with
  | zero =>
    obtain rfl : k = 0 := by omega
    have h0 : E.spindle_at_speed c.log = true := by simpa using hat
    simp [wait_at_speed, h0, Config.emits]
  | succ n ih =>
    unfold wait_at_speed
    cases k with
    | zero =>
      have h0 : E.spindle_at_speed c.log = true := by simpa using hat
      simp [h0, Config.emits]
    | succ k =>
      have h0 : E.spindle_at_speed c.log = false := by simpa using hlt 0 (by omega)
      rw [h0]
      simp only [Bool.false_eq_true, if_false]
      rw [ih (c.emit (.delay_sec (1 / 10))) k (by omega)
        (fun j hj => by
          have := hlt (j + 1) (by omega)
          simpa [Config.emit, List.replicate_succ] using this)
        (by simpa [Config.emit, List.replicate_succ] using hat)]
      simp [Config.emits, Config.emit, List.replicate_succ]

/-- The at-speed wait does not return when no poll within the budget reports the spindle
at speed. -/
theorem wait_at_speed_hang (E : Env) (n : Nat) (c : Config)
    (h : ∀ j, j ≤ n →
      E.spindle_at_speed (c.log ++ List.replicate j (.delay_sec (1 / 10))) = false) :
    wait_at_speed E n c = .error .hang := by
  induction n generalizing c with
  | zero =>
    have h0 : E.spindle_at_speed c.log = false := by simpa using h 0 (Nat.le_refl 0)
    simp [wait_at_speed, h0]
  | succ n ih =>
    unfold wait_at_speed
    have h0 : E.spindle_at_speed c.log = false := by simpa using h 0 (by omega)
    rw [h0]
    simp only [Bool.false_eq_true, if_false]
    exact ih _ (fun j hj => by
      have := h (j + 1) (by omega)
      simpa [Config.emit, List.replicate_succ] using this)

/-- The coolant block of `state_restore_conditions` as a continuation of the spindle
block. -/
theorem restore_coolant_block (E : Env) (cond : planner_cond_t) (c : Config) :
    (if E.gc_modal_coolant.mask ≠ 0 then
      (Except.ok ((c.emit (.coolant_set_state cond.coolant)).emit
        (.delay_sec E.SAFETY_DOOR_COOLANT_DELAY)) : Res)
    else .ok c)
    = .ok (c.emits (if E.gc_modal_coolant.mask ≠ 0 then
        [.coolant_set_state cond.coolant, .delay_sec E.SAFETY_DOOR_COOLANT_DELAY]
      else [])) := by
  split <;> simp [Config.emits, Config.emit]

/-! ## Claims -/

/-- C1: `update_state(rt_exec)` is `set_state(STATE_SAFETY_DOOR)` when the mask contains
`EXEC_SAFETY_DOOR` and the state is not `STATE_SAFETY_DOOR` - same configuration and
same log, whatever the other bits of the mask are, so that two masks containing
`EXEC_SAFETY_DOOR` give the same result - and is the call of the installed handler with
the mask in every other case. -/
theorem update_state_dispatch (E : Env) (c : Config) (m m' : Events) :
    run E (.update_state m) c =
        (if m.safety_door = true ∧ c.state ≠ .STATE_SAFETY_DOOR then
          run E (.set_state .STATE_SAFETY_DOOR) c
        else run E (.handler c.stateHandler m) c) ∧
      (m.safety_door = true → m'.safety_door = true → c.state ≠ .STATE_SAFETY_DOOR →
        run E (.update_state m) c = run E (.update_state m') c) := by
  refine ⟨run_update_state_eq E m c, fun h1 h2 h3 => ?_⟩
  rw [run_update_state_eq E m, run_update_state_eq E m', if_pos ⟨h1, h3⟩, if_pos ⟨h2, h3⟩]

/-- Witness for C1: from `STATE_CYCLE`, a mask with `EXEC_SAFETY_DOOR` and `EXEC_FEED_HOLD`
gives the same result as the mask `EXEC_SAFETY_DOOR`. -/
theorem update_state_dispatch_witness :
    run {} (.update_state { safety_door := true, feed_hold := true })
        { state := .STATE_CYCLE, stateHandler := .state_cycle } =
      run {} (.update_state EXEC_SAFETY_DOOR)
        { state := .STATE_CYCLE, stateHandler := .state_cycle } :=
  (update_state_dispatch {} { state := .STATE_CYCLE, stateHandler := .state_cycle }
    { safety_door := true, feed_hold := true } EXEC_SAFETY_DOOR).2 rfl rfl (by decide)

/-- C2, counterexample: from `STATE_JOG`, a state outside `STATE_ALARM`, `STATE_ESTOP`,
`STATE_SLEEP`, `STATE_CHECK_MODE` and `STATE_SAFETY_DOOR`, the mask `EXEC_SAFETY_DOOR`
leaves the state `STATE_JOG`: `set_state(STATE_SAFETY_DOOR)` only starts the deceleration
and records `pending_state`. -/
theorem safety_door_from_jog :
    ∃ c', run {} (.update_state EXEC_SAFETY_DOOR)
        { state := .STATE_JOG, stateHandler := .state_cycle } = .ok c' ∧
      EXEC_SAFETY_DOOR.safety_door = true ∧
      State.STATE_JOG ∉ [State.STATE_ALARM, .STATE_ESTOP, .STATE_SLEEP, .STATE_CHECK_MODE,
        .STATE_SAFETY_DOOR] ∧
      c'.state ≠ .STATE_SAFETY_DOOR ∧
      c' = { state := .STATE_JOG, stateHandler := .state_await_hold, suspend := true,
             step_control := { execute_hold := true },
             parking_state := .Parking_Retracting, pending_state := .STATE_SAFETY_DOOR,
             log := [.report_feedback_message .Message_SafetyDoorAjar,
                     .st_update_plan_block_parameters] } :=
  ⟨_, rfl, rfl, by decide, by decide, rfl⟩

/-- C2, amended: from every state other than `STATE_ALARM`, `STATE_ESTOP`, `STATE_SLEEP`,
`STATE_CHECK_MODE`, `STATE_SAFETY_DOOR` and `STATE_JOG`, `update_state` with a mask that
contains `EXEC_SAFETY_DOOR` returns with state `STATE_SAFETY_DOOR`; from `STATE_JOG` it
returns with the state still `STATE_JOG`, handler `state_await_hold`, `suspend` set and
`pending_state = STATE_SAFETY_DOOR`. -/
theorem safety_door_preempts (E : Env) (c : Config) (m : Events)
    (hm : m.safety_door = true)
    (hs : c.state ∉ [State.STATE_ALARM, .STATE_ESTOP, .STATE_SLEEP, .STATE_CHECK_MODE,
      .STATE_SAFETY_DOOR]) :
    ∃ c', run E (.update_state m) c = .ok c' ∧
      (c.state ≠ .STATE_JOG → c'.state = .STATE_SAFETY_DOOR) ∧
      (c.state = .STATE_JOG → c'.state = .STATE_JOG ∧ c'.stateHandler = .state_await_hold ∧
        c'.suspend = true ∧ c'.pending_state = .STATE_SAFETY_DOOR) := by
  simp only [List.mem_cons, List.mem_singleton, List.not_mem_nil, or_false, not_or] at hs
  obtain ⟨h1, h2, h3, h4, h5⟩ := hs
  rw [run_update_state_eq, if_pos ⟨hm, h5⟩, run_set_state]
  obtain ⟨c', e, k1, -, -, k4, k5⟩ := set_state_case_sleep_spec E .STATE_SAFETY_DOOR
    (c.emit (.report_feedback_message .Message_SafetyDoorAjar)) (by decide)
  refine ⟨c', ?_, fun hj => k4 (by simpa using hj), fun hj => ?_⟩
  · simp only [set_state, if_neg (Ne.symm h5)]
    rw [← e]
    simp [State.among, h1, h2, h3, h4]
  · obtain ⟨a, b, d⟩ := k5 (by simpa using hj)
    exact ⟨a, b, k1, d⟩

/-- Witness for C2 (amended): the door opens in `STATE_CYCLE`. -/
theorem safety_door_preempts_witness :
    ∃ c', run {} (.update_state EXEC_SAFETY_DOOR)
        { state := .STATE_CYCLE, stateHandler := .state_cycle } = .ok c' ∧
      (State.STATE_CYCLE ≠ .STATE_JOG → c'.state = .STATE_SAFETY_DOOR) ∧
      (State.STATE_CYCLE = .STATE_JOG → c'.state = .STATE_JOG ∧
        c'.stateHandler = .state_await_hold ∧ c'.suspend = true ∧
        c'.pending_state = .STATE_SAFETY_DOOR) :=
  safety_door_preempts {} { state := .STATE_CYCLE, stateHandler := .state_cycle }
    EXEC_SAFETY_DOOR rfl (by decide)

/-- C3: in `STATE_SAFETY_DOOR` with handler `state_await_resume`, while the door sensor
reports ajar, `update_state` with any mask returns with the state still
`STATE_SAFETY_DOOR`, `suspend` unchanged, the handler still `state_await_resume`, and
the log unchanged or extended by `st_parking_restore_buffer()` alone: no spindle, coolant,
parking-motion, `st_prep_buffer` or `st_wake_up` call. -/
theorem door_ajar_refuses_resume (E : Env) (c : Config) (m : Events)
    (hs : c.state = .STATE_SAFETY_DOOR) (hh : c.stateHandler = .state_await_resume)
    (hajar : ∀ l, E.safety_door_ajar l = true) :
    ∃ c', run E (.update_state m) c = .ok c' ∧ c'.state = .STATE_SAFETY_DOOR ∧
      c'.state ≠ .STATE_CYCLE ∧ c'.suspend = c.suspend ∧
      c'.stateHandler = .state_await_resume ∧
      (c'.log = c.log ∨ c'.log = c.log ++ [.st_parking_restore_buffer]) := by
  have hno : ¬(m.safety_door = true ∧ c.state ≠ .STATE_SAFETY_DOOR) := fun h => h.2 hs
  rw [run_update_state_eq, if_neg hno, hh, run_handler]
  simp only [call_handler, state_await_resume]
  by_cases hp : (E.PARKING_ENABLE && m.cycle_complete) = true
  · simp only [hp, if_true]
    refine ⟨(end_sys_motion c).with_parking_state .Parking_DoorAjar, ?_, by simp [hs],
      by simp [hs], by simp, by simp [hh], ?_⟩
    · simp [hs, hajar]
    · simpa using end_sys_motion_log c
  · simp only [hp]
    refine ⟨c, ?_, hs, by simp [hs], rfl, hh, Or.inl rfl⟩
    simp [hs, hajar]

/-- Witness for C3: `EXEC_CYCLE_START` with the door ajar, parking build, system motion
just completed. -/
theorem door_ajar_refuses_resume_witness :
    ∃ c', run { PARKING_ENABLE := true, safety_door_ajar := fun _ => true }
        (.update_state { cycle_start := true, cycle_complete := true })
        { state := .STATE_SAFETY_DOOR, stateHandler := .state_await_resume, suspend := true,
          step_control := { execute_sys_motion := true } } = .ok c' ∧
      c'.state = .STATE_SAFETY_DOOR ∧ c'.state ≠ .STATE_CYCLE ∧ c'.suspend = true ∧
      c'.stateHandler = .state_await_resume ∧
      (c'.log = [] ∨ c'.log = [] ++ [.st_parking_restore_buffer]) :=
  door_ajar_refuses_resume { PARKING_ENABLE := true, safety_door_ajar := fun _ => true }
    { state := .STATE_SAFETY_DOOR, stateHandler := .state_await_resume, suspend := true,
      step_control := { execute_sys_motion := true } }
    { cycle_start := true, cycle_complete := true } rfl rfl (fun _ => rfl)

/-- C4: the predicate "in `STATE_HOLD`, `STATE_SAFETY_DOOR`, `STATE_SLEEP` or
`STATE_TOOL_CHANGE`, `suspend` is set" is preserved by every `update_state` and every
`set_state` call that returns, and so holds in every configuration reached from an
initial configuration (state `STATE_IDLE`, handler `state_idle`, `suspend` false) by
such calls, whatever the event masks and the environments. -/
theorem suspend_invariant :
    (∀ (E : Env) (m : Events) (c c' : Config),
      SuspendInv c → run E (.update_state m) c = .ok c' → SuspendInv c') ∧
    (∀ (E : Env) (s : State) (c c' : Config),
      SuspendInv c → run E (.set_state s) c = .ok c' → SuspendInv c') ∧
    (∀ c0 c : Config, c0.state = .STATE_IDLE → c0.stateHandler = .state_idle →
      c0.suspend = false → Reachable any_mask c0 c → SuspendInv c) := by
  refine ⟨fun E m c c' hi h => (sum_update_state E m c c' h).1 hi,
    fun E s c c' hi h => suspendInv_set_state E s c c' hi h, ?_⟩
  intro c0 c h0 _ _ hr
  induction hr with
  | init => intro h; rw [h0] at h; cases h
  | update_state E m _ _ h ih => exact (sum_update_state E m _ _ h).1 ih
  | set_state E s _ h ih => exact suspendInv_set_state E s _ _ ih h

/-- Witness for C4: after `update_state(EXEC_FEED_HOLD)` on the initial configuration the
state is `STATE_HOLD` and `suspend` is set. -/
theorem suspend_invariant_witness :
    SuspendInv
      { state := .STATE_HOLD, suspend := true, holding_state := .Hold_Complete,
        stateHandler := .state_await_resume } :=
  suspend_invariant.2.2 {} _ rfl rfl rfl
    (Reachable.update_state {} EXEC_FEED_HOLD Reachable.init trivial rfl)

/-- C5, the code at the failing input: `state_cycle` in `STATE_CYCLE` receives
`EXEC_CYCLE_COMPLETE` together with `EXEC_MOTION_CANCEL`.  After `set_state(STATE_IDLE)`
the handler still runs its `EXEC_MOTION_CANCEL` block, and the call ends in `STATE_IDLE`
with `suspend` and `execute_hold` set. -/
theorem idle_not_clean_after_complete_with_cancel :
    ∃ c', run {} (.update_state { cycle_complete := true, motion_cancel := true })
        { state := .STATE_CYCLE, stateHandler := .state_cycle } = .ok c' ∧
      State.STATE_CYCLE ≠ .STATE_IDLE ∧ c'.state = .STATE_IDLE ∧
      c'.suspend = true ∧ c'.step_control.execute_hold = true ∧
      ¬(c'.step_control = {} ∧ c'.suspend = false) ∧
      c' = { state := .STATE_IDLE, stateHandler := .state_await_motion_cancel,
             suspend := true, step_control := { execute_hold := true },
             log := [.st_update_plan_block_parameters] } :=
  ⟨_, rfl, by decide, rfl, rfl, rfl, by decide, rfl⟩

/-- Every other input satisfies C5: from a state other than `STATE_IDLE`, when
`update_state` ends in `STATE_IDLE`, every step-control flag is zero and `suspend` is
false, unless the installed handler is `state_cycle` and the mask carries
`EXEC_CYCLE_COMPLETE` and `EXEC_MOTION_CANCEL` together. -/
theorem idle_is_clean (E : Env) (c c' : Config) (m : Events)
    (hs : c.state ≠ .STATE_IDLE)
    (hm : ¬(c.stateHandler = .state_cycle ∧ m.cycle_complete = true ∧ m.motion_cancel = true))
    (h : run E (.update_state m) c = .ok c') (hi : c'.state = .STATE_IDLE) :
    c'.step_control = {} ∧ c'.suspend = false := by
  rcases (sum_update_state E m c c' h).2 hm with q | g
  · rw [q.1] at hi; exact absurd hi hs
  · exact g.2.2 hi

/-- An instance of `idle_is_clean`: `EXEC_CYCLE_COMPLETE` alone in `STATE_CYCLE` with
`update_spindle_rpm` pending. -/
theorem idle_is_clean_witness :
    (({ state := .STATE_IDLE, stateHandler := .state_idle } : Config).step_control = {} ∧
      ({ state := .STATE_IDLE, stateHandler := .state_idle } : Config).suspend = false) :=
  idle_is_clean {}
    { state := .STATE_CYCLE, stateHandler := .state_cycle,
      step_control := { update_spindle_rpm := true } }
    { state := .STATE_IDLE, stateHandler := .state_idle } EXEC_CYCLE_COMPLETE
    (by decide) (by decide) rfl rfl

/-- C6, the code at the failing input: from the initial configuration,
`set_state(STATE_JOG)` then `update_state` with `EXEC_CYCLE_COMPLETE` and
`EXEC_MOTION_CANCEL` in one mask reaches `STATE_IDLE` with handler
`state_await_motion_cancel`. -/
theorem idle_with_foreign_handler :
    ∃ c, Reachable any_mask {} c ∧ c.state = .STATE_IDLE ∧
      c.stateHandler = .state_await_motion_cancel ∧ c.stateHandler ≠ .state_idle :=
  ⟨{ state := .STATE_IDLE, stateHandler := .state_await_motion_cancel, suspend := true,
     step_control := { execute_hold := true }, log := [.st_update_plan_block_parameters] },
   Reachable.update_state {} { cycle_complete := true, motion_cancel := true }
     (Reachable.set_state {} .STATE_JOG Reachable.init rfl) trivial rfl,
   rfl, rfl, by decide⟩

/-- Every other sequence satisfies C6: in every configuration reached from an initial
configuration (state `STATE_IDLE`, handler `state_idle`) by `set_state` calls and by
`update_state` calls that do not deliver `EXEC_CYCLE_COMPLETE` and `EXEC_MOTION_CANCEL` in
one mask to `state_cycle`, the handler fits the state: `state_idle` in `STATE_IDLE`,
`state_noop` in `STATE_ALARM`, `STATE_ESTOP`, `STATE_HOMING` and `STATE_CHECK_MODE`. -/
theorem handler_fits_state (c0 c : Config) (h0 : c0.state = .STATE_IDLE)
    (hh : c0.stateHandler = .state_idle) (hr : Reachable no_complete_with_cancel c0 c) :
    (c.state = .STATE_IDLE → c.stateHandler = .state_idle) ∧
    (c.state ∈ [State.STATE_ALARM, .STATE_ESTOP, .STATE_HOMING, .STATE_CHECK_MODE] →
      c.stateHandler = .state_noop) := by
  have key : HandlerInv c := by
    induction hr with
    | init =>
      refine ⟨fun _ => hh, fun h => ?_⟩
      rw [h0] at h; simp [State.inert, State.among] at h
    | update_state E m _ hm h ih =>
      exact handlerInv_update_state E m _ _ ih hm h
    | set_state E s _ h ih => exact handlerInv_set_state E s _ _ ih h
  refine ⟨key.1, fun h => key.2 ?_⟩
  simp only [List.mem_cons, List.mem_singleton, List.not_mem_nil, or_false] at h
  rcases h with h | h | h | h <;> simp [State.inert, State.among, h]

/-- An instance of `handler_fits_state`: `set_state(STATE_ALARM)` on the initial
configuration. -/
theorem handler_fits_state_witness :
    ((State.STATE_ALARM = .STATE_IDLE → Handler.state_noop = .state_idle) ∧
      (State.STATE_ALARM ∈ [State.STATE_ALARM, .STATE_ESTOP, .STATE_HOMING, .STATE_CHECK_MODE] →
        Handler.state_noop = .state_noop)) :=
  handler_fits_state {} { state := .STATE_ALARM, stateHandler := .state_noop } rfl rfl
    (Reachable.set_state {} .STATE_ALARM Reachable.init rfl)

/-- C7, counterexample: in `STATE_JOG`, the second `set_state(STATE_SAFETY_DOOR)` is not a
no-op: it emits the feedback message and calls `st_update_plan_block_parameters()`
again. -/
theorem set_state_twice_from_jog :
    ∃ c1 c2, run {} (.set_state .STATE_SAFETY_DOOR)
        { state := .STATE_JOG, stateHandler := .state_cycle } = .ok c1 ∧
      run {} (.set_state .STATE_SAFETY_DOOR) c1 = .ok c2 ∧
      c1.log = [.report_feedback_message .Message_SafetyDoorAjar,
                .st_update_plan_block_parameters] ∧
      c2.log = c1.log ++ [.report_feedback_message .Message_SafetyDoorAjar,
                          .st_update_plan_block_parameters] ∧
      c2 ≠ c1 :=
  ⟨_, _, rfl, rfl, rfl, rfl, fun h => by
    have h' := congrArg (fun c => c.log.length) h
    revert h'
    decide⟩

/-- C7, amended: `set_state(S); set_state(S)` gives the same outcome - configuration, log,
or failure to return - as `set_state(S)`, for every `S` and every configuration except
`S = STATE_SAFETY_DOOR` or `STATE_SLEEP` requested in `STATE_JOG`. -/
theorem set_state_idempotent (E : Env) (s : State) (c : Config)
    (hj : ¬(c.state = .STATE_JOG ∧ (s = .STATE_SAFETY_DOOR ∨ s = .STATE_SLEEP))) :
    (run E (.set_state s) c >>= run E (.set_state s)) = run E (.set_state s) c := by
  cases h : run E (.set_state s) c with
  | error e => rfl
  | ok c1 =>
    show run E (.set_state s) c1 = .ok c1
    rcases set_state_spec E s c c1 h with e | ⟨a, b, -⟩ | ⟨-, a, -⟩
    · subst e; exact h
    · exact absurd ⟨a, b⟩ hj
    · rw [run_set_state]
      simp [set_state, a]

/-- Witness for C7 (amended): `set_state(STATE_HOLD)` twice in `STATE_CYCLE`. -/
theorem set_state_idempotent_witness :
    (run {} (.set_state .STATE_HOLD) { state := .STATE_CYCLE, stateHandler := .state_cycle }
        >>= run {} (.set_state .STATE_HOLD)) =
      run {} (.set_state .STATE_HOLD) { state := .STATE_CYCLE, stateHandler := .state_cycle } :=
  set_state_idempotent {} .STATE_HOLD { state := .STATE_CYCLE, stateHandler := .state_cycle }
    (by decide)

/-- C8: refused transitions are atomic.  `set_state(STATE_CYCLE)` when the state is not
`STATE_IDLE`, `set_state(STATE_HOLD)` when the state is `STATE_JOG` or
`override_ctrl.feed_hold_disable` is set, and `set_state(STATE_SAFETY_DOOR)` in
`STATE_ALARM`, `STATE_ESTOP`, `STATE_SLEEP` or `STATE_CHECK_MODE` return the configuration
they were given, log included. -/
theorem refused_transitions_atomic (E : Env) (c : Config) :
    (c.state ≠ .STATE_IDLE → run E (.set_state .STATE_CYCLE) c = .ok c) ∧
    (c.state = .STATE_JOG ∨ c.override_ctrl.feed_hold_disable = true →
      run E (.set_state .STATE_HOLD) c = .ok c) ∧
    (c.state ∈ [State.STATE_ALARM, .STATE_ESTOP, .STATE_SLEEP, .STATE_CHECK_MODE] →
      run E (.set_state .STATE_SAFETY_DOOR) c = .ok c) := by
  refine ⟨fun h => ?_, fun h => ?_, fun h => ?_⟩
  · rw [run_set_state]; simp [set_state, h]
  · rw [run_set_state]
    rcases h with h | h <;> simp [set_state, h, State.among]
  · rw [run_set_state]
    simp only [List.mem_cons, List.mem_singleton, List.not_mem_nil, or_false] at h
    rcases h with h | h | h | h <;> simp [set_state, h, State.among]

/-- Witness for C8: the three refusals on concrete configurations. -/
theorem refused_transitions_atomic_witness :
    run {} (.set_state .STATE_CYCLE) { state := .STATE_HOLD } = .ok { state := .STATE_HOLD } ∧
    run {} (.set_state .STATE_HOLD) { state := .STATE_JOG } = .ok { state := .STATE_JOG } ∧
    run {} (.set_state .STATE_SAFETY_DOOR) { state := .STATE_ALARM }
      = .ok { state := .STATE_ALARM } :=
  ⟨(refused_transitions_atomic {} { state := .STATE_HOLD }).1 (by decide),
   (refused_transitions_atomic {} { state := .STATE_JOG }).2.1 (Or.inl rfl),
   (refused_transitions_atomic {} { state := .STATE_ALARM }).2.2 (by decide)⟩

/-- C9: cycle start in `STATE_IDLE` with handler `state_idle`.  With no planner block
`update_state(EXEC_CYCLE_START)` returns the configuration unchanged, log included; with
a block that is not spindle-synchronized it ends in `STATE_CYCLE` with handler
`state_cycle`, `steppers_deenergize` cleared, and exactly `st_prep_buffer()` followed by
`st_wake_up()` logged, every other variable unchanged. -/
theorem cycle_start_from_idle (E : Env) (c : Config) (hs : c.state = .STATE_IDLE)
    (hh : c.stateHandler = .state_idle) :
    (E.plan_get_current_block c.log = none →
      run E (.update_state EXEC_CYCLE_START) c = .ok c) ∧
    (∀ block, E.plan_get_current_block c.log = some block →
      block.condition.spindle.synchronized = false →
      ∃ c', run E (.update_state EXEC_CYCLE_START) c = .ok c' ∧
        c' = ((((c.with_state .STATE_CYCLE).with_steppers_deenergize false).emit
          .st_prep_buffer).emit .st_wake_up).with_stateHandler .state_cycle ∧
        c'.state = .STATE_CYCLE ∧ c'.stateHandler = .state_cycle ∧
        c'.steppers_deenergize = false ∧
        c'.log = c.log ++ [.st_prep_buffer, .st_wake_up]) := by
  refine ⟨fun hb => ?_, fun block hb hsync => ?_⟩
  · rw [run_update_state]
    simp [update_state, EXEC_CYCLE_START, hh, run_handler, call_handler, state_idle,
      run_set_state, set_state, hs, hb, bind, Except.bind]
  · refine ⟨_, ?_, rfl, rfl, rfl, rfl, by simp⟩
    rw [run_update_state]
    simp [update_state, EXEC_CYCLE_START, hh, run_handler, call_handler, state_idle,
      run_set_state, set_state, hs, hb, hsync, bind, Except.bind]

/-- Witness for C9: the empty planner on the initial configuration. -/
theorem cycle_start_from_idle_witness :
    run {} (.update_state EXEC_CYCLE_START) {} = .ok {} :=
  (cycle_start_from_idle {} {} rfl rfl).1 rfl

/-- C10: from a state other than `STATE_IDLE`, `set_state(STATE_IDLE)` ends with state
`STATE_IDLE`, handler `state_idle`, `suspend` false, all step-control flags zero, parking
sub-state `Parking_DoorClosed` and holding sub-state `Hold_NotHolding`. -/
theorem set_state_idle (E : Env) (c : Config) (h : c.state ≠ .STATE_IDLE) :
    ∃ c', run E (.set_state .STATE_IDLE) c = .ok c' ∧
      c'.state = .STATE_IDLE ∧ c'.stateHandler = .state_idle ∧ c'.suspend = false ∧
      c'.step_control = {} ∧ c'.parking_state = .Parking_DoorClosed ∧
      c'.holding_state = .Hold_NotHolding := by
  have h1 : run E (.set_state .STATE_IDLE) c = .ok ((((((c.with_suspend false).with_step_control
      {}).with_parking_state .Parking_DoorClosed).with_holding_state
      .Hold_NotHolding).with_state .STATE_IDLE).with_stateHandler .state_idle) := by
    rw [run_set_state]
    simp only [set_state, if_neg (Ne.symm h)]
  exact ⟨_, h1, by simp⟩

/-- Witness for C10: leaving `STATE_HOLD`. -/
theorem set_state_idle_witness :
    ∃ c', run {} (.set_state .STATE_IDLE) { state := .STATE_HOLD, suspend := true } = .ok c' ∧
      c'.state = .STATE_IDLE ∧ c'.stateHandler = .state_idle ∧ c'.suspend = false ∧
      c'.step_control = {} ∧ c'.parking_state = .Parking_DoorClosed ∧
      c'.holding_state = .Hold_NotHolding :=
  set_state_idle {} { state := .STATE_HOLD, suspend := true } (by decide)

/-- C11: `initiate_hold(new_state)` returns true exactly in `STATE_CYCLE`, sets `suspend`,
sets `pending_state` to `new_state` in `STATE_JOG` and to `STATE_IDLE` otherwise, sets the
holding sub-state to `Hold_Pending` for `STATE_HOLD` and the parking sub-state to
`Parking_Retracting` otherwise, and captures the snapshot: with no planner block,
`gc_state.modal.spindle`, the G-code coolant mask OR-ed with the hardware coolant mask,
and `gc_state.spindle.rpm`; with a block, the block's condition and spindle rpm. -/
theorem initiate_hold_captures (E : Env) (s : State) (c : Config) :
    (initiate_hold E s c).1 = (c.state == .STATE_CYCLE) ∧
    (initiate_hold E s c).2.suspend = true ∧
    (initiate_hold E s c).2.pending_state
      = (if c.state = .STATE_JOG then s else .STATE_IDLE) ∧
    (s = .STATE_HOLD → (initiate_hold E s c).2.holding_state = .Hold_Pending) ∧
    (s ≠ .STATE_HOLD → (initiate_hold E s c).2.parking_state = .Parking_Retracting) ∧
    (E.plan_get_current_block c.log = none →
      (initiate_hold E s c).2.restore_condition.spindle = E.gc_modal_spindle ∧
      (initiate_hold E s c).2.restore_condition.coolant.mask
        = E.gc_modal_coolant.mask ||| (E.hal_coolant_get_state c.log).mask ∧
      (initiate_hold E s c).2.restore_spindle_rpm = E.gc_spindle_rpm) ∧
    (∀ block, E.plan_get_current_block c.log = some block →
      (initiate_hold E s c).2.restore_condition = block.condition ∧
      (initiate_hold E s c).2.restore_spindle_rpm = block.spindle_rpm) := by
  refine ⟨initiate_hold_fst E s c, initiate_hold_suspend E s c,
    initiate_hold_pending_state E s c, fun h => ?_, fun h => ?_, fun h => ?_, fun b h => ?_⟩
  · rw [initiate_hold_holding_state, if_pos h]
  · rw [initiate_hold_parking_state, if_neg h]
  · simpa using hold_snapshot_none E (hold_park_init E c) (by simpa using h)
  · simpa using hold_snapshot_some E (hold_park_init E c) b (by simpa using h)

/-- Witness for C11: a hold requested in `STATE_CYCLE` with the coolant switched on by
hand and no planner block. -/
theorem initiate_hold_captures_witness :
    (initiate_hold { hal_coolant_get_state := fun _ => { mask := 1 } } .STATE_HOLD
        { state := .STATE_CYCLE, stateHandler := .state_cycle }).2.restore_condition.coolant.mask
      = 0 ||| 1 :=
  ((initiate_hold_captures { hal_coolant_get_state := fun _ => { mask := 1 } } .STATE_HOLD
      { state := .STATE_CYCLE, stateHandler := .state_cycle }).2.2.2.2.2.1 rfl).2.1

/-- C12, counterexample: a door opening during a completed feed hold.  The hold was taken
with a planner block carrying spindle on at 1000 rpm; `EXEC_SAFETY_DOOR` arrives in
`STATE_HOLD` when the planner has no block and the spindle is modally off.
`set_state(STATE_SAFETY_DOOR)` calls `initiate_hold` again, the call ends in
`STATE_SAFETY_DOOR`, and the snapshot is overwritten. -/
theorem door_in_hold_recaptures_snapshot :
    ∃ c1 c2 c3,
      run { plan_get_current_block := fun _ => some
              { condition := { spindle := { on_ := true } }, spindle_rpm := 1000 } }
        (.update_state EXEC_FEED_HOLD)
        { state := .STATE_CYCLE, stateHandler := .state_cycle } = .ok c1 ∧
      run { plan_get_current_block := fun _ => some
              { condition := { spindle := { on_ := true } }, spindle_rpm := 1000 } }
        (.update_state EXEC_CYCLE_COMPLETE) c1 = .ok c2 ∧
      run {} (.update_state EXEC_SAFETY_DOOR) c2 = .ok c3 ∧
      c2.state = .STATE_HOLD ∧ c2.stateHandler = .state_await_resume ∧
      c2.restore_condition.spindle.on_ = true ∧ c2.restore_spindle_rpm = 1000 ∧
      c3.state = .STATE_SAFETY_DOOR ∧
      c3.restore_condition.spindle.on_ = false ∧ c3.restore_spindle_rpm = 0 ∧
      c3.restore_condition ≠ c2.restore_condition :=
  ⟨_, _, _, rfl, rfl, rfl, rfl, rfl, rfl, rfl, rfl, rfl, rfl, by decide⟩

/-- C12, amended: in `STATE_HOLD`, `STATE_SAFETY_DOOR` or `STATE_SLEEP`, with a handler
other than `state_idle`, `state_cycle` and `state_await_motion_cancel`, a returning
`update_state(mask)` leaves `restore_condition` and `restore_spindle_rpm` unchanged,
whatever the collaborators answer and also when the call ends in `STATE_IDLE` or
`STATE_CYCLE` - except for a mask with `EXEC_SAFETY_DOOR` in `STATE_HOLD`, which starts a
door hold and captures the snapshot again. -/
theorem snapshot_kept_during_hold (E : Env) (m : Events) (c c' : Config)
    (hs : c.state = .STATE_HOLD ∨ c.state = .STATE_SAFETY_DOOR ∨ c.state = .STATE_SLEEP)
    (hh : c.stateHandler ∉ [Handler.state_idle, .state_cycle, .state_await_motion_cancel])
    (hm : ¬(m.safety_door = true ∧ c.state = .STATE_HOLD))
    (h : run E (.update_state m) c = .ok c') :
    c'.restore_condition = c.restore_condition ∧
      c'.restore_spindle_rpm = c.restore_spindle_rpm := by
  rw [run_update_state_eq] at h
  split at h
  next hd =>
    have hsl : c.state = .STATE_SLEEP := by
      rcases hs with hs | hs | hs
      · exact absurd ⟨hd.1, hs⟩ hm
      · exact absurd hs hd.2
      · exact hs
    rw [run_set_state] at h
    simp [set_state, hsl, State.among] at h
    subst h
    exact ⟨rfl, rfl⟩
  next =>
    cases hk : c.stateHandler <;> rw [hk] at h
    case state_idle => simp [hk] at hh
    case state_cycle => simp [hk] at hh
    case state_await_motion_cancel => simp [hk] at hh
    case state_noop =>
      rw [run_handler] at h
      simp only [call_handler, state_noop] at h
      injection h with h; subst h
      exact ⟨rfl, rfl⟩
    case state_await_hold => exact snap_await_hold E _ _ _ h
    case state_await_resume => exact snap_await_resume E _ _ _ h
    case state_await_waypoint_retract => exact snap_await_waypoint_retract E _ _ _ h
    case state_restore => exact snap_restore E _ _ _ h
    case state_await_resumed => exact snap_await_resumed E _ _ _ h

/-- Witness for C12 (amended): the resume of a feed hold, which ends in `STATE_CYCLE`
with the snapshot still in place. -/
theorem snapshot_kept_during_hold_witness :
    (({ state := .STATE_CYCLE, stateHandler := .state_cycle,
        restore_condition := { spindle := { on_ := true } }, restore_spindle_rpm := 1000,
        log := [.st_prep_buffer, .st_wake_up] } : Config).restore_condition
      = ({ state := .STATE_HOLD, stateHandler := .state_await_resume, suspend := true,
           holding_state := .Hold_Complete,
           restore_condition := { spindle := { on_ := true } },
           restore_spindle_rpm := 1000 } : Config).restore_condition) ∧
    (({ state := .STATE_CYCLE, stateHandler := .state_cycle,
        restore_condition := { spindle := { on_ := true } }, restore_spindle_rpm := 1000,
        log := [.st_prep_buffer, .st_wake_up] } : Config).restore_spindle_rpm
      = ({ state := .STATE_HOLD, stateHandler := .state_await_resume, suspend := true,
           holding_state := .Hold_Complete,
           restore_condition := { spindle := { on_ := true } },
           restore_spindle_rpm := 1000 } : Config).restore_spindle_rpm) :=
  snapshot_kept_during_hold { plan_get_current_block := fun _ => some {} } EXEC_CYCLE_START
    { state := .STATE_HOLD, stateHandler := .state_await_resume, suspend := true,
      holding_state := .Hold_Complete,
      restore_condition := { spindle := { on_ := true } }, restore_spindle_rpm := 1000 }
    _ (Or.inl rfl) (by decide) (by decide) rfl

/-- C14: a door hold that could not park (parking build, homing disabled) with spindle and
coolant on.  `EXEC_SAFETY_DOOR`, `EXEC_CYCLE_COMPLETE` stop the spindle and the coolant;
`EXEC_CYCLE_START` with the door closed returns with state `STATE_CYCLE` having called
only `st_prep_buffer` and `st_wake_up`: neither `spindle_set_state` nor
`coolant_set_state`.  The same episode in the build without parking calls both. -/
theorem could_not_park_resume_restores_nothing :
    (∃ c1 c2 c3,
      run { PARKING_ENABLE := true, gc_modal_spindle := { on_ := true },
            gc_modal_coolant := { mask := 1 }, gc_spindle_rpm := 1000,
            plan_get_current_block := fun _ => some
              { condition := { spindle := { on_ := true }, coolant := { mask := 1 } },
                spindle_rpm := 1000 } }
        (.update_state EXEC_SAFETY_DOOR)
        { state := .STATE_CYCLE, stateHandler := .state_cycle } = .ok c1 ∧
      run { PARKING_ENABLE := true, gc_modal_spindle := { on_ := true },
            gc_modal_coolant := { mask := 1 }, gc_spindle_rpm := 1000,
            plan_get_current_block := fun _ => some
              { condition := { spindle := { on_ := true }, coolant := { mask := 1 } },
                spindle_rpm := 1000 } }
        (.update_state EXEC_CYCLE_COMPLETE) c1 = .ok c2 ∧
      run { PARKING_ENABLE := true, gc_modal_spindle := { on_ := true },
            gc_modal_coolant := { mask := 1 }, gc_spindle_rpm := 1000,
            plan_get_current_block := fun _ => some
              { condition := { spindle := { on_ := true }, coolant := { mask := 1 } },
                spindle_rpm := 1000 } }
        (.update_state EXEC_CYCLE_START) c2 = .ok c3 ∧
      c1.state = .STATE_SAFETY_DOOR ∧ c1.stateHandler = .state_await_hold ∧
      c2.state = .STATE_SAFETY_DOOR ∧ c2.stateHandler = .state_await_resume ∧
      c2.parking_state = .Parking_DoorAjar ∧ c2.park.retracting = false ∧
      c2.restore_condition.spindle.on_ = true ∧ c2.restore_condition.coolant.mask = 1 ∧
      c2.restore_spindle_rpm = 1000 ∧
      c2.log = [.report_feedback_message .Message_SafetyDoorAjar,
                .st_update_plan_block_parameters, .plan_cycle_reinit, .spindle_stop,
                .hal_coolant_set_state { mask := 0 }] ∧
      c3.state = .STATE_CYCLE ∧
      c3.log = c2.log ++ [.st_prep_buffer, .st_wake_up]) ∧
    (∃ c1 c2 c3,
      run { PARKING_ENABLE := false, gc_modal_spindle := { on_ := true },
            gc_modal_coolant := { mask := 1 }, gc_spindle_rpm := 1000,
            plan_get_current_block := fun _ => some
              { condition := { spindle := { on_ := true }, coolant := { mask := 1 } },
                spindle_rpm := 1000 } }
        (.update_state EXEC_SAFETY_DOOR)
        { state := .STATE_CYCLE, stateHandler := .state_cycle } = .ok c1 ∧
      run { PARKING_ENABLE := false, gc_modal_spindle := { on_ := true },
            gc_modal_coolant := { mask := 1 }, gc_spindle_rpm := 1000,
            plan_get_current_block := fun _ => some
              { condition := { spindle := { on_ := true }, coolant := { mask := 1 } },
                spindle_rpm := 1000 } }
        (.update_state EXEC_CYCLE_COMPLETE) c1 = .ok c2 ∧
      run { PARKING_ENABLE := false, gc_modal_spindle := { on_ := true },
            gc_modal_coolant := { mask := 1 }, gc_spindle_rpm := 1000,
            plan_get_current_block := fun _ => some
              { condition := { spindle := { on_ := true }, coolant := { mask := 1 } },
                spindle_rpm := 1000 } }
        (.update_state EXEC_CYCLE_START) c2 = .ok c3 ∧
      c2.log = [.report_feedback_message .Message_SafetyDoorAjar,
                .st_update_plan_block_parameters, .plan_cycle_reinit, .spindle_stop,
                .hal_coolant_set_state { mask := 0 }] ∧
      c3.state = .STATE_CYCLE ∧
      c3.log = c2.log ++ [.spindle_set_state { on_ := true } 1000, .delay_sec 4,
                          .coolant_set_state { mask := 1 }, .delay_sec 1,
                          .st_prep_buffer, .st_wake_up]) :=
  ⟨⟨_, _, _, rfl, rfl, rfl, rfl, rfl, rfl, rfl, rfl, rfl, rfl, rfl, rfl, rfl, rfl, rfl⟩,
    ⟨_, _, _, rfl, rfl, rfl, rfl, rfl, rfl⟩⟩

/-- C15: plain feed-hold round trip.  From `STATE_CYCLE` with handler `state_cycle` and
feed hold not disabled, `update_state(EXEC_FEED_HOLD)` returns with state `STATE_HOLD`,
handler `state_await_hold`, `execute_hold` set, `Hold_Pending` and `suspend` set; the
following `update_state(EXEC_CYCLE_COMPLETE)` returns with `Hold_Complete`, handler
`state_await_resume` and all step-control flags zero; the following
`update_state(EXEC_CYCLE_START)`, with a planner block without spindle synchronization
queued, returns with state `STATE_CYCLE`, handler `state_cycle`, `suspend` false and
`Hold_NotHolding`.  The holding sub-state before the resume takes the values
`Hold_NotHolding`, `Hold_Pending`, `Hold_Complete` in that order, one per call, when
the cycle starts with `Hold_NotHolding`, as it does in every configuration reached from
the initial one by `update_state` and `set_state` calls.  Each call may see collaborators
of its own. -/
theorem feed_hold_round_trip (E1 E2 E3 : Env) (c : Config)
    (hs : c.state = .STATE_CYCLE) (hh : c.stateHandler = .state_cycle)
    (hf : c.override_ctrl.feed_hold_disable = false)
    (hb : ∀ l, ∃ b, E3.plan_get_current_block l = some b ∧
      b.condition.spindle.synchronized = false) :
    ∃ c1 c2 c3,
      run E1 (.update_state EXEC_FEED_HOLD) c = .ok c1 ∧
      c1.state = .STATE_HOLD ∧ c1.stateHandler = .state_await_hold ∧
      c1.step_control.execute_hold = true ∧ c1.holding_state = .Hold_Pending ∧
      c1.suspend = true ∧
      run E2 (.update_state EXEC_CYCLE_COMPLETE) c1 = .ok c2 ∧
      c2.state = .STATE_HOLD ∧ c2.holding_state = .Hold_Complete ∧
      c2.stateHandler = .state_await_resume ∧ c2.step_control = {} ∧ c2.suspend = true ∧
      run E3 (.update_state EXEC_CYCLE_START) c2 = .ok c3 ∧
      c3.state = .STATE_CYCLE ∧ c3.stateHandler = .state_cycle ∧ c3.suspend = false ∧
      c3.holding_state = .Hold_NotHolding ∧
      (c.holding_state = .Hold_NotHolding ∨ Reachable any_mask {} c →
        [c.holding_state, c1.holding_state, c2.holding_state]
          = [.Hold_NotHolding, .Hold_Pending, .Hold_Complete]) := by
  obtain ⟨c1, r1, a1, a2, a3, a4, a5⟩ := feed_hold_step E1 c hs hh hf
  obtain ⟨c2, r2, b1, b2, b3, b4, b5⟩ := hold_complete_step E2 c1 a1 a2
  obtain ⟨c3, r3, d1, d2, d3, d4, -⟩ := hold_resume_step E3 c2 b1 b2 hb
  refine ⟨c1, c2, c3, r1, a1, a2, a3, a4, a5, r2, b1, b4, b2, b3, b5.trans a5, r3, d1, d2,
    d3, d4, fun h0 => ?_⟩
  have h0' : c.holding_state = .Hold_NotHolding := by
    rcases h0 with h0 | h0
    · exact h0
    · exact (reachable_not_holding c h0 (Or.inr hs)).1
  rw [h0', a4, b4]

/-- Witness for C15: a cycle with one queued block, held and resumed. -/
theorem feed_hold_round_trip_witness :
    ∃ c1 c2 c3,
      run {} (.update_state EXEC_FEED_HOLD)
        { state := .STATE_CYCLE, stateHandler := .state_cycle } = .ok c1 ∧
      c1.state = .STATE_HOLD ∧ c1.stateHandler = .state_await_hold ∧
      c1.step_control.execute_hold = true ∧ c1.holding_state = .Hold_Pending ∧
      c1.suspend = true ∧
      run {} (.update_state EXEC_CYCLE_COMPLETE) c1 = .ok c2 ∧
      c2.state = .STATE_HOLD ∧ c2.holding_state = .Hold_Complete ∧
      c2.stateHandler = .state_await_resume ∧ c2.step_control = {} ∧ c2.suspend = true ∧
      run { plan_get_current_block := fun _ => some {} } (.update_state EXEC_CYCLE_START) c2
        = .ok c3 ∧
      c3.state = .STATE_CYCLE ∧ c3.stateHandler = .state_cycle ∧ c3.suspend = false ∧
      c3.holding_state = .Hold_NotHolding ∧
      (({ state := .STATE_CYCLE, stateHandler := .state_cycle } : Config).holding_state
          = .Hold_NotHolding ∨
          Reachable any_mask {} { state := .STATE_CYCLE, stateHandler := .state_cycle } →
        [({ state := .STATE_CYCLE, stateHandler := .state_cycle } : Config).holding_state,
          c1.holding_state, c2.holding_state]
          = [.Hold_NotHolding, .Hold_Pending, .Hold_Complete]) :=
  feed_hold_round_trip {} {} { plan_get_current_block := fun _ => some {} }
    { state := .STATE_CYCLE, stateHandler := .state_cycle } rfl rfl rfl
    (fun _ => ⟨{}, rfl, rfl⟩)

/-- C16, counterexample: resuming a plain feed hold with no spindle-stop override and the
spindle modally on.  `state_await_resume` first sets `restore_cycle`, so the feed hold
manager emits the `SpindleRestore` message and calls `spindle_set_state` with the
snapshot before `set_state(STATE_IDLE); set_state(STATE_CYCLE)`. -/
theorem hold_resume_restores_spindle :
    ∃ c', run { gc_modal_spindle := { on_ := true },
                plan_get_current_block := fun _ => some {} }
        (.update_state EXEC_CYCLE_START)
        { state := .STATE_HOLD, stateHandler := .state_await_resume, suspend := true,
          holding_state := .Hold_Complete,
          restore_condition := { spindle := { on_ := true } },
          restore_spindle_rpm := 1000 } = .ok c' ∧
      ({} : spindle_stop_t).value = false ∧
      c'.state = .STATE_CYCLE ∧
      c'.log = [.report_feedback_message .Message_SpindleRestore,
                .spindle_set_state { on_ := true } 1000, .st_prep_buffer, .st_wake_up] :=
  ⟨_, rfl, rfl, rfl, rfl⟩

/-- C16, amended: in `STATE_HOLD` with handler `state_await_resume` and
`spindle_stop_ovr.value = 0`, `update_state(EXEC_CYCLE_START)` is
`set_state(STATE_IDLE); set_state(STATE_CYCLE)` run from the configuration itself when
`gc_state.modal.spindle.on` is clear (no `spindle_set_state`, no message, no
`update_spindle_rpm`); when it is set, the `SpindleRestore` message is emitted first,
followed by `spindle_set_state` with the snapshot, or by setting `update_spindle_rpm` in
laser mode. -/
theorem hold_resume_restore_cycle (E : Env) (c : Config)
    (hs : c.state = .STATE_HOLD) (hh : c.stateHandler = .state_await_resume)
    (hv : c.spindle_stop_ovr.value = false) :
    run E (.update_state EXEC_CYCLE_START) c =
      (run E (.set_state .STATE_IDLE)
        (if E.gc_modal_spindle.on_ then
          if E.laser_mode then
            (c.emit (.report_feedback_message .Message_SpindleRestore)).with_step_control
              { c.step_control with update_spindle_rpm := true }
          else
            (c.emit (.report_feedback_message .Message_SpindleRestore)).emit
              (.spindle_set_state c.restore_condition.spindle c.restore_spindle_rpm)
        else c) >>= fun c => run E (.set_state .STATE_CYCLE) c) := by
  have hz : c.spindle_stop_ovr = {} := by
    rcases hc : c.spindle_stop_ovr with ⟨a, b, d, e⟩
    rw [hc] at hv
    simp only [spindle_stop_t.value, Bool.or_eq_false_iff] at hv
    obtain ⟨⟨⟨rfl, rfl⟩, rfl⟩, rfl⟩ := hv
    rfl
  rw [run_update_state_eq, if_neg (by simp [EXEC_CYCLE_START]), hh, run_handler]
  obtain ⟨st, su, sc, ho, pa, de, ovr, oc, h, rr, rc, ps, pk, lg⟩ := c
  simp only at hs hz
  subst hs hz
  cases hon : E.gc_modal_spindle.on_ <;> cases hl : E.laser_mode <;>
    simp [call_handler, state_await_resume, EXEC_CYCLE_START,
      state_await_resume_hold, spindle_stop_t.value, hon, hl, bind, Except.bind,
      Config.emit, Config.with_spindle_stop_ovr, Config.with_step_control]

/-- Witness for C16 (amended): the spindle modally off, a planner block queued. -/
theorem hold_resume_restore_cycle_witness :
    run { plan_get_current_block := fun _ => some {} } (.update_state EXEC_CYCLE_START)
        { state := .STATE_HOLD, stateHandler := .state_await_resume, suspend := true,
          holding_state := .Hold_Complete } =
      (run { plan_get_current_block := fun _ => some {} } (.set_state .STATE_IDLE)
        (if ({ plan_get_current_block := fun _ => some {} } : Env).gc_modal_spindle.on_ then
          if ({ plan_get_current_block := fun _ => some {} } : Env).laser_mode then
            (({ state := .STATE_HOLD, stateHandler := .state_await_resume, suspend := true,
                holding_state := .Hold_Complete } : Config).emit
              (.report_feedback_message .Message_SpindleRestore)).with_step_control
              { update_spindle_rpm := true }
          else
            (({ state := .STATE_HOLD, stateHandler := .state_await_resume, suspend := true,
                holding_state := .Hold_Complete } : Config).emit
              (.report_feedback_message .Message_SpindleRestore)).emit
              (.spindle_set_state {} 0)
        else { state := .STATE_HOLD, stateHandler := .state_await_resume, suspend := true,
               holding_state := .Hold_Complete })
        >>= fun c => run { plan_get_current_block := fun _ => some {} }
          (.set_state .STATE_CYCLE) c) :=
  hold_resume_restore_cycle { plan_get_current_block := fun _ => some {} }
    { state := .STATE_HOLD, stateHandler := .state_await_resume, suspend := true,
      holding_state := .Hold_Complete } rfl rfl rfl

/-- C17: a resume in laser mode with the spindle modally on loses `update_spindle_rpm`.
From `STATE_HOLD` the feed hold manager sets the flag, from `STATE_SAFETY_DOOR` (build
without parking) `state_restore_conditions` sets it; in both cases the following
`set_state(STATE_IDLE)` clears all step-control flags, and `update_state` returns with
state `STATE_CYCLE` and the flag clear. -/
theorem laser_flag_cleared_by_resume :
    (state_await_resume_hold
        { laser_mode := true, gc_modal_spindle := { on_ := true },
          plan_get_current_block := fun _ => some {} }
        { state := .STATE_HOLD, stateHandler := .state_await_resume, suspend := true,
          holding_state := .Hold_Complete,
          spindle_stop_ovr := { restore_cycle := true } }).step_control.update_spindle_rpm
      = true ∧
    (∃ c', run { laser_mode := true, gc_modal_spindle := { on_ := true },
                 plan_get_current_block := fun _ => some {} }
        (.update_state EXEC_CYCLE_START)
        { state := .STATE_HOLD, stateHandler := .state_await_resume, suspend := true,
          holding_state := .Hold_Complete } = .ok c' ∧
      c'.state = .STATE_CYCLE ∧ c'.stateHandler = .state_cycle ∧
      c'.step_control.update_spindle_rpm = false ∧
      c'.log = [.report_feedback_message .Message_SpindleRestore, .st_prep_buffer,
                .st_wake_up]) ∧
    state_restore_conditions
        { laser_mode := true, gc_modal_spindle := { on_ := true },
          plan_get_current_block := fun _ => some {} } {} 0
        { state := .STATE_SAFETY_DOOR, stateHandler := .state_await_resume, suspend := true,
          holding_state := .Hold_Complete, parking_state := .Parking_DoorAjar }
      = .ok { state := .STATE_SAFETY_DOOR, stateHandler := .state_await_resume,
              suspend := true, holding_state := .Hold_Complete,
              parking_state := .Parking_DoorAjar,
              step_control := { update_spindle_rpm := true } } ∧
    (∃ c', run { laser_mode := true, gc_modal_spindle := { on_ := true },
                 plan_get_current_block := fun _ => some {} }
        (.update_state EXEC_CYCLE_START)
        { state := .STATE_SAFETY_DOOR, stateHandler := .state_await_resume, suspend := true,
          holding_state := .Hold_Complete, parking_state := .Parking_DoorAjar } = .ok c' ∧
      c'.state = .STATE_CYCLE ∧ c'.stateHandler = .state_cycle ∧
      c'.step_control.update_spindle_rpm = false ∧
      c'.log = [.st_prep_buffer, .st_wake_up]) :=
  ⟨rfl, ⟨_, rfl, rfl, rfl, rfl, rfl⟩, rfl, ⟨_, rfl, rfl, rfl, rfl, rfl⟩⟩

/-- C18: a jog motion-cancel that does not return to `STATE_IDLE`.  From the initial
configuration: `set_state(STATE_JOG)`; `EXEC_SAFETY_DOOR` during the jog, which records
`pending_state = STATE_SAFETY_DOOR`; `EXEC_CYCLE_COMPLETE` and `EXEC_CYCLE_START`, which
end the hold in `STATE_IDLE`; `set_state(STATE_JOG)` again.  The configuration reached
has state `STATE_JOG` and handler `state_cycle`.  `EXEC_MOTION_CANCEL` installs
`state_await_motion_cancel`, and `EXEC_CYCLE_COMPLETE` then runs
`set_state(pending_state)` with the value left by the earlier hold: the call ends in
`STATE_JOG` with handler `state_await_hold`, `suspend` and `execute_hold` set. -/
theorem jog_cancel_with_stale_pending_state :
    ∃ c1 c2 c3 c4 c5 c6 c7,
      run {} (.set_state .STATE_JOG) {} = .ok c1 ∧
      run {} (.update_state EXEC_SAFETY_DOOR) c1 = .ok c2 ∧
      run {} (.update_state EXEC_CYCLE_COMPLETE) c2 = .ok c3 ∧
      run {} (.update_state EXEC_CYCLE_START) c3 = .ok c4 ∧
      run {} (.set_state .STATE_JOG) c4 = .ok c5 ∧
      run {} (.update_state EXEC_MOTION_CANCEL) c5 = .ok c6 ∧
      run {} (.update_state EXEC_CYCLE_COMPLETE) c6 = .ok c7 ∧
      c4.state = .STATE_IDLE ∧ c4.stateHandler = .state_idle ∧
      c5.state = .STATE_JOG ∧ c5.stateHandler = .state_cycle ∧
      c5.pending_state = .STATE_SAFETY_DOOR ∧
      c6.stateHandler = .state_await_motion_cancel ∧ c6.suspend = true ∧
      c6.step_control.execute_hold = true ∧
      c7.state = .STATE_JOG ∧ c7.stateHandler = .state_await_hold ∧
      c7.suspend = true ∧ c7.step_control.execute_hold = true ∧
      c7.log = c6.log ++ [.plan_reset, .st_reset, .gc_sync_position, .plan_sync_position,
        .report_feedback_message .Message_SafetyDoorAjar, .st_update_plan_block_parameters] :=
  ⟨_, _, _, _, _, _, _, rfl, rfl, rfl, rfl, rfl, rfl, rfl, rfl, rfl, rfl, rfl, rfl, rfl, rfl,
    rfl, rfl, rfl, rfl, rfl, rfl⟩

/-- The rest of C18 holds for every configuration, and its middle part when
`pending_state` is `STATE_IDLE`: in `STATE_JOG` with handler `state_cycle`,
`update_state(EXEC_MOTION_CANCEL)` installs `state_await_motion_cancel` with `suspend`
and `execute_hold` set; the following `update_state(EXEC_CYCLE_COMPLETE)` calls
`plan_reset`, `st_reset`, `gc_sync_position`, `plan_sync_position` and ends in
`STATE_IDLE` with handler `state_idle`, all step-control flags zero and `suspend`
false. -/
theorem jog_cancel_returns_to_idle (E1 E2 : Env) (c : Config)
    (hs : c.state = .STATE_JOG) (hh : c.stateHandler = .state_cycle)
    (hp : c.pending_state = .STATE_IDLE) :
    ∃ c1 c2, run E1 (.update_state EXEC_MOTION_CANCEL) c = .ok c1 ∧
      c1.stateHandler = .state_await_motion_cancel ∧ c1.suspend = true ∧
      c1.step_control.execute_hold = true ∧
      run E2 (.update_state EXEC_CYCLE_COMPLETE) c1 = .ok c2 ∧
      c2.log = c1.log ++ [.plan_reset, .st_reset, .gc_sync_position, .plan_sync_position] ∧
      c2.state = .STATE_IDLE ∧ c2.stateHandler = .state_idle ∧ c2.step_control = {} ∧
      c2.suspend = false := by
  have h1 : run E1 (.update_state EXEC_MOTION_CANCEL) c = .ok (motion_cancel c) := by
    rw [run_update_state_eq, if_neg (by simp [EXEC_MOTION_CANCEL]), hh, run_handler]
    simp [call_handler, state_cycle, EXEC_MOTION_CANCEL, bind, Except.bind]
  have h2 : run E2 (.update_state EXEC_CYCLE_COMPLETE) (motion_cancel c)
      = .ok (((((((motion_cancel c).with_step_control {}).emits
          [.plan_reset, .st_reset, .gc_sync_position, .plan_sync_position]).with_suspend
          false).with_step_control {}).with_parking_state .Parking_DoorClosed).with_holding_state
          .Hold_NotHolding |>.with_state .STATE_IDLE |>.with_stateHandler .state_idle) := by
    rw [run_update_state_eq, if_neg (by simp [EXEC_CYCLE_COMPLETE]), run_handler]
    simp only [motion_cancel_stateHandler, call_handler, state_await_motion_cancel,
      EXEC_CYCLE_COMPLETE, if_true, motion_cancel_state, hs, motion_cancel_pending_state, hp,
      Config.emit_pending_state, Config.with_step_control_pending_state]
    rw [run_set_state_idle _ _ (by simp [hs])]
    simp [Config.emits, Config.emit]
  exact ⟨_, _, h1, rfl, rfl, rfl, h2, by simp, rfl, rfl, rfl, rfl⟩

/-- Witness for `jog_cancel_returns_to_idle`: a jog started from the initial
configuration. -/
theorem jog_cancel_returns_to_idle_witness :
    ∃ c1 c2, run {} (.update_state EXEC_MOTION_CANCEL)
        { state := .STATE_JOG, stateHandler := .state_cycle } = .ok c1 ∧
      c1.stateHandler = .state_await_motion_cancel ∧ c1.suspend = true ∧
      c1.step_control.execute_hold = true ∧
      run {} (.update_state EXEC_CYCLE_COMPLETE) c1 = .ok c2 ∧
      c2.log = c1.log ++ [.plan_reset, .st_reset, .gc_sync_position, .plan_sync_position] ∧
      c2.state = .STATE_IDLE ∧ c2.stateHandler = .state_idle ∧ c2.step_control = {} ∧
      c2.suspend = false :=
  jog_cancel_returns_to_idle {} {} { state := .STATE_JOG, stateHandler := .state_cycle }
    rfl rfl rfl

/-- The last part of C18: `state_await_motion_cancel` on `EXEC_CYCLE_COMPLETE` clears the
step-control flags and calls `plan_reset`, `st_reset`, `gc_sync_position`,
`plan_sync_position` exactly when the state is `STATE_JOG`, and then runs
`set_state(pending_state)`. -/
theorem motion_cancel_resets_in_jog_only (E : Env) (c : Config)
    (hh : c.stateHandler = .state_await_motion_cancel) :
    run E (.update_state EXEC_CYCLE_COMPLETE) c =
      run E (.set_state c.pending_state)
        (if c.state = .STATE_JOG then
          (c.with_step_control {}).emits
            [.plan_reset, .st_reset, .gc_sync_position, .plan_sync_position]
        else c) := by
  rw [run_update_state_eq, if_neg (by simp [EXEC_CYCLE_COMPLETE]), hh, run_handler]
  simp only [call_handler, state_await_motion_cancel, EXEC_CYCLE_COMPLETE, if_true]
  split <;> simp [Config.emits, Config.emit]

/-- Witness for `motion_cancel_resets_in_jog_only`: a motion-cancel completing in
`STATE_CYCLE` makes no call. -/
theorem motion_cancel_resets_in_jog_only_witness :
    run {} (.update_state EXEC_CYCLE_COMPLETE)
        { state := .STATE_CYCLE, stateHandler := .state_await_motion_cancel, suspend := true } =
      run {} (.set_state .STATE_IDLE)
        (if State.STATE_CYCLE = .STATE_JOG then
          (({ state := .STATE_CYCLE, stateHandler := .state_await_motion_cancel,
              suspend := true } : Config).with_step_control {}).emits
            [.plan_reset, .st_reset, .gc_sync_position, .plan_sync_position]
        else { state := .STATE_CYCLE, stateHandler := .state_await_motion_cancel,
               suspend := true }) :=
  motion_cancel_resets_in_jog_only {}
    { state := .STATE_CYCLE, stateHandler := .state_await_motion_cancel, suspend := true } rfl

/-- C19: `state_await_hold` on `EXEC_CYCLE_COMPLETE` in `STATE_SAFETY_DOOR` or
`STATE_SLEEP`, when parking is compiled out, or homing is disabled, or the parking axis
is not below `PARKING_TARGET`, or laser mode is on, or `parking_disable` is set: the call
returns; the calls made are `plan_cycle_reinitialize`, `spindle_stop` and
`hal.coolant_set_state(0)` and no `mc_parking_motion`; the spindle-stop override and the
step-control flags are zero, the parking sub-state is `Parking_DoorAjar`, the holding
sub-state `Hold_Complete` and the handler `state_await_resume`. -/
theorem degrade_without_motion (E : Env) (m : Events) (c : Config)
    (hm : m.cycle_complete = true)
    (hs : c.state = .STATE_SAFETY_DOOR ∨ c.state = .STATE_SLEEP)
    (hd : E.PARKING_ENABLE = false ∨ E.homing_enable = false ∨
      ¬ axis_get (E.mpos (c.log ++ [.plan_cycle_reinit])) E.PARKING_AXIS < E.PARKING_TARGET ∨
      E.laser_mode = true ∨ c.override_ctrl.parking_disable = true) :
    ∃ c', run E (.handler .state_await_hold m) c = .ok c' ∧
      c'.log = c.log ++ [.plan_cycle_reinit, .spindle_stop, .hal_coolant_set_state { mask := 0 }] ∧
      c'.spindle_stop_ovr = {} ∧ c'.step_control = {} ∧
      c'.parking_state = .Parking_DoorAjar ∧ c'.holding_state = .Hold_Complete ∧
      c'.stateHandler = .state_await_resume ∧ c'.state = c.state := by
  rw [run_handler]
  cases hp : E.PARKING_ENABLE
  · rcases hs with hs | hs <;>
      simp [call_handler, state_await_hold, hm, hs, hp, de_energize, bind, Except.bind]
  · have hg : (E.homing_enable
        && decide (axis_get (E.mpos (c.log ++ [.plan_cycle_reinit])) E.PARKING_AXIS
          < E.PARKING_TARGET)
        && !E.laser_mode && !c.override_ctrl.parking_disable) = false := by
      rcases hd with h | h | h | h | h
      · rw [hp] at h; cases h
      · simp [h]
      · simp [h]
      · simp [h]
      · simp [h]
    rcases hs with hs | hs <;>
      simp only [call_handler, state_await_hold, hm, hs, hp, state_await_hold_parking,
        park_retract, park_retract_setup_target, park_retract_setup_override_ctrl,
        park_retract_setup_log, Config.with_spindle_stop_ovr_log,
        Config.with_spindle_stop_ovr_override_ctrl, Config.with_step_control_log,
        Config.with_step_control_override_ctrl, Config.emit_log, Config.emit_override_ctrl,
        hg] <;>
      simp [de_energize, bind, Except.bind, hs]

/-- Witness for C19: parking build with homing enabled, the parking axis at 0, which is
not below `PARKING_TARGET = -5`. -/
theorem degrade_without_motion_witness :
    ∃ c', run { PARKING_ENABLE := true, homing_enable := true }
        (.handler .state_await_hold EXEC_CYCLE_COMPLETE)
        { state := .STATE_SAFETY_DOOR, stateHandler := .state_await_hold, suspend := true } = .ok c' ∧
      c'.log = [] ++ [.plan_cycle_reinit, .spindle_stop, .hal_coolant_set_state { mask := 0 }] ∧
      c'.spindle_stop_ovr = {} ∧ c'.step_control = {} ∧
      c'.parking_state = .Parking_DoorAjar ∧ c'.holding_state = .Hold_Complete ∧
      c'.stateHandler = .state_await_resume ∧ c'.state = .STATE_SAFETY_DOOR :=
  degrade_without_motion { PARKING_ENABLE := true, homing_enable := true } EXEC_CYCLE_COMPLETE
    { state := .STATE_SAFETY_DOOR, stateHandler := .state_await_hold, suspend := true }
    rfl (Or.inl rfl) (Or.inr (Or.inr (Or.inl (by norm_num [axis_get]))))


/-- C21: a door event during a restore.  In `STATE_SAFETY_DOOR` with handler
`state_restore` or `state_await_resumed`, `update_state` with any mask that contains
`EXEC_SAFETY_DOOR` (also together with `EXEC_CYCLE_COMPLETE`) returns; it sets
`park.restart_retract`, emits the `SafetyDoorAjar` message as its first call, and ends
with handler `state_await_hold`, `state_await_waypoint_retract` or `state_await_resume`,
the state still `STATE_SAFETY_DOOR` and `suspend` as it was.  When `execute_sys_motion`
was set, `execute_hold` and `execute_sys_motion` are set afterwards and the handler is
`state_await_hold`. -/
theorem door_during_restore (E : Env) (m : Events) (c : Config)
    (hm : m.safety_door = true) (hs : c.state = .STATE_SAFETY_DOOR)
    (hh : c.stateHandler = .state_restore ∨ c.stateHandler = .state_await_resumed) :
    ∃ c', run E (.update_state m) c = .ok c' ∧
      c'.park.restart_retract = true ∧
      (∃ rest, c'.log = c.log ++ .report_feedback_message .Message_SafetyDoorAjar :: rest) ∧
      c'.stateHandler ∈ [Handler.state_await_hold, .state_await_waypoint_retract,
        .state_await_resume] ∧
      c'.state = .STATE_SAFETY_DOOR ∧ c'.suspend = c.suspend ∧
      (c.step_control.execute_sys_motion = true →
        c'.step_control.execute_hold = true ∧ c'.step_control.execute_sys_motion = true ∧
        c'.stateHandler = .state_await_hold) := by
  obtain ⟨c', h, a1, a2, a3, a4, a5, -, -, a6, -⟩ := restart_retract_spec E c
  refine ⟨c', ?_, a1, a2, a3, a4.trans hs, a5, fun hsm => ⟨(a6 hsm).1, (a6 hsm).2.1,
    (a6 hsm).2.2.1⟩⟩
  rw [run_update_state_eq, if_neg (fun hd => hd.2 hs), run_handler]
  rcases hh with hh | hh <;> rw [hh]
  · simp only [call_handler, state_restore, hm, if_true]; exact h
  · simp only [call_handler, state_await_resumed, hm, if_true]; exact h

/-- Witness for C21: the door opens during the restore plunge, with
`EXEC_CYCLE_COMPLETE` in the same mask and the plunge still in progress. -/
theorem door_during_restore_witness :
    ∃ c', run { PARKING_ENABLE := true }
        (.update_state { safety_door := true, cycle_complete := true })
        { state := .STATE_SAFETY_DOOR, stateHandler := .state_await_resumed, suspend := true,
          step_control := { execute_sys_motion := true } } = .ok c' ∧
      c'.park.restart_retract = true ∧
      (∃ rest, c'.log = [] ++ .report_feedback_message .Message_SafetyDoorAjar :: rest) ∧
      c'.stateHandler ∈ [Handler.state_await_hold, .state_await_waypoint_retract,
        .state_await_resume] ∧
      c'.state = .STATE_SAFETY_DOOR ∧ c'.suspend = true ∧
      ((true : Bool) = true →
        c'.step_control.execute_hold = true ∧ c'.step_control.execute_sys_motion = true ∧
        c'.stateHandler = .state_await_hold) :=
  door_during_restore { PARKING_ENABLE := true }
    { safety_door := true, cycle_complete := true }
    { state := .STATE_SAFETY_DOOR, stateHandler := .state_await_resumed, suspend := true,
      step_control := { execute_sys_motion := true } } rfl rfl (Or.inr rfl)

/-- C22: `restore_target` survives a restart-retract.  With `park.restart_retract` set,
`state_await_hold` on a mask with `EXEC_CYCLE_COMPLETE` in `STATE_SAFETY_DOOR` or
`STATE_SLEEP` returns with `park.restore_target` and `park.retract_waypoint` unchanged,
whatever the machine position.  Hence, from a restore in progress (handler
`state_restore` or `state_await_resumed`), through any `update_state` calls made while the
state is `STATE_SAFETY_DOOR` - a door re-opening, the new retract, the later resume -
`park.restore_target` stays the same, and when `state_restore` then handles
`EXEC_CYCLE_COMPLETE` the plunge it submits targets that location. -/
theorem restore_target_survives :
    (∀ (E : Env) (m : Events) (c : Config), m.cycle_complete = true →
      c.state = .STATE_SAFETY_DOOR ∨ c.state = .STATE_SLEEP →
      c.park.restart_retract = true →
      ∃ c', run E (.handler .state_await_hold m) c = .ok c' ∧
        c'.park.restore_target = c.park.restore_target ∧
        c'.park.retract_waypoint = c.park.retract_waypoint) ∧
    (∀ c0 c : Config, c0.state = .STATE_SAFETY_DOOR →
      c0.stateHandler = .state_restore ∨ c0.stateHandler = .state_await_resumed →
      Driven (fun c _ _ => c.state = .STATE_SAFETY_DOOR) c0 c →
      c.park.restore_target = c0.park.restore_target ∧
      ∀ E : Env, (∀ l t d, E.mc_parking_motion l t d = true) →
        (E.cap_spindle_at_speed = false ∨ ∀ l, E.spindle_at_speed l = true) →
        c.state = .STATE_SAFETY_DOOR → c.stateHandler = .state_restore →
        ∃ c', run E (.update_state EXEC_CYCLE_COMPLETE) c = .ok c' ∧
          parking_motions c'.log = parking_motions c.log ++
            [(c0.park.restore_target, E.PARKING_PULLOUT_RATE)]) := by
  constructor
  · intro E m c _ _ hrr
    obtain ⟨c', h, -⟩ := kept_await_hold E m c
    obtain ⟨-, p2, -⟩ := pk_await_hold E _ _ _ h
    exact ⟨c', h, (p2 hrr).2.1, (p2 hrr).2.2⟩
  · intro c0 c hs0 hh0 hd
    have key : c.park.restore_target = c0.park.restore_target ∧
        (c.state = .STATE_SAFETY_DOOR → RetractInv c) := by
      induction hd with
      | init =>
        refine ⟨rfl, fun _ => ⟨?_, fun hh => ?_⟩⟩
        · rcases hh0 with hh0 | hh0 <;> simp [hh0]
        · rcases hh0 with hh0 | hh0 <;> rw [hh0] at hh <;> cases hh
      | update_state E m _ hs h ih =>
        obtain ⟨a1, -, a3⟩ := episode_update_state E m _ _ (Or.inl hs) (ih.2 hs) h
        exact ⟨a1.trans ih.1, fun hc => a3 (hc.trans hs.symm)⟩
    refine ⟨key.1, fun E hmc hsp hs hk => ?_⟩
    obtain ⟨c', h, -, -, hm⟩ := park_step_restore E c hmc hsp hk hs
    exact ⟨c', h, by rw [hm, key.1]⟩

/-- Witness for C22: the door re-opens during the restore plunge (restore location
`[0, 0, -20]`, axis now at -18); the machine retracts again, the door closes,
`EXEC_CYCLE_START` resumes, and the plunge submitted by `state_restore` targets
`[0, 0, -20]`. -/
theorem restore_target_survives_witness :
    ∃ c c', Driven (fun c _ _ => c.state = .STATE_SAFETY_DOOR)
        { state := .STATE_SAFETY_DOOR, stateHandler := .state_await_resumed, suspend := true,
          parking_state := .Parking_Resuming,
          park := { target := [0, 0, -20], restore_target := [0, 0, -20],
                    retract_waypoint := -15, retracting := true } } c ∧
      c.stateHandler = .state_restore ∧
      run { PARKING_ENABLE := true, homing_enable := true, mpos := fun _ => [0, 0, -18] }
        (.update_state EXEC_CYCLE_COMPLETE) c = .ok c' ∧
      parking_motions c'.log = parking_motions c.log ++ [([0, 0, -20], 100)] := by
  have d0 : Driven (fun c _ _ => c.state = .STATE_SAFETY_DOOR)
      { state := .STATE_SAFETY_DOOR, stateHandler := .state_await_resumed, suspend := true,
        parking_state := .Parking_Resuming,
        park := { target := [0, 0, -20], restore_target := [0, 0, -20],
                  retract_waypoint := -15, retracting := true } } _ := Driven.init
  have d1 := Driven.update_state
    { PARKING_ENABLE := true, homing_enable := true, mpos := fun _ => [0, 0, -18] }
    EXEC_SAFETY_DOOR d0 rfl rfl
  have d2 := Driven.update_state
    { PARKING_ENABLE := true, homing_enable := true, mpos := fun _ => [0, 0, -18] }
    EXEC_CYCLE_COMPLETE d1 rfl rfl
  have d3 := Driven.update_state
    { PARKING_ENABLE := true, homing_enable := true, mpos := fun _ => [0, 0, -18] }
    EXEC_CYCLE_COMPLETE d2 rfl rfl
  have d4 := Driven.update_state
    { PARKING_ENABLE := true, homing_enable := true, mpos := fun _ => [0, 0, -18] }
    EXEC_CYCLE_START d3 rfl rfl
  obtain ⟨c', h, hm⟩ := (restore_target_survives.2 _ _ rfl (Or.inr rfl) d4).2
    { PARKING_ENABLE := true, homing_enable := true, mpos := fun _ => [0, 0, -18] }
    (fun _ _ _ => rfl) (Or.inl rfl) rfl rfl
  exact ⟨_, c', d4, rfl, h, hm⟩

/-- C23, failing input: a door hold initiated in `STATE_JOG` never parks. Parking build with
homing enabled, the machine at `[0, 0, -20]`, a block queued, the door reported ajar
throughout. `set_state(STATE_SAFETY_DOOR)` in `STATE_JOG` initiates the hold with
`restart_retract` false; `initiate_hold` stores `pending_state = STATE_SAFETY_DOOR` and the
state stays `STATE_JOG`. `state_await_hold` then handles its first `EXEC_CYCLE_COMPLETE`
in the `default:` branch of `switch (sys.state)`: `restore_target` is not written,
`retract_waypoint` keeps the preset `5`, above `PARKING_TARGET = -5`, and the state is
still `STATE_JOG`. `EXEC_CYCLE_START`, with the door still ajar, then resumes into
`STATE_CYCLE`: no parking motion was submitted, the spindle was never stopped, and
`pending_state` still holds the door state nobody read. -/
theorem jog_hold_skips_waypoint :
    ∃ c1 c2 c3,
      run
        { PARKING_ENABLE := true, homing_enable := true, mpos := fun _ => [0, 0, -20],
          safety_door_ajar := fun _ => true, plan_get_current_block := fun _ => some {} }
        (.set_state .STATE_SAFETY_DOOR)
        { state := .STATE_JOG, stateHandler := .state_cycle } = .ok c1 ∧
      c1.state = .STATE_JOG ∧ c1.stateHandler = .state_await_hold ∧
      c1.step_control.execute_hold = true ∧ c1.park.restart_retract = false ∧
      c1.pending_state = .STATE_SAFETY_DOOR ∧
      run
        { PARKING_ENABLE := true, homing_enable := true, mpos := fun _ => [0, 0, -20],
          safety_door_ajar := fun _ => true, plan_get_current_block := fun _ => some {} }
        (.update_state EXEC_CYCLE_COMPLETE) c1 = .ok c2 ∧
      c2.state = .STATE_JOG ∧ c2.stateHandler = .state_await_resume ∧
      c2.park.restore_target ≠ [0, 0, -20] ∧
      c2.park.retract_waypoint = 5 ∧
      ¬ c2.park.retract_waypoint ≤ -5 ∧
      run
        { PARKING_ENABLE := true, homing_enable := true, mpos := fun _ => [0, 0, -20],
          safety_door_ajar := fun _ => true, plan_get_current_block := fun _ => some {} }
        (.update_state EXEC_CYCLE_START) c2 = .ok c3 ∧
      c3.state = .STATE_CYCLE ∧ c3.stateHandler = .state_cycle ∧ c3.suspend = false ∧
      c3.pending_state = .STATE_SAFETY_DOOR ∧
      parking_motions c3.log = [] ∧ Effect.spindle_stop ∉ c3.log :=
  ⟨_, _, _, rfl, rfl, rfl, rfl, rfl, rfl, rfl, rfl, rfl, by decide, rfl,
    by show ¬ ((5 : ℚ) ≤ -5); norm_num, rfl, rfl, rfl, rfl, rfl, rfl, by decide⟩

/-- The waypoint computation of C23 outside `STATE_JOG`: in the parking build, when
`set_state(STATE_SAFETY_DOOR)` or `set_state(STATE_SLEEP)` is accepted in a state other than `STATE_JOG` with
`restart_retract` false and the machine at position `p`, the call returns with the
requested state, and after the first `EXEC_CYCLE_COMPLETE` handled by `state_await_hold`
(simulated inside `set_state` itself, or when the hold started in `STATE_CYCLE` the next
`update_state` call whose mask contains it) `restore_target = p` and
`retract_waypoint = min (p[PARKING_AXIS] + PARKING_PULLOUT_INCREMENT) PARKING_TARGET`, which
is at most `PARKING_TARGET`. No parking motion is submitted before `plan_cycle_reinit`, and
the call right after it is the pull-out motion to the waypoint at `PARKING_PULLOUT_RATE`
exactly when parking is possible (homing enabled, `p[PARKING_AXIS] < PARKING_TARGET`, no
laser mode, parking not overridden) and `p[PARKING_AXIS] < retract_waypoint`. -/
theorem retract_waypoint_computation (E : Env) (s : State) (c : Config) (p : List ℚ)
    (m : Events)
    (hp : E.PARKING_ENABLE = true)
    (hs : s = .STATE_SAFETY_DOOR ∨ s = .STATE_SLEEP)
    (hrr : c.park.restart_retract = false)
    (hpos : ∀ l, E.mpos l = p)
    (hj : c.state ≠ .STATE_JOG) (hne : s ≠ c.state)
    (hacc : s = .STATE_SAFETY_DOOR →
      c.state.among [.STATE_ALARM, .STATE_ESTOP, .STATE_SLEEP, .STATE_CHECK_MODE] = false)
    (hm : m.cycle_complete = true) (hd : m.safety_door = true → s = .STATE_SAFETY_DOOR) :
    ∃ c1, run E (.set_state s) c = .ok c1 ∧ c1.state = s ∧
      ∃ c', (if c.state = .STATE_CYCLE then run E (.update_state m) c1 else .ok c1) = .ok c' ∧
        c'.state = s ∧
        c'.park.restore_target = p ∧
        c'.park.retract_waypoint
          = min (axis_get p E.PARKING_AXIS + E.PARKING_PULLOUT_INCREMENT) E.PARKING_TARGET ∧
        c'.park.retract_waypoint ≤ E.PARKING_TARGET ∧
        ∃ pre rest, c'.log = c.log ++ pre ++ .plan_cycle_reinit :: rest ∧
          parking_motions pre = [] ∧
          ((∃ d tail, rest = .mc_parking_motion
              (p.set E.PARKING_AXIS c'.park.retract_waypoint) d :: tail ∧
              d.feed_rate = E.PARKING_PULLOUT_RATE) ↔
            (E.homing_enable = true ∧ axis_get p E.PARKING_AXIS < E.PARKING_TARGET ∧
              E.laser_mode = false ∧ c.override_ctrl.parking_disable = false ∧
              axis_get p E.PARKING_AXIS < c'.park.retract_waypoint)) := by
  rw [run_set_state]
  rcases hs with hs | hs
  · subst hs
    obtain ⟨c1, h1, s1, c', h2, a1, a2, a3, pre, rest, l1, l2, l3⟩ :=
      case_sleep_first_entry E .STATE_SAFETY_DOOR
        (c.emit (.report_feedback_message .Message_SafetyDoorAjar)) p m hp (Or.inl rfl)
        (by simpa using hrr) hpos (by simpa using hj) hm hd
    refine ⟨c1, ?_, s1, c', by simpa using h2, a1, a2, a3, ?_,
      .report_feedback_message .Message_SafetyDoorAjar :: pre, rest, ?_, ?_, ?_⟩
    · simp [set_state, hne, hacc rfl, h1]
    · rw [a3]; exact min_le_right _ _
    · rw [l1]; simp
    · simpa [parking_motions, Effect.parking_motion] using l2
    · rw [a3]; simpa using l3
  · subst hs
    obtain ⟨c1, h1, s1, c', h2, a1, a2, a3, pre, rest, l1, l2, l3⟩ :=
      case_sleep_first_entry E .STATE_SLEEP c p m hp (Or.inr rfl) hrr hpos hj hm hd
    refine ⟨c1, ?_, s1, c', h2, a1, a2, a3, ?_, pre, rest, l1, l2, ?_⟩
    · simp [set_state, hne, h1]
    · rw [a3]; exact min_le_right _ _
    · rw [a3]; exact l3

/-- Witness for the waypoint computation of C23: the door opens in `STATE_CYCLE` with the machine at
`[0, 0, -20]`; the next `EXEC_CYCLE_COMPLETE` computes the waypoint. -/
theorem retract_waypoint_computation_witness :
    ∃ c1, run { PARKING_ENABLE := true, homing_enable := true, mpos := fun _ => [0, 0, -20] }
        (.set_state .STATE_SAFETY_DOOR)
        { state := .STATE_CYCLE, stateHandler := .state_cycle } = .ok c1 ∧
      c1.state = .STATE_SAFETY_DOOR ∧
      ∃ c', (if State.STATE_CYCLE = .STATE_CYCLE then
          run { PARKING_ENABLE := true, homing_enable := true, mpos := fun _ => [0, 0, -20] }
            (.update_state EXEC_CYCLE_COMPLETE) c1 else .ok c1) = .ok c' ∧
        c'.state = .STATE_SAFETY_DOOR ∧
        c'.park.restore_target = [0, 0, -20] ∧
        c'.park.retract_waypoint = min (axis_get [0, 0, -20] 2 + 5) (-5) ∧
        c'.park.retract_waypoint ≤ -5 ∧
        ∃ pre rest, c'.log = [] ++ pre ++ .plan_cycle_reinit :: rest ∧
          parking_motions pre = [] ∧
          ((∃ d tail, rest = .mc_parking_motion
              (([0, 0, -20] : List ℚ).set 2 c'.park.retract_waypoint) d :: tail ∧
              d.feed_rate = 100) ↔
            ((true : Bool) = true ∧ axis_get [0, 0, -20] 2 < (-5 : ℚ) ∧
              (false : Bool) = false ∧ (false : Bool) = false ∧
              axis_get [0, 0, -20] 2 < c'.park.retract_waypoint)) :=
  retract_waypoint_computation
    { PARKING_ENABLE := true, homing_enable := true, mpos := fun _ => [0, 0, -20] }
    .STATE_SAFETY_DOOR { state := .STATE_CYCLE, stateHandler := .state_cycle } [0, 0, -20]
    EXEC_CYCLE_COMPLETE rfl (Or.inl rfl) rfl (fun _ => rfl) (by decide) (by decide)
    (fun _ => rfl) rfl (fun _ => rfl)

/-- C25: in `STATE_ALARM`, `STATE_ESTOP` and `STATE_CHECK_MODE` with handler `state_noop`,
`update_state` with any mask returns the configuration it was given, log of collaborator
calls included; in `STATE_HOMING` the same holds for every mask that does not contain
`EXEC_SAFETY_DOOR`. -/
theorem inert_states_ignore_events (E : Env) (m : Events) (c : Config)
    (hh : c.stateHandler = .state_noop)
    (hs : c.state ∈ [State.STATE_ALARM, .STATE_ESTOP, .STATE_CHECK_MODE] ∨
      (c.state = .STATE_HOMING ∧ m.safety_door = false)) :
    run E (.update_state m) c = .ok c := by
  rw [run_update_state_eq]
  split
  next hd =>
    rcases hs with hs | ⟨-, hs⟩
    · rw [run_set_state]
      simp only [List.mem_cons, List.mem_singleton, List.not_mem_nil, or_false] at hs
      rcases hs with hs | hs | hs <;> simp [set_state, hs, State.among]
    · rw [hs] at hd; exact absurd hd.1 (by decide)
  next =>
    rw [hh, run_handler]
    rfl

/-- Witness for C25: `STATE_ALARM` receiving `EXEC_SAFETY_DOOR`, `EXEC_CYCLE_START` and
`EXEC_FEED_HOLD` in one mask. -/
theorem inert_states_ignore_events_witness :
    run {} (.update_state { safety_door := true, cycle_start := true, feed_hold := true })
        { state := .STATE_ALARM, stateHandler := .state_noop }
      = .ok { state := .STATE_ALARM, stateHandler := .state_noop } :=
  inert_states_ignore_events {}
    { safety_door := true, cycle_start := true, feed_hold := true }
    { state := .STATE_ALARM, stateHandler := .state_noop } rfl (Or.inl (by decide))

/-- C26, counterexample: a chain of three synthesized `EXEC_CYCLE_COMPLETE` in one call. In a
parking build with homing enabled, the machine at `[0, 0, -20]` and every parking motion
reported as zero-length, `update_state(EXEC_SAFETY_DOOR)` on the initial configuration
returns, but not within a bound of one or two on the chain: `set_state` simulates the cycle
stop for `state_await_hold`, whose pull-out does not move, so it synthesizes
`EXEC_CYCLE_COMPLETE` for `state_await_waypoint_retract`, whose retract does not move
either, so it synthesizes `EXEC_CYCLE_COMPLETE` for `state_await_resume`. -/
theorem synthesized_chain_of_three :
    chain
      { PARKING_ENABLE := true, homing_enable := true, mpos := fun _ => [0, 0, -20],
        mc_parking_motion := fun _ _ _ => false }
      nesting 1 (.update_state EXEC_SAFETY_DOOR) {} = .error .depth ∧
    chain
      { PARKING_ENABLE := true, homing_enable := true, mpos := fun _ => [0, 0, -20],
        mc_parking_motion := fun _ _ _ => false }
      nesting 2 (.update_state EXEC_SAFETY_DOOR) {} = .error .depth ∧
    (∃ c,
      chain
        { PARKING_ENABLE := true, homing_enable := true, mpos := fun _ => [0, 0, -20],
          mc_parking_motion := fun _ _ _ => false }
        nesting 3 (.update_state EXEC_SAFETY_DOOR) {} = .ok c ∧
      (c.state, c.stateHandler, c.parking_state)
        = (.STATE_SAFETY_DOOR, .state_await_resume, .Parking_DoorAjar)) ∧
    (∃ c,
      run
        { PARKING_ENABLE := true, homing_enable := true, mpos := fun _ => [0, 0, -20],
          mc_parking_motion := fun _ _ _ => false }
        (.update_state EXEC_SAFETY_DOOR) {} = .ok c ∧
      (c.state, c.stateHandler, c.parking_state)
        = (.STATE_SAFETY_DOOR, .state_await_resume, .Parking_DoorAjar)) :=
  ⟨by decide!, by decide!, ok_of_observed _ _ _ (by decide!),
    ok_of_observed _ _ _ (by decide!)⟩

/-- C26, amended: for every environment (every behaviour of the collaborators, zero-length
parking motions included), every configuration and every call of `update_state`,
`set_state` or a handler with any event mask, the chain of handlers entered one from the
other with a synthesized `EXEC_CYCLE_COMPLETE` inside the call has length at most 3: run
with the bound 3 the call has the result it has without a bound, and that result is never
the exhaustion of the nesting budget. -/
theorem synthesized_chain_bound (E : Env) (call : Call) (c : Config) :
    chain E nesting 3 call c = run E call c ∧ run E call c ≠ .error .depth := by
  refine ⟨?_, run_no_depth E call c⟩
  cases call
  case update_state m => exact chain_update_state E nesting 0 m c
  case set_state s => exact chain_set_state E nesting 0 s c
  case handler h m => exact chain_handler E nesting 0 h m c

/-- C27: `state_door_reopened()` returns `park.restart_retract` in the parking build and
false in the build without parking; in the parking build, with `park.restart_retract`
set on entry, `state_restore_conditions` returns the configuration it was given - no
spindle call, no coolant call, no delay, no step-control flag changed - for every
snapshot and every G-code modal state. -/
theorem restart_retract_gates_restorer (E : Env) (cond : planner_cond_t) (rpm : ℚ)
    (c : Config) :
    (E.PARKING_ENABLE = true → state_door_reopened E c = c.park.restart_retract) ∧
    (E.PARKING_ENABLE = false → state_door_reopened E c = false) ∧
    (E.PARKING_ENABLE = true → c.park.restart_retract = true →
      state_restore_conditions E cond rpm c = .ok c) := by
  refine ⟨fun hp => ?_, fun hp => ?_, fun hp hr => ?_⟩
  · simp [state_door_reopened, hp]
  · simp [state_door_reopened, hp]
  · simp [state_restore_conditions, hp, hr]

/-- Witness for C27: spindle and coolant modally on, `restart_retract` set. -/
theorem restart_retract_gates_restorer_witness :
    state_restore_conditions
        { PARKING_ENABLE := true, gc_modal_spindle := { on_ := true },
          gc_modal_coolant := { mask := 1 } }
        { spindle := { on_ := true }, coolant := { mask := 1 } } 1000
        { state := .STATE_SAFETY_DOOR, stateHandler := .state_restore, suspend := true,
          park := { restart_retract := true } }
      = .ok { state := .STATE_SAFETY_DOOR, stateHandler := .state_restore, suspend := true,
              park := { restart_retract := true } } :=
  (restart_retract_gates_restorer
    { PARKING_ENABLE := true, gc_modal_spindle := { on_ := true },
      gc_modal_coolant := { mask := 1 } }
    { spindle := { on_ := true }, coolant := { mask := 1 } } 1000
    { state := .STATE_SAFETY_DOOR, stateHandler := .state_restore, suspend := true,
      park := { restart_retract := true } }).2.2 rfl rfl

/-- C28, failing input: a retract of an earlier, already resumed episode causes a restore
motion in a later episode without any retract. From the initial configuration, by
`update_state` calls only: `first_episode` is a whole door episode with parking possible
(four parking motions) and ends in `STATE_IDLE` with `park.retracting` still set. The
homing setting is then switched off. `EXEC_SAFETY_DOOR` starts a second episode:
`state_await_hold` finds parking impossible, de-energizes and installs
`state_await_resume` without any parking motion. `EXEC_CYCLE_START` then finds
`park.retracting` set, installs `state_restore` and submits a fifth parking motion, to the
retract waypoint `[0, 0, -15]` at `PARKING_RATE`. -/
theorem stale_retracting_restores :
    (∃ c, drive first_episode {} = .ok c ∧
      (c.state, c.stateHandler, c.park.retracting) = (.STATE_IDLE, .state_idle, true)) ∧
    (∃ c, drive first_episode {} = .ok c ∧
      parking_motions c.log = [([0, 0, -15], 100), ([0, 0, -5], 500), ([0, 0, -15], 500),
        ([0, 0, -20], 100)]) ∧
    (∃ c, drive (first_episode ++
          [({ park_env with homing_enable := false }, EXEC_SAFETY_DOOR)]) {} = .ok c ∧
      (c.state, c.stateHandler, c.parking_state)
        = (.STATE_SAFETY_DOOR, .state_await_resume, .Parking_DoorAjar)) ∧
    (∃ c, drive (first_episode ++
          [({ park_env with homing_enable := false }, EXEC_SAFETY_DOOR)]) {} = .ok c ∧
      parking_motions c.log = [([0, 0, -15], 100), ([0, 0, -5], 500), ([0, 0, -15], 500),
        ([0, 0, -20], 100)]) ∧
    (∃ c, drive (first_episode ++
          [({ park_env with homing_enable := false }, EXEC_SAFETY_DOOR),
           ({ park_env with homing_enable := false }, EXEC_CYCLE_START)]) {} = .ok c ∧
      (c.state, c.stateHandler) = (.STATE_SAFETY_DOOR, .state_restore)) ∧
    (∃ c, drive (first_episode ++
          [({ park_env with homing_enable := false }, EXEC_SAFETY_DOOR),
           ({ park_env with homing_enable := false }, EXEC_CYCLE_START)]) {} = .ok c ∧
      parking_motions c.log = [([0, 0, -15], 100), ([0, 0, -5], 500), ([0, 0, -15], 500),
        ([0, 0, -20], 100), ([0, 0, -15], 500)]) :=
  ⟨ok_of_observed _ _ _ (by decide!), ok_of_observed _ _ _ (by decide!),
    ok_of_observed _ _ _ (by decide!), ok_of_observed _ _ _ (by decide!),
    ok_of_observed _ _ _ (by decide!), ok_of_observed _ _ _ (by decide!)⟩

/-- C29: the keycode buffer is a FIFO of capacity 15. From an empty buffer (head = tail,
both inside the array), enqueueing at most 15 keycodes (byte values, zero included) with
`keypad_enqueue_keycode` and then calling `keypad_get_keycode` as many times returns
exactly those keycodes in the order they were enqueued; every call is inside the array; one
further `keypad_get_keycode` returns 0 and changes nothing. And `keypad_get_keycode`
returns 0 and changes nothing whenever head = tail. -/
theorem keybuf_fifo :
    (∀ (k : Keypad) (cs : List Nat), KeybufInv k → k.keybuf_head = k.keybuf_tail →
      cs.length ≤ 15 → (∀ c ∈ cs, c < 256) →
      ∃ k1 k2, enqueue_keycodes cs k = some k1 ∧
        get_keycodes cs.length k1 = some (cs, k2) ∧
        keypad_get_keycode k2 = some (0, k2)) ∧
    (∀ k : Keypad, k.keybuf_head = k.keybuf_tail → keypad_get_keycode k = some (0, k)) := by
  refine ⟨fun k cs hi he hl hc => ?_, keypad_get_empty⟩
  have h0 : keybuf_contents k = [] := (keybuf_empty_iff k hi).2 he
  have hk : keybuf_count k = 0 := by
    unfold keybuf_count; obtain ⟨h1, h2⟩ := hi; omega
  have hm : cs.map (· % 256) = cs := by
    conv_rhs => rw [← List.map_id cs]
    exact List.map_congr_left (fun c h => Nat.mod_eq_of_lt (hc c h))
  obtain ⟨k1, e1, i1, c1⟩ := enqueue_keycodes_spec cs k hi (by omega)
  rw [h0, List.nil_append, hm] at c1
  obtain ⟨k2, e2, i2, -, c2⟩ := get_keycodes_spec cs k1 i1 c1
  rw [hm] at e2
  exact ⟨k1, k2, e1, e2, keypad_get_empty k2 ((keybuf_empty_iff k2 i2).1 c2)⟩

/-- Witness for C29: the keycodes `H`, `1`, `C` through the initial, empty buffer. -/
theorem keybuf_fifo_witness :
    ∃ k1 k2, enqueue_keycodes [72, 49, 67] {} = some k1 ∧
      get_keycodes 3 k1 = some ([72, 49, 67], k2) ∧
      keypad_get_keycode k2 = some (0, k2) :=
  keybuf_fifo.1 {} [72, 49, 67] ⟨by decide, by decide⟩ rfl (by decide) (by decide)

/-- C30: bounds and overflow of the keycode buffer. The predicate
`keybuf_head < 16 and keybuf_tail < 16` holds initially; under it
`keypad_enqueue_keycode` and `keypad_get_keycode` access `keybuf_buf` inside the array and
keep it, and `keypad_keyclick_handler`, the key-release flush included, keeps it. The
buffer holds 15 keycodes exactly when `(head + 1) mod 16 = tail`, and then
`keypad_enqueue_keycode` changes nothing: head, tail and the array are as before. In
every case the keycodes stored before `keypad_enqueue_keycode` are still stored after it,
in the same order and in front of the new one. -/
theorem keybuf_bounds :
    KeybufInv {} ∧
    (∀ (c : Nat) (k : Keypad), KeybufInv k →
      ∃ k', keypad_enqueue_keycode c k = some k' ∧ KeybufInv k' ∧
        ∃ l, keybuf_contents k' = keybuf_contents k ++ l) ∧
    (∀ k : Keypad, KeybufInv k →
      ∃ d k', keypad_get_keycode k = some (d, k') ∧ KeybufInv k') ∧
    (∀ (keydown : Bool) (k : Keypad), KeybufInv k →
      KeybufInv (keypad_keyclick_handler keydown k)) ∧
    (∀ k : Keypad, KeybufInv k →
      (keybuf_count k = 15 ↔ (k.keybuf_head + 1) % 16 = k.keybuf_tail)) ∧
    (∀ (c : Nat) (k : Keypad), (k.keybuf_head + 1) % 16 = k.keybuf_tail →
      keypad_enqueue_keycode c k = some k) := by
  have full : ∀ (c : Nat) (k : Keypad), (k.keybuf_head + 1) % 16 = k.keybuf_tail →
      keypad_enqueue_keycode c k = some k := by
    intro c k h
    have hb : ((k.keybuf_head + 1) % 2 ^ 32) &&& (KEYBUF_SIZE - 1) = k.keybuf_tail := by
      rw [and_keybuf_mask]; omega
    simp only [keypad_enqueue_keycode, hb, ne_eq, not_true_eq_false, if_false]
  refine ⟨⟨by decide, by decide⟩, fun c k hi => ?_, fun k hi => ?_, fun keydown k hi => ?_,
    fun k hi => ?_, full⟩
  · by_cases hf : (k.keybuf_head + 1) % 16 = k.keybuf_tail
    · exact ⟨k, full c k hf, hi, [], by simp⟩
    · have hn : keybuf_count k < 15 := by
        unfold keybuf_count; obtain ⟨h1, h2⟩ := hi; omega
      obtain ⟨k', e, i, -, -, l⟩ := keypad_enqueue_spec c k hi hn
      exact ⟨k', e, i, _, l⟩
  · by_cases he : k.keybuf_head = k.keybuf_tail
    · exact ⟨0, k, keypad_get_empty k he, hi⟩
    · have hb : ((k.keybuf_tail + 1) % 2 ^ 32) &&& (KEYBUF_SIZE - 1)
          = (k.keybuf_tail + 1) % 16 := by
        rw [and_keybuf_mask]; omega
      refine ⟨k.keybuf_buf ⟨k.keybuf_tail, hi.2⟩ % 256,
        { k with keybuf_tail := (k.keybuf_tail + 1) % 16 }, ?_,
        ⟨hi.1, Nat.mod_lt _ (by decide)⟩⟩
      simp only [keypad_get_keycode, ne_eq, Ne.symm he, not_false_eq_true, if_true, hi.2,
        dif_pos, hb]
  · unfold keypad_keyclick_handler
    cases keydown
    · cases hj : k.jogging
      · simpa [hj] using hi
      · simp [hj, KeybufInv]
    · simpa using hi
  · unfold keybuf_count; obtain ⟨h1, h2⟩ := hi; omega

/-- Witness for C30: an enqueue with head at the last entry, the flush on key release while
jogging, and an enqueue into a full buffer. -/
theorem keybuf_bounds_witness :
    (∃ k', keypad_enqueue_keycode 72 { keybuf_head := 15, keybuf_tail := 3 } = some k' ∧
      KeybufInv k' ∧
      ∃ l, keybuf_contents k'
        = keybuf_contents { keybuf_head := 15, keybuf_tail := 3 } ++ l) ∧
    KeybufInv (keypad_keyclick_handler false
      { jogging := true, keybuf_head := 15, keybuf_tail := 3 }) ∧
    keypad_enqueue_keycode 72 { keybuf_head := 2, keybuf_tail := 3 }
      = some { keybuf_head := 2, keybuf_tail := 3 } :=
  ⟨keybuf_bounds.2.1 72 { keybuf_head := 15, keybuf_tail := 3 } ⟨by decide, by decide⟩,
    keybuf_bounds.2.2.2.1 false { jogging := true, keybuf_head := 15, keybuf_tail := 3 }
      ⟨by decide, by decide⟩,
    keybuf_bounds.2.2.2.2.2 72 { keybuf_head := 2, keybuf_tail := 3 } (by decide)⟩

end Grbl
